import Mathlib

/-!
# guile-gi: the value marshaller, the forward-call engine and the reverse-call engine

A shallow embedding of `src/gig_value.c`, `src/gig_argument.c`, `src/gig_function.c`,
`src/gir_callback.c` and `src/gi/gir_callback.c`, and of `gname_to_scm_name` and
`store_gerror_message` of `src/gir_func2.c`.  Host (Scheme) values are the
inductive type `SCM`, typed C values are `GValue`s (a `GType` tag and a payload), raw
arguments of a call are `GIArgument`s, and every function keeps the name and the
control flow of its C source.

Conventions of the embedding:

* a C function that can leave through a Scheme error (`scm_misc_error`,
  `scm_out_of_range`, ...) or that can stop the process (`g_error`, a failed
  `g_assert`, an invalid memory access) returns `Except Throw _`;
* the `GigValueReturn` code of a marshaller is returned next to the updated
  destination, because the C code writes the destination through a pointer;
* GLib setters and getters keep their `g_return_if_fail` type checks: a setter
  applied to a `GValue` of the wrong type leaves it unchanged and a getter
  returns zero.
-/

namespace Gig

/-! ## Platform -/

/-- C data model of the target.  `int` is 32 bits wide in all three (GLib needs
`gint32 = int`); the model fixes the width of `long` and of pointers. -/
inductive DataModel where
  | ILP32
  | LLP64
  | LP64
  deriving DecidableEq, Repr

/-- Width of `long` in bits. -/
def LONG_BITS : DataModel → Nat
  | .ILP32 => 32
  | .LLP64 => 32
  | .LP64 => 64

/-- Width of a pointer and of `size_t` in bits. -/
def POINTER_BITS : DataModel → Nat
  | .ILP32 => 32
  | .LLP64 => 64
  | .LP64 => 64

def INT8_MIN : Int := -128
def INT8_MAX : Int := 127
def UINT8_MAX : Int := 255
def INT16_MIN : Int := -32768
def INT16_MAX : Int := 32767
def UINT16_MAX : Int := 65535
def INT32_MIN : Int := -2147483648
def INT32_MAX : Int := 2147483647
def UINT32_MAX : Int := 4294967295
def INT64_MIN : Int := -9223372036854775808
def INT64_MAX : Int := 9223372036854775807
def UINT64_MAX : Int := 18446744073709551615
def INT_MIN : Int := INT32_MIN
def INT_MAX : Int := INT32_MAX
def UINT_MAX : Int := UINT32_MAX
def LONG_MIN (D : DataModel) : Int := -(2 ^ (LONG_BITS D - 1))
def LONG_MAX (D : DataModel) : Int := 2 ^ (LONG_BITS D - 1) - 1
def ULONG_MAX (D : DataModel) : Int := 2 ^ LONG_BITS D - 1
def SIZE_MAX (D : DataModel) : Int := 2 ^ POINTER_BITS D - 1

/-- Conversion of a C integer to an unsigned type of `w` bits. -/
def wrap_unsigned (w : Nat) (v : Int) : Int := v % 2 ^ w

/-- Conversion of a C integer to a signed two's-complement type of `w` bits. -/
def wrap_signed (w : Nat) (v : Int) : Int := (v + 2 ^ (w - 1)) % 2 ^ w - 2 ^ (w - 1)

/-! ## Ways of not returning -/

/-- How a function of the marshaller, or one of its collaborators, leaves without
returning to its caller: one of the Scheme errors `wrong-type-arg`, `out-of-range` and
`misc-error`, or `abort` when the process stops (`g_error`, a failed assertion) or the
C behaviour is undefined (invalid memory access, use of an indeterminate value). -/
inductive Throw where
  | wrong_type_arg (pos : Nat)
  | out_of_range
  | misc_error (msg : String)
  | abort
  deriving DecidableEq, Repr

/-- Result codes of the marshaller, `gig_value.h`. -/
inductive GigValueReturn where
  | GIG_VALUE_OK
  | GIG_VALUE_INVALID
  | GIG_VALUE_VOID
  | GIG_VALUE_UNIMPLEMENTED
  | GIG_VALUE_OUT_OF_RANGE
  | GIG_VALUE_WRONG_TYPE
  deriving DecidableEq, Repr

export GigValueReturn (GIG_VALUE_OK GIG_VALUE_INVALID GIG_VALUE_VOID GIG_VALUE_UNIMPLEMENTED
  GIG_VALUE_OUT_OF_RANGE GIG_VALUE_WRONG_TYPE)

/-! ## GType -/

/-- Modelled from the spec: the type identities of `gig_data_type.h`, which is not
among the sources.  The constructors up to `G_TYPE_VARIANT` are fundamental types;
the others are derived types, arranged the way `gig_value2arg` and `gig_arg2value`
dispatch on them (`G_TYPE_INT16`, `G_TYPE_INT32` and `G_TYPE_UNICHAR` under
`G_TYPE_INT`; `G_TYPE_UINT16` and `G_TYPE_UINT32` under `G_TYPE_UINT`; the array and
list flavours under `G_TYPE_BOXED`).  The `*_class` constructors stand for the types
registered at run time from a typelib; an interface records whether `GObject` is
among its prerequisites. -/
inductive GType where
  | G_TYPE_INVALID
  | G_TYPE_NONE
  | G_TYPE_VOID
  | G_TYPE_INTERFACE
  | G_TYPE_CHAR
  | G_TYPE_UCHAR
  | G_TYPE_BOOLEAN
  | G_TYPE_INT
  | G_TYPE_UINT
  | G_TYPE_LONG
  | G_TYPE_ULONG
  | G_TYPE_INT64
  | G_TYPE_UINT64
  | G_TYPE_ENUM
  | G_TYPE_FLAGS
  | G_TYPE_FLOAT
  | G_TYPE_DOUBLE
  | G_TYPE_STRING
  | G_TYPE_POINTER
  | G_TYPE_BOXED
  | G_TYPE_PARAM
  | G_TYPE_OBJECT
  | G_TYPE_VARIANT
  | G_TYPE_INT16
  | G_TYPE_INT32
  | G_TYPE_UNICHAR
  | G_TYPE_UINT16
  | G_TYPE_UINT32
  | G_TYPE_LOCALE_STRING
  | G_TYPE_GTYPE
  | G_TYPE_CALLBACK
  | G_TYPE_LENGTH_CARRAY
  | G_TYPE_FIXED_SIZE_CARRAY
  | G_TYPE_ZERO_TERMINATED_CARRAY
  | G_TYPE_ARRAY
  | G_TYPE_BYTE_ARRAY
  | G_TYPE_PTR_ARRAY
  | G_TYPE_LIST
  | G_TYPE_SLIST
  | enum_class (id : Nat)
  | flags_class (id : Nat)
  | boxed_class (id : Nat)
  | object_class (id : Nat)
  | interface_class (id : Nat) (object_prerequisite : Bool)
  deriving DecidableEq, Repr

export GType (G_TYPE_INVALID G_TYPE_NONE G_TYPE_VOID G_TYPE_INTERFACE G_TYPE_CHAR G_TYPE_UCHAR
  G_TYPE_BOOLEAN G_TYPE_INT G_TYPE_UINT G_TYPE_LONG G_TYPE_ULONG G_TYPE_INT64 G_TYPE_UINT64
  G_TYPE_ENUM G_TYPE_FLAGS G_TYPE_FLOAT G_TYPE_DOUBLE G_TYPE_STRING G_TYPE_POINTER G_TYPE_BOXED
  G_TYPE_PARAM G_TYPE_OBJECT G_TYPE_VARIANT G_TYPE_INT16 G_TYPE_INT32 G_TYPE_UNICHAR
  G_TYPE_UINT16 G_TYPE_UINT32 G_TYPE_LOCALE_STRING G_TYPE_GTYPE G_TYPE_CALLBACK
  G_TYPE_LENGTH_CARRAY G_TYPE_FIXED_SIZE_CARRAY G_TYPE_ZERO_TERMINATED_CARRAY G_TYPE_ARRAY
  G_TYPE_BYTE_ARRAY G_TYPE_PTR_ARRAY G_TYPE_LIST G_TYPE_SLIST)

/-- Modelled from the spec: `G_TYPE_FUNDAMENTAL`, the root of a type in the
hierarchy described at `GType`. -/
def G_TYPE_FUNDAMENTAL : GType → GType
  | G_TYPE_INT16 => G_TYPE_INT
  | G_TYPE_INT32 => G_TYPE_INT
  | G_TYPE_UNICHAR => G_TYPE_INT
  | G_TYPE_UINT16 => G_TYPE_UINT
  | G_TYPE_UINT32 => G_TYPE_UINT
  | G_TYPE_LOCALE_STRING => G_TYPE_STRING
  | G_TYPE_GTYPE => G_TYPE_POINTER
  | G_TYPE_CALLBACK => G_TYPE_POINTER
  | G_TYPE_LENGTH_CARRAY => G_TYPE_BOXED
  | G_TYPE_FIXED_SIZE_CARRAY => G_TYPE_BOXED
  | G_TYPE_ZERO_TERMINATED_CARRAY => G_TYPE_BOXED
  | G_TYPE_ARRAY => G_TYPE_BOXED
  | G_TYPE_BYTE_ARRAY => G_TYPE_BOXED
  | G_TYPE_PTR_ARRAY => G_TYPE_BOXED
  | G_TYPE_LIST => G_TYPE_BOXED
  | G_TYPE_SLIST => G_TYPE_BOXED
  | .enum_class _ => G_TYPE_ENUM
  | .flags_class _ => G_TYPE_FLAGS
  | .boxed_class _ => G_TYPE_BOXED
  | .object_class _ => G_TYPE_OBJECT
  | .interface_class _ _ => G_TYPE_INTERFACE
  | t => t

/-- GLib's `g_type_is_a` on the hierarchy of `GType`: a type conforms to itself, to
its fundamental type, and an interface conforms to `G_TYPE_OBJECT` when `GObject`
is one of its prerequisites. -/
def g_type_is_a (t is_a_type : GType) : Bool :=
  decide (t = is_a_type) || decide (G_TYPE_FUNDAMENTAL t = is_a_type) ||
    (match t with
     | .interface_class _ p => p && decide (is_a_type = G_TYPE_OBJECT)
     | _ => false)

/-! ## C-side data -/

/-- A C pointer value.  `addr a` is a plain machine address (`addr 0` is `NULL`);
`host_bytes` is the address of the contents of a host byte-buffer
(`SCM_BYTEVECTOR_CONTENTS`) and `cstring` the address of a `char` buffer, both
carrying the bytes found there. -/
inductive Ptr where
  | addr (a : Nat)
  | host_bytes (contents : List Nat)
  | cstring (buf : List Nat)
  deriving DecidableEq, Repr

/-- The null pointer. -/
def Ptr.null : Ptr := Ptr.addr 0

def Ptr.is_null (p : Ptr) : Bool := decide (p = Ptr.null)

/-- One element of a `GArray`: `raw` bytes for an element of a numeric kind, or a
pointer for an element of pointer kind. -/
inductive Elem where
  | raw (bytes : List Nat)
  | ptr (p : Ptr)
  deriving DecidableEq, Repr

/-- GLib's `GArray`: `len` is the number of elements in `data`. -/
structure GArray where
  element_size : Nat
  data : List Elem
  deriving DecidableEq, Repr

def GArray.len (a : GArray) : Nat := a.data.length

/-- `g_array_new (FALSE, TRUE, element_size)`: an empty array. -/
def g_array_new (element_size : Nat) : GArray := { element_size := element_size, data := [] }

/-- What a `GValue` of fundamental type `G_TYPE_BOXED` points to. -/
inductive Boxed where
  | null
  | array (a : GArray)
  | byte_array (bytes : List Nat)
  | ptr_array (pdata : List Ptr)
  | list (items : List Ptr)
  | slist (items : List Ptr)
  | other (p : Ptr)
  deriving DecidableEq, Repr

/-- The payload of a `GValue` (the union `data[0]`): C integers of every width,
booleans as `0`/`1`, floating-point numbers as the rational they denote, a `char *`
(`none` is `NULL`), a pointer, a boxed pointer, an object or a variant pointer. -/
inductive GData where
  | int (v : Int)
  | real (q : Rat)
  | string (s : Option (List Nat))
  | pointer (p : Ptr)
  | boxed (b : Boxed)
  | object (p : Ptr)
  | variant (p : Ptr)
  deriving DecidableEq, Repr

/-- GLib's `GValue`: a type tag and a payload. -/
structure GValue where
  g_type : GType
  data : GData
  deriving DecidableEq, Repr

/-- The all-zero payload as it reads for a type of fundamental type `fund`. -/
def zero_data (fund : GType) : GData :=
  match fund with
  | G_TYPE_FLOAT => .real 0
  | G_TYPE_DOUBLE => .real 0
  | G_TYPE_STRING => .string none
  | G_TYPE_POINTER => .pointer Ptr.null
  | G_TYPE_BOXED => .boxed .null
  | G_TYPE_OBJECT => .object Ptr.null
  | G_TYPE_INTERFACE => .object Ptr.null
  | G_TYPE_VARIANT => .variant Ptr.null
  | _ => .int 0

/-- `G_VALUE_INIT`: the untyped, zero-filled value. -/
def G_VALUE_INIT : GValue := { g_type := G_TYPE_INVALID, data := .int 0 }

/-- `g_value_init` on a zero-filled value: the value gets the type and the zero of
that type; `G_TYPE_INVALID` and `G_TYPE_NONE` are not value types and leave the value
untyped. -/
def g_value_init (t : GType) : GValue :=
  if t = G_TYPE_INVALID ∨ t = G_TYPE_NONE then G_VALUE_INIT
  else { g_type := t, data := zero_data (G_TYPE_FUNDAMENTAL t) }

/-- `G_VALUE_HOLDS (v, t)`. -/
def G_VALUE_HOLDS (v : GValue) (t : GType) : Bool := g_type_is_a v.g_type t

/-- `G_VALUE_TYPE (v)`. -/
def G_VALUE_TYPE (v : GValue) : GType := v.g_type

def g_value_set_schar (v : GValue) (x : Int) : GValue :=
  if G_VALUE_HOLDS v G_TYPE_CHAR then { v with data := .int x } else v

def g_value_set_uchar (v : GValue) (x : Int) : GValue :=
  if G_VALUE_HOLDS v G_TYPE_UCHAR then { v with data := .int x } else v

def g_value_set_boolean (v : GValue) (x : Bool) : GValue :=
  if G_VALUE_HOLDS v G_TYPE_BOOLEAN then { v with data := .int (if x then 1 else 0) } else v

def g_value_set_int (v : GValue) (x : Int) : GValue :=
  if G_VALUE_HOLDS v G_TYPE_INT then { v with data := .int x } else v

def g_value_set_uint (v : GValue) (x : Int) : GValue :=
  if G_VALUE_HOLDS v G_TYPE_UINT then { v with data := .int x } else v

def g_value_set_long (v : GValue) (x : Int) : GValue :=
  if G_VALUE_HOLDS v G_TYPE_LONG then { v with data := .int x } else v

def g_value_set_ulong (v : GValue) (x : Int) : GValue :=
  if G_VALUE_HOLDS v G_TYPE_ULONG then { v with data := .int x } else v

def g_value_set_int64 (v : GValue) (x : Int) : GValue :=
  if G_VALUE_HOLDS v G_TYPE_INT64 then { v with data := .int x } else v

def g_value_set_uint64 (v : GValue) (x : Int) : GValue :=
  if G_VALUE_HOLDS v G_TYPE_UINT64 then { v with data := .int x } else v

def g_value_set_enum (v : GValue) (x : Int) : GValue :=
  if G_VALUE_HOLDS v G_TYPE_ENUM then { v with data := .int x } else v

def g_value_set_flags (v : GValue) (x : Int) : GValue :=
  if G_VALUE_HOLDS v G_TYPE_FLAGS then { v with data := .int x } else v

def g_value_set_float (v : GValue) (x : Rat) : GValue :=
  if G_VALUE_HOLDS v G_TYPE_FLOAT then { v with data := .real x } else v

def g_value_set_double (v : GValue) (x : Rat) : GValue :=
  if G_VALUE_HOLDS v G_TYPE_DOUBLE then { v with data := .real x } else v

/-- `g_value_set_static_string`: the value points to the caller's buffer. -/
def g_value_set_static_string (v : GValue) (s : Option (List Nat)) : GValue :=
  if G_VALUE_HOLDS v G_TYPE_STRING then { v with data := .string s } else v

/-- `g_value_take_string`: as `g_value_set_static_string`, and the value owns the
buffer (ownership is not part of the model). -/
def g_value_take_string (v : GValue) (s : Option (List Nat)) : GValue :=
  if G_VALUE_HOLDS v G_TYPE_STRING then { v with data := .string s } else v

def g_value_set_pointer (v : GValue) (p : Ptr) : GValue :=
  if G_VALUE_HOLDS v G_TYPE_POINTER then { v with data := .pointer p } else v

def g_value_set_boxed (v : GValue) (b : Boxed) : GValue :=
  if G_VALUE_HOLDS v G_TYPE_BOXED then { v with data := .boxed b } else v

def g_value_take_boxed (v : GValue) (b : Boxed) : GValue :=
  if G_VALUE_HOLDS v G_TYPE_BOXED then { v with data := .boxed b } else v

def g_value_set_object (v : GValue) (p : Ptr) : GValue :=
  if G_VALUE_HOLDS v G_TYPE_OBJECT then { v with data := .object p } else v

def g_value_set_variant (v : GValue) (p : Ptr) : GValue :=
  if G_VALUE_HOLDS v G_TYPE_VARIANT then { v with data := .variant p } else v

/-- The integer stored in the payload, `0` when the payload is of another shape. -/
def GData.as_int : GData → Int
  | .int x => x
  | _ => 0

/-- The floating-point number stored in the payload. -/
def GData.as_real : GData → Rat
  | .real q => q
  | _ => 0

/-- The pointer stored in the payload. -/
def GData.as_pointer : GData → Ptr
  | .pointer p => p
  | .object p => p
  | .variant p => p
  | _ => Ptr.null

def g_value_get_schar (v : GValue) : Int :=
  if G_VALUE_HOLDS v G_TYPE_CHAR then v.data.as_int else 0

def g_value_get_uchar (v : GValue) : Int :=
  if G_VALUE_HOLDS v G_TYPE_UCHAR then v.data.as_int else 0

def g_value_get_boolean (v : GValue) : Int :=
  if G_VALUE_HOLDS v G_TYPE_BOOLEAN then v.data.as_int else 0

def g_value_get_int (v : GValue) : Int :=
  if G_VALUE_HOLDS v G_TYPE_INT then v.data.as_int else 0

def g_value_get_uint (v : GValue) : Int :=
  if G_VALUE_HOLDS v G_TYPE_UINT then v.data.as_int else 0

def g_value_get_long (v : GValue) : Int :=
  if G_VALUE_HOLDS v G_TYPE_LONG then v.data.as_int else 0

def g_value_get_ulong (v : GValue) : Int :=
  if G_VALUE_HOLDS v G_TYPE_ULONG then v.data.as_int else 0

def g_value_get_int64 (v : GValue) : Int :=
  if G_VALUE_HOLDS v G_TYPE_INT64 then v.data.as_int else 0

def g_value_get_uint64 (v : GValue) : Int :=
  if G_VALUE_HOLDS v G_TYPE_UINT64 then v.data.as_int else 0

def g_value_get_enum (v : GValue) : Int :=
  if G_VALUE_HOLDS v G_TYPE_ENUM then v.data.as_int else 0

def g_value_get_flags (v : GValue) : Int :=
  if G_VALUE_HOLDS v G_TYPE_FLAGS then v.data.as_int else 0

def g_value_get_float (v : GValue) : Rat :=
  if G_VALUE_HOLDS v G_TYPE_FLOAT then v.data.as_real else 0

def g_value_get_double (v : GValue) : Rat :=
  if G_VALUE_HOLDS v G_TYPE_DOUBLE then v.data.as_real else 0

def g_value_get_string (v : GValue) : Option (List Nat) :=
  if G_VALUE_HOLDS v G_TYPE_STRING then
    (match v.data with
     | .string s => s
     | _ => none)
  else none

def g_value_get_pointer (v : GValue) : Ptr :=
  if G_VALUE_HOLDS v G_TYPE_POINTER then v.data.as_pointer else Ptr.null

def g_value_get_boxed (v : GValue) : Boxed :=
  if G_VALUE_HOLDS v G_TYPE_BOXED then
    (match v.data with
     | .boxed b => b
     | _ => .null)
  else .null

def g_value_get_object (v : GValue) : Ptr :=
  if G_VALUE_HOLDS v G_TYPE_OBJECT then v.data.as_pointer else Ptr.null

def g_value_get_variant (v : GValue) : Ptr :=
  if G_VALUE_HOLDS v G_TYPE_VARIANT then v.data.as_pointer else Ptr.null

/-- The bytes of a C string: what precedes the first NUL of its buffer. -/
def c_string_bytes (buf : List Nat) : List Nat := buf.takeWhile (fun b => decide (b ≠ 0))

/-- `g_value_dup_string`: a fresh NUL-terminated copy of the C string, `NULL` for
`NULL`. -/
def g_value_dup_string (v : GValue) : Option (List Nat) :=
  (g_value_get_string v).map (fun buf => c_string_bytes buf ++ [0])

/-! ## Host values -/

/-- Element type of a host uniform numeric vector. -/
inductive UvecTag where
  | s8 | u8 | s16 | u16 | s32 | u32 | s64 | u64 | f32 | f64
  deriving DecidableEq, Repr

/-- Host (Scheme) values.  `int` is an exact integer, `real` an inexact real (given by
the rational it denotes), `uvector` a uniform numeric vector (each element by its
bytes), `pair`/`eol` build lists, `pointer` is a foreign pointer object, `object` any
other heap object of the host (a GOOPS instance, a wrapped C object), `values` the
multiple-values object that `scm_values` makes of a list. -/
inductive SCM where
  | bool (b : Bool)
  | int (n : Int)
  | real (q : Rat)
  | char (c : Char)
  | string (s : List Char)
  | bytevector (bytes : List Nat)
  | vector (elts : List SCM)
  | uvector (tag : UvecTag) (elts : List (List Nat))
  | pair (car cdr : SCM)
  | eol
  | pointer (p : Ptr)
  | procedure (id : Nat)
  | object (id : Nat)
  | values (vs : List SCM)
  | unspecified
  | undefined
  deriving Repr

def SCM_BOOL_T : SCM := SCM.bool true
def SCM_BOOL_F : SCM := SCM.bool false
def SCM_EOL : SCM := SCM.eol
def SCM_UNSPECIFIED : SCM := SCM.unspecified

/-- `scm_is_false (x)`: `x` is the object `#f`. -/
def scm_is_false : SCM → Bool
  | .bool false => true
  | _ => false

/-- `scm_is_true (x)`: `x` is not `#f`. -/
def scm_is_true (x : SCM) : Bool := !scm_is_false x

/-- `scm_is_eq (x, SCM_BOOL_T)`. -/
def scm_is_eq_bool_t : SCM → Bool
  | .bool true => true
  | _ => false

/-- `scm_is_eq (x, SCM_UNSPECIFIED)`. -/
def scm_is_eq_unspecified : SCM → Bool
  | .unspecified => true
  | _ => false

/-- `scm_is_integer`: exact integers and inexact reals with an integral value. -/
def scm_is_integer : SCM → Bool
  | .int _ => true
  | .real q => decide (q.den = 1)
  | _ => false

/-- `scm_is_real`: exact integers and inexact reals (exact fractions are not part of
the model). -/
def scm_is_real : SCM → Bool
  | .int _ => true
  | .real _ => true
  | _ => false

def SCM_CHARP : SCM → Bool
  | .char _ => true
  | _ => false

def scm_is_string : SCM → Bool
  | .string _ => true
  | _ => false

def scm_is_bytevector : SCM → Bool
  | .bytevector _ => true
  | _ => false

def scm_is_vector : SCM → Bool
  | .vector _ => true
  | _ => false

def SCM_POINTER_P : SCM → Bool
  | .pointer _ => true
  | _ => false

/-- `scm_is_true (scm_procedure_p (x))`. -/
def scm_procedure_p : SCM → Bool
  | .procedure _ => true
  | _ => false

/-- `scm_is_signed_integer (x, min, max)`: `x` is an exact integer in the range. -/
def scm_is_signed_integer (x : SCM) (min max : Int) : Bool :=
  match x with
  | .int n => decide (min ≤ n ∧ n ≤ max)
  | _ => false

/-- `scm_is_unsigned_integer (x, min, max)`: `x` is an exact integer in the range. -/
def scm_is_unsigned_integer (x : SCM) (min max : Int) : Bool :=
  match x with
  | .int n => decide (min ≤ n ∧ n ≤ max)
  | _ => false

/-- The `scm_to_int8`, `scm_to_int`, `scm_to_uint64`, ... family: the exact integer
when it lies in the range of the C type, the Scheme error `out-of-range` when it does
not, `wrong-type-arg` when the value is not an exact integer. -/
def scm_to_integer (min max : Int) (x : SCM) : Except Throw Int :=
  match x with
  | .int n => if min ≤ n ∧ n ≤ max then .ok n else .error .out_of_range
  | _ => .error (.wrong_type_arg 0)

def scm_to_int8 (x : SCM) : Except Throw Int := scm_to_integer INT8_MIN INT8_MAX x
def scm_to_uint8 (x : SCM) : Except Throw Int := scm_to_integer 0 UINT8_MAX x
def scm_to_int (x : SCM) : Except Throw Int := scm_to_integer INT_MIN INT_MAX x
def scm_to_uint (x : SCM) : Except Throw Int := scm_to_integer 0 UINT_MAX x
def scm_to_long (D : DataModel) (x : SCM) : Except Throw Int :=
  scm_to_integer (LONG_MIN D) (LONG_MAX D) x
def scm_to_ulong (D : DataModel) (x : SCM) : Except Throw Int :=
  scm_to_integer 0 (ULONG_MAX D) x
def scm_to_int64 (x : SCM) : Except Throw Int := scm_to_integer INT64_MIN INT64_MAX x
def scm_to_uint64 (x : SCM) : Except Throw Int := scm_to_integer 0 UINT64_MAX x
def scm_to_size_t (D : DataModel) (x : SCM) : Except Throw Int :=
  scm_to_integer 0 (SIZE_MAX D) x

/-- `scm_to_double`: the value of a real number, `wrong-type-arg` otherwise.  Rounding
to the `double` format is not part of the model. -/
def scm_to_double : SCM → Except Throw Rat
  | .int n => .ok n
  | .real q => .ok q
  | _ => .error (.wrong_type_arg 0)

/-- `SCM_CHAR (x)`: the code point of a character.  On any other object the macro
reads bits that are not a code point; the model stops there. -/
def SCM_CHAR : SCM → Except Throw Int
  | .char c => .ok c.toNat
  | _ => .error .abort

/-- `FLT_MAX`, the largest finite `float`. -/
def FLT_MAX : Rat := (2 ^ 24 - 1) * 2 ^ 104

/-! ### UTF-8 -/

/-- The UTF-8 encoding of one character. -/
def utf8_encode_char (c : Char) : List Nat :=
  if c.toNat < 0x80 then [c.toNat]
  else if c.toNat < 0x800 then [0xC0 + c.toNat / 0x40, 0x80 + c.toNat % 0x40]
  else if c.toNat < 0x10000 then
    [0xE0 + c.toNat / 0x1000, 0x80 + c.toNat / 0x40 % 0x40, 0x80 + c.toNat % 0x40]
  else
    [0xF0 + c.toNat / 0x40000, 0x80 + c.toNat / 0x1000 % 0x40, 0x80 + c.toNat / 0x40 % 0x40,
      0x80 + c.toNat % 0x40]

/-- The UTF-8 encoding of a string. -/
def utf8_encode : List Char → List Nat
  | [] => []
  | c :: s => utf8_encode_char c ++ utf8_encode s

/-- A continuation byte `10xxxxxx`. -/
def utf8_is_cont (b : Nat) : Bool := decide (0x80 ≤ b ∧ b < 0xC0)

/-- The character of code point `n`, when `n` is a Unicode scalar value. -/
def char_of_code_point (n : Nat) : Option Char :=
  if n.isValidChar then some (Char.ofNat n) else none

/-- A decoded character in front of the decoded rest of a string. -/
def utf8_cons : Option Char → Option (List Char) → Option (List Char)
  | some c, some s => some (c :: s)
  | _, _ => none

/-- Strict UTF-8 decoding, one byte at a time.  `pending` is the number of continuation
bytes still due for the current character, `acc` the bits read for it so far and `least`
the least code point its form may encode.  The result is `none` on a truncated
sequence, a stray continuation byte, an overlong form, a surrogate or a value above
`0x10FFFF`. -/
def utf8_decode_from : Nat → Nat → Nat → List Nat → Option (List Char)
  | 0, _, _, [] => some []
  | _ + 1, _, _, [] => none
  | 0, _, _, b :: rest =>
    if b < 0x80 then utf8_cons (char_of_code_point b) (utf8_decode_from 0 0 0 rest)
    else if 0xC0 ≤ b ∧ b < 0xE0 then utf8_decode_from 1 (b - 0xC0) 0x80 rest
    else if 0xE0 ≤ b ∧ b < 0xF0 then utf8_decode_from 2 (b - 0xE0) 0x800 rest
    else if 0xF0 ≤ b ∧ b < 0xF8 then utf8_decode_from 3 (b - 0xF0) 0x10000 rest
    else none
  | k + 1, acc, least, b :: rest =>
    if utf8_is_cont b then
      if k = 0 then
        if least ≤ acc * 0x40 + (b - 0x80) then
          utf8_cons (char_of_code_point (acc * 0x40 + (b - 0x80))) (utf8_decode_from 0 0 0 rest)
        else none
      else utf8_decode_from k (acc * 0x40 + (b - 0x80)) least rest
    else none

/-- Strict UTF-8 decoding of a byte sequence. -/
def utf8_decode (bytes : List Nat) : Option (List Char) := utf8_decode_from 0 0 0 bytes

/-- `scm_to_utf8_string`: a fresh NUL-terminated buffer with the UTF-8 encoding of a
host string; `wrong-type-arg` for any other host value. -/
def scm_to_utf8_string : SCM → Except Throw (List Nat)
  | .string s => .ok (utf8_encode s ++ [0])
  | _ => .error (.wrong_type_arg 1)

/-- `scm_from_utf8_string`: the host string that the C string in `buf` (the bytes before
its first NUL) encodes; a Scheme decoding error when they are not UTF-8. -/
def scm_from_utf8_string (buf : List Nat) : Except Throw SCM :=
  match utf8_decode (c_string_bytes buf) with
  | some s => .ok (SCM.string s)
  | none => .error (.misc_error "decoding-error")

/-! ## Type-Meta and the collaborators outside the sources -/

/-- The `GigTypeMeta` record of one typed slot (`gig_data_type.h` is not among the
sources; the fields are the ones the marshaller reads). -/
structure GigTypeMeta where
  gtype : GType
  is_ptr : Bool
  is_in : Bool
  is_out : Bool
  is_nullable : Bool
  is_transfer_ownership : Bool
  is_caller_allocates : Bool
  length : Nat
  item_size : Nat
  callable_info : Nat
  params : List GigTypeMeta
  deriving Repr

/-- The access `meta->params[0]`.  Reading it from a meta without parameters is an
invalid memory access. -/
def GigTypeMeta.params0 (meta : GigTypeMeta) : Except Throw GigTypeMeta :=
  match meta.params with
  | p :: _ => .ok p
  | [] => .error .abort

/-- Modelled from the spec: the collaborators of the marshaller that are not among
the sources, taken as parameters.  `scm_to_gtype`, `gig_type_peek_object` (the
registry's unwrap, null when the host value has no C object) and
`gig_type_transfer_object` (the registry's wrap) belong to `gig_type.c`;
`gig_callback_get_ptr` to `gig_callback.c`; `G_TYPE_CHECK_INSTANCE_TYPE` is GLib's
run-time instance check; the locale codec belongs to the host runtime;
`ieee_float` and `ieee_double` give the number that a bit pattern denotes.
`indeterminate_ret` and `indeterminate_value` are the contents of the local variables
that the C code reads before it has written them. -/
structure Env where
  model : DataModel
  scm_to_gtype : SCM → Except Throw Int
  gig_type_peek_object : SCM → Ptr
  gig_type_transfer_object : GType → Ptr → Bool → SCM
  gig_callback_get_ptr : Nat → SCM → Ptr
  G_TYPE_CHECK_INSTANCE_TYPE : Ptr → GType → Bool
  scm_to_locale_string : SCM → Except Throw (List Nat)
  scm_from_locale_string : List Nat → Except Throw SCM
  ieee_float : Nat → Rat
  ieee_double : Nat → Rat
  indeterminate_ret : GigValueReturn
  indeterminate_value : GValue

/-- `GSIZE_TO_POINTER`, `GINT_TO_POINTER`, `GUINT_TO_POINTER`: the integer converted to
the width of a pointer. -/
def GSIZE_TO_POINTER (D : DataModel) (n : Int) : Ptr :=
  Ptr.addr (wrap_unsigned (POINTER_BITS D) n).toNat

/-! ## Host to C: `gig_scm_to_value_full` and its helpers -/

def scm_interface_to_value (E : Env) (src : SCM) (meta : GigTypeMeta) (dest : GValue) :
    Except Throw (GigValueReturn × GValue) :=
  if meta.is_nullable ∧ scm_is_false src then
    .ok (GIG_VALUE_OK, g_value_set_object dest Ptr.null)
  else
    .ok (GIG_VALUE_UNIMPLEMENTED, g_value_set_object dest (E.gig_type_peek_object src))

def scm_char_to_value (src : SCM) (meta : GigTypeMeta) (dest : GValue) :
    Except Throw (GigValueReturn × GValue) :=
  if scm_is_integer src = false ∧ SCM_CHARP src = false then
    .ok (GIG_VALUE_WRONG_TYPE, dest)
  else if meta.gtype = G_TYPE_CHAR then
    if SCM_CHARP src then do
      let c ← SCM_CHAR src
      if c > 255 then pure (GIG_VALUE_OUT_OF_RANGE, dest)
      else pure (GIG_VALUE_OK, g_value_set_schar dest (wrap_signed 8 c))
    else if scm_is_signed_integer src INT8_MIN INT8_MAX = false then
      .ok (GIG_VALUE_OUT_OF_RANGE, dest)
    else do
      let v ← scm_to_int8 src
      pure (GIG_VALUE_OK, g_value_set_schar dest v)
  else if meta.gtype = G_TYPE_UCHAR then
    if SCM_CHARP src then do
      let c ← SCM_CHAR src
      if c > 255 then pure (GIG_VALUE_OUT_OF_RANGE, dest)
      else pure (GIG_VALUE_OK, g_value_set_uchar dest (wrap_unsigned 8 c))
    else if scm_is_unsigned_integer src 0 UINT8_MAX = false then
      .ok (GIG_VALUE_OUT_OF_RANGE, dest)
    else do
      let v ← scm_to_uint8 src
      pure (GIG_VALUE_OK, g_value_set_uchar dest v)
  else
    .error .abort

def scm_boolean_to_value (src : SCM) (_meta : GigTypeMeta) (dest : GValue) :
    Except Throw (GigValueReturn × GValue) :=
  if scm_is_eq_bool_t src = false ∧ scm_is_false src = false then
    .ok (GIG_VALUE_WRONG_TYPE, dest)
  else
    .ok (GIG_VALUE_OK, g_value_set_boolean dest (scm_is_true src))

def scm_integer_to_value (E : Env) (src : SCM) (meta : GigTypeMeta) (dest : GValue) :
    Except Throw (GigValueReturn × GValue) :=
  if scm_is_integer src = false ∧ SCM_CHARP src = false then
    .ok (GIG_VALUE_WRONG_TYPE, dest)
  else if (meta.gtype = G_TYPE_INT ∧ scm_is_signed_integer src INT_MIN INT_MAX = false)
      ∨ (meta.gtype = G_TYPE_LONG ∧
          scm_is_signed_integer src (LONG_MIN E.model) (LONG_MAX E.model) = false)
      ∨ (meta.gtype = G_TYPE_INT16 ∧ scm_is_signed_integer src INT16_MIN INT16_MAX = false)
      ∨ (meta.gtype = G_TYPE_INT32 ∧ scm_is_signed_integer src INT32_MIN INT32_MAX = false)
      ∨ (meta.gtype = G_TYPE_INT64 ∧ scm_is_signed_integer src INT64_MIN INT64_MAX = false)
      ∨ (meta.gtype = G_TYPE_UINT ∧ scm_is_unsigned_integer src 0 UINT_MAX = false)
      ∨ (meta.gtype = G_TYPE_ULONG ∧ scm_is_unsigned_integer src 0 (ULONG_MAX E.model) = false)
      ∨ (meta.gtype = G_TYPE_UINT16 ∧ scm_is_unsigned_integer src 0 UINT16_MAX = false)
      ∨ (meta.gtype = G_TYPE_UINT32 ∧ scm_is_unsigned_integer src 0 UINT32_MAX = false)
      ∨ (meta.gtype = G_TYPE_UINT64 ∧ scm_is_unsigned_integer src 0 UINT64_MAX = false) then
    .ok (GIG_VALUE_OUT_OF_RANGE, dest)
  else
    match meta.gtype with
    | G_TYPE_INT => do
      let v ← scm_to_int src
      pure (GIG_VALUE_OK, g_value_set_int dest v)
    | G_TYPE_LONG => do
      let v ← scm_to_long E.model src
      pure (GIG_VALUE_OK, g_value_set_long dest v)
    | G_TYPE_INT16 => do
      let v ← scm_to_int src
      pure (GIG_VALUE_OK, g_value_set_int dest v)
    | G_TYPE_INT32 => do
      let v ← scm_to_int src
      pure (GIG_VALUE_OK, g_value_set_int dest v)
    | G_TYPE_UNICHAR => do
      let v ← SCM_CHAR src
      pure (GIG_VALUE_OK, g_value_set_int dest v)
    | G_TYPE_INT64 => do
      let v ← scm_to_int64 src
      pure (GIG_VALUE_OK, g_value_set_int64 dest v)
    | G_TYPE_UINT => do
      let v ← scm_to_uint src
      pure (GIG_VALUE_OK, g_value_set_uint dest v)
    | G_TYPE_ULONG => do
      let v ← scm_to_ulong E.model src
      pure (GIG_VALUE_OK, g_value_set_ulong dest v)
    | G_TYPE_UINT16 => do
      let v ← scm_to_uint src
      pure (GIG_VALUE_OK, g_value_set_uint dest v)
    | G_TYPE_UINT32 => do
      let v ← scm_to_uint src
      pure (GIG_VALUE_OK, g_value_set_uint dest v)
    | G_TYPE_UINT64 => do
      let v ← scm_to_uint64 src
      pure (GIG_VALUE_OK, g_value_set_uint64 dest v)
    | _ => pure (GIG_VALUE_OK, dest)

def scm_enum_to_value (src : SCM) (meta : GigTypeMeta) (dest : GValue) :
    Except Throw (GigValueReturn × GValue) :=
  if scm_is_integer src = false then
    .ok (GIG_VALUE_WRONG_TYPE, dest)
  else if G_TYPE_FUNDAMENTAL meta.gtype = G_TYPE_ENUM then
    if meta.gtype = G_TYPE_ENUM then do
      let v ← scm_to_int src
      pure (GIG_VALUE_OK, g_value_set_int dest v)
    else do
      let v ← scm_to_int src
      pure (GIG_VALUE_OK, g_value_set_enum dest v)
  else if G_TYPE_FUNDAMENTAL meta.gtype = G_TYPE_FLAGS then
    if meta.gtype = G_TYPE_FLAGS then do
      let v ← scm_to_uint src
      pure (GIG_VALUE_OK, g_value_set_uint dest v)
    else do
      let v ← scm_to_uint src
      pure (GIG_VALUE_OK, g_value_set_flags dest v)
  else
    .ok (GIG_VALUE_OK, dest)

def scm_real_to_value (src : SCM) (meta : GigTypeMeta) (dest : GValue) :
    Except Throw (GigValueReturn × GValue) :=
  if scm_is_real src = false then
    .ok (GIG_VALUE_WRONG_TYPE, dest)
  else if meta.gtype = G_TYPE_FLOAT then do
    let dtmp ← scm_to_double src
    if dtmp > FLT_MAX ∨ dtmp < -FLT_MAX then pure (GIG_VALUE_OUT_OF_RANGE, dest)
    else pure (GIG_VALUE_OK, g_value_set_float dest dtmp)
  else if meta.gtype = G_TYPE_DOUBLE then do
    let d ← scm_to_double src
    pure (GIG_VALUE_OK, g_value_set_double dest d)
  else
    .ok (GIG_VALUE_OK, dest)

def scm_string_to_value (E : Env) (src : SCM) (meta : GigTypeMeta) (dest : GValue) :
    Except Throw (GigValueReturn × GValue) :=
  if meta.is_nullable ∧ scm_is_false src then
    .ok (GIG_VALUE_OK, g_value_set_static_string dest none)
  else if scm_is_string src = false ∧ scm_is_bytevector src = false then
    .ok (GIG_VALUE_WRONG_TYPE, dest)
  else if meta.is_ptr = false then
    .error .abort
  else do
    let p ← if meta.gtype = G_TYPE_LOCALE_STRING then E.scm_to_locale_string src
            else scm_to_utf8_string src
    if meta.is_transfer_ownership then
      pure (GIG_VALUE_OK, g_value_set_static_string dest (some p))
    else
      pure (GIG_VALUE_OK, g_value_take_string dest (some p))

def scm_pointer_to_value (E : Env) (src : SCM) (meta : GigTypeMeta) (dest : GValue) :
    Except Throw (GigValueReturn × GValue) :=
  if meta.is_nullable ∧ scm_is_false src then
    .ok (GIG_VALUE_OK, g_value_set_pointer dest Ptr.null)
  else if meta.gtype = G_TYPE_CALLBACK then
    if scm_procedure_p src = false then
      .ok (GIG_VALUE_WRONG_TYPE, dest)
    else
      .ok (GIG_VALUE_OK, g_value_set_pointer dest (E.gig_callback_get_ptr meta.callable_info src))
  else if meta.gtype = G_TYPE_GTYPE then do
    let t ← E.scm_to_gtype src
    pure (GIG_VALUE_OK, g_value_set_pointer dest (GSIZE_TO_POINTER E.model t))
  else
    match src with
    | .pointer p => .ok (GIG_VALUE_OK, g_value_set_pointer dest p)
    | .bytevector bytes => .ok (GIG_VALUE_OK, g_value_set_pointer dest (Ptr.host_bytes bytes))
    | _ => .ok (GIG_VALUE_WRONG_TYPE, dest)

def scm_variant_to_value (E : Env) (src : SCM) (_meta : GigTypeMeta) (dest : GValue) :
    Except Throw (GigValueReturn × GValue) :=
  .ok (GIG_VALUE_OK, g_value_set_variant dest (E.gig_type_peek_object src))

/-! ### Arrays -/

/-- The first `n` elements of `size` bytes each found at the start of `bytes`. -/
def byte_chunks (size : Nat) : Nat → List Nat → List Elem
  | 0, _ => []
  | n + 1, bytes => Elem.raw (bytes.take size) :: byte_chunks size n (bytes.drop size)

/-- The `size` bytes of the unsigned integer `n`, least significant first (the targets
of the bridge are little-endian). -/
def le_bytes : Nat → Nat → List Nat
  | 0, _ => []
  | size + 1, n => n % 256 :: le_bytes size (n / 256)

/-- A `GValue` whose boxed `GArray` has been modified in place. -/
def with_array (dest : GValue) (arr : GArray) : GValue := { dest with data := .boxed (.array arr) }

/-- The `g_array_append_val (arr, v)` of the vector path, where `arr` is the integer
that `g_value_get_boolean (dest)` returned, used as a `GArray *`: the call does
nothing for `NULL` (`g_return_val_if_fail`), and any other integer is not the
address of an array. -/
def g_array_append_val_at (arr : Int) : Except Throw Unit :=
  if arr = 0 then .ok () else .error .abort

/-- One turn of the `switch` in the vector path of `scm_array_to_value`: the element
`elt` is converted into the local `_dest = G_VALUE_INIT` and appended to `arr`.  `ret`
is the value the variable has when the turn starts. -/
def scm_array_to_value_element (E : Env) (p0 : GigTypeMeta) (arr : Int) (ret : GigValueReturn)
    (elt : SCM) : Except Throw GigValueReturn :=
  match G_TYPE_FUNDAMENTAL p0.gtype with
  | G_TYPE_INVALID => .ok ret
  | G_TYPE_NONE => .ok ret
  | G_TYPE_INTERFACE => do
    let r ← scm_interface_to_value E elt p0 G_VALUE_INIT
    g_array_append_val_at arr
    pure r.1
  | G_TYPE_CHAR => do
    let r ← scm_char_to_value elt p0 G_VALUE_INIT
    g_array_append_val_at arr
    pure r.1
  | G_TYPE_UCHAR => do
    let r ← scm_char_to_value elt p0 G_VALUE_INIT
    g_array_append_val_at arr
    pure r.1
  | G_TYPE_BOOLEAN => do
    let r ← scm_boolean_to_value elt p0 G_VALUE_INIT
    g_array_append_val_at arr
    pure r.1
  | G_TYPE_INT => do
    let r ← scm_integer_to_value E elt p0 G_VALUE_INIT
    g_array_append_val_at arr
    pure r.1
  | G_TYPE_UINT => do
    let r ← scm_integer_to_value E elt p0 G_VALUE_INIT
    g_array_append_val_at arr
    pure r.1
  | G_TYPE_INT64 => do
    let r ← scm_integer_to_value E elt p0 G_VALUE_INIT
    g_array_append_val_at arr
    pure r.1
  | G_TYPE_UINT64 => do
    let _ ← scm_integer_to_value E elt p0 G_VALUE_INIT
    g_array_append_val_at arr
    -- no `break`: control falls into the `G_TYPE_LONG` case
    let r ← scm_integer_to_value E elt p0 G_VALUE_INIT
    g_array_append_val_at arr
    pure r.1
  | G_TYPE_LONG => do
    let r ← scm_integer_to_value E elt p0 G_VALUE_INIT
    g_array_append_val_at arr
    pure r.1
  | G_TYPE_ULONG => do
    let r ← scm_integer_to_value E elt p0 G_VALUE_INIT
    g_array_append_val_at arr
    pure r.1
  | G_TYPE_ENUM => do
    let r ← scm_enum_to_value elt p0 G_VALUE_INIT
    g_array_append_val_at arr
    pure r.1
  | G_TYPE_FLAGS => do
    let r ← scm_enum_to_value elt p0 G_VALUE_INIT
    g_array_append_val_at arr
    pure r.1
  | G_TYPE_FLOAT => do
    let r ← scm_real_to_value elt p0 G_VALUE_INIT
    g_array_append_val_at arr
    pure r.1
  | G_TYPE_DOUBLE => do
    let r ← scm_real_to_value elt p0 G_VALUE_INIT
    g_array_append_val_at arr
    pure r.1
  | G_TYPE_STRING => do
    let r ← scm_string_to_value E elt p0 G_VALUE_INIT
    g_array_append_val_at arr
    pure r.1
  | G_TYPE_POINTER => do
    let r ← scm_pointer_to_value E elt p0 G_VALUE_INIT
    g_array_append_val_at arr
    pure r.1
  | G_TYPE_BOXED => .ok GIG_VALUE_UNIMPLEMENTED
  | G_TYPE_PARAM => .ok GIG_VALUE_UNIMPLEMENTED
  | G_TYPE_OBJECT => .ok GIG_VALUE_UNIMPLEMENTED
  | G_TYPE_VARIANT => do
    let r ← scm_variant_to_value E elt p0 G_VALUE_INIT
    g_array_append_val_at arr
    pure r.1
  | _ => .ok GIG_VALUE_INVALID

/-- The `for` loop of the vector path of `scm_array_to_value`: `some ret` when the
loop leaves the function with `return ret`, `none` when it runs to its end. -/
def scm_array_to_value_elements (E : Env) (meta : GigTypeMeta) (arr : Int) :
    GigValueReturn → List SCM → Except Throw (Option GigValueReturn)
  | _, [] => .ok none
  | ret, elt :: rest => do
    let p0 ← meta.params0
    let ret1 ← scm_array_to_value_element E p0 arr ret elt
    if ret1 ≠ GIG_VALUE_OK then pure (some ret1)
    else scm_array_to_value_elements E meta arr ret1 rest

/-- The store loop of the string path of `scm_array_to_value`,
`((gunichar *) (arr->data))[i] = SCM_CHAR (...)` for every `i` below the length of the
string.  The stores do not resize the array: they are valid only inside an array of
4-byte elements that already has at least as many elements as the string. -/
def store_unichars (arr : Boxed) (s : List Char) : Except Throw Boxed :=
  if s.length = 0 then .ok arr
  else
    match arr with
    | .array a =>
      if a.element_size = 4 ∧ s.length ≤ a.len then
        .ok (.array { a with data := s.map (fun c => Elem.raw (le_bytes 4 c.toNat)) ++
                                      a.data.drop s.length })
      else .error .abort
    | _ => .error .abort

def scm_array_to_value (E : Env) (src : SCM) (meta : GigTypeMeta) (dest : GValue) :
    Except Throw (GigValueReturn × GValue) :=
  match src with
  | .bytevector bytes => do
    let p0 ← meta.params0
    if p0.item_size = 0 then throw Throw.abort
    else
      let len := bytes.length / p0.item_size
      if meta.gtype = G_TYPE_FIXED_SIZE_CARRAY ∧ len ≠ meta.length then
        pure (GIG_VALUE_WRONG_TYPE, dest)
      else
        match g_value_get_boxed dest with
        | .array arr =>
          if meta.is_caller_allocates then
            pure (GIG_VALUE_OK, with_array dest { arr with data := byte_chunks arr.element_size len bytes })
          else
            pure (GIG_VALUE_OK,
              with_array dest { arr with data := arr.data ++ byte_chunks arr.element_size len bytes })
        | .null =>
          if meta.is_caller_allocates then throw Throw.abort
          else pure (GIG_VALUE_OK, dest)
        | _ => throw Throw.abort
  | .vector elts =>
    if meta.gtype = G_TYPE_FIXED_SIZE_CARRAY ∧ elts.length ≠ meta.length then
      .ok (GIG_VALUE_WRONG_TYPE, dest)
    else do
      let arr := g_value_get_boolean dest
      let r ← scm_array_to_value_elements E meta arr E.indeterminate_ret elts
      match r with
      | some ret => pure (ret, dest)
      | none => pure (GIG_VALUE_OK, dest)
  | .string s => do
    let p0 ← meta.params0
    if p0.gtype ≠ G_TYPE_UNICHAR then pure (GIG_VALUE_WRONG_TYPE, dest)
    else
      let arr ← store_unichars (g_value_get_boxed dest) s
      if s.length = 0 then pure (GIG_VALUE_OK, dest)
      else pure (GIG_VALUE_OK, { dest with data := .boxed arr })
  | _ => .ok (GIG_VALUE_OK, dest)

def scm_object_to_value (E : Env) (src : SCM) (meta : GigTypeMeta) (dest : GValue) :
    Except Throw (GigValueReturn × GValue) :=
  if g_type_is_a meta.gtype G_TYPE_OBJECT then
    if scm_is_false src then
      .ok (GIG_VALUE_OK, g_value_set_object dest Ptr.null)
    else if E.G_TYPE_CHECK_INSTANCE_TYPE (E.gig_type_peek_object src)
        (G_TYPE_FUNDAMENTAL meta.gtype) = false then
      .ok (GIG_VALUE_WRONG_TYPE, dest)
    else
      .ok (GIG_VALUE_OK, g_value_set_object dest (E.gig_type_peek_object src))
  else
    .ok (GIG_VALUE_UNIMPLEMENTED, dest)

/-! ### Lists -/

/-- The elements of a proper host list, `none` for any other host value
(`scm_list_p`). -/
def scm_list_elements : SCM → Option (List SCM)
  | .eol => some []
  | .pair a d =>
    match scm_list_elements d with
    | some l => some (a :: l)
    | none => none
  | _ => none

/-- The host list of the given elements (`scm_list_n`). -/
def scm_list : List SCM → SCM
  | [] => SCM.eol
  | x :: xs => SCM.pair x (scm_list xs)

/-- The pointer a `const gchar *` converts to. -/
def string_pointer : Option (List Nat) → Ptr
  | none => Ptr.null
  | some buf => Ptr.cstring buf

/-- One turn of the `switch` in `scm_list_to_value`: the result code for the element
`car`, and the word that `APPEND` puts on the list, if the case appends.  The local
`_dest` is declared without an initialiser. -/
def scm_list_to_value_element (E : Env) (p0 : GigTypeMeta) (car : SCM) :
    Except Throw (GigValueReturn × Option Ptr) :=
  match G_TYPE_FUNDAMENTAL p0.gtype with
  | G_TYPE_INVALID => .ok (GIG_VALUE_INVALID, none)
  | G_TYPE_NONE => .ok (GIG_VALUE_INVALID, none)
  | G_TYPE_INTERFACE => .ok (GIG_VALUE_UNIMPLEMENTED, none)
  | G_TYPE_CHAR => do
    let r ← scm_char_to_value car p0 E.indeterminate_value
    pure (r.1, some (GSIZE_TO_POINTER E.model (g_value_get_schar r.2)))
  | G_TYPE_UCHAR => do
    let r ← scm_char_to_value car p0 E.indeterminate_value
    pure (r.1, some (GSIZE_TO_POINTER E.model (g_value_get_uchar r.2)))
  | G_TYPE_BOOLEAN => do
    let r ← scm_boolean_to_value car p0 E.indeterminate_value
    pure (r.1, some (GSIZE_TO_POINTER E.model (g_value_get_boolean r.2)))
  | G_TYPE_INT => do
    let r ← scm_integer_to_value E car p0 E.indeterminate_value
    pure (r.1, some (GSIZE_TO_POINTER E.model (g_value_get_int r.2)))
  | G_TYPE_UINT => do
    let r ← scm_integer_to_value E car p0 E.indeterminate_value
    pure (r.1, some (GSIZE_TO_POINTER E.model (g_value_get_uint r.2)))
  | G_TYPE_INT64 => .ok (GIG_VALUE_INVALID, none)
  | G_TYPE_UINT64 => .ok (GIG_VALUE_INVALID, none)
  | G_TYPE_LONG => .ok (GIG_VALUE_INVALID, none)
  | G_TYPE_ULONG => .ok (GIG_VALUE_INVALID, none)
  | G_TYPE_ENUM => .ok (GIG_VALUE_INVALID, none)
  | G_TYPE_FLAGS => .ok (GIG_VALUE_INVALID, none)
  | G_TYPE_FLOAT => .ok (GIG_VALUE_INVALID, none)
  | G_TYPE_DOUBLE => .ok (GIG_VALUE_INVALID, none)
  | G_TYPE_STRING => do
    let r ← scm_string_to_value E car p0 E.indeterminate_value
    pure (r.1, some (string_pointer (g_value_get_string r.2)))
  | G_TYPE_POINTER => do
    let r ← scm_pointer_to_value E car p0 E.indeterminate_value
    pure (r.1, some (g_value_get_pointer r.2))
  | G_TYPE_BOXED => .ok (GIG_VALUE_UNIMPLEMENTED, none)
  | G_TYPE_PARAM => .ok (GIG_VALUE_UNIMPLEMENTED, none)
  | G_TYPE_OBJECT => .ok (GIG_VALUE_UNIMPLEMENTED, none)
  | G_TYPE_VARIANT => .ok (GIG_VALUE_UNIMPLEMENTED, none)
  | _ => .ok (GIG_VALUE_INVALID, none)

/-- The `while (scm_is_false (scm_null_p (rest)))` loop of `scm_list_to_value`.  `car`
is the current element and `rest` the elements after it; `acc` is the C list built so
far, newest node first (`g_list_prepend`).  The result is `(some ret, _)` when the loop
leaves the function with `return ret`. -/
def scm_list_to_value_loop (E : Env) (meta : GigTypeMeta) :
    SCM → List SCM → List Ptr → Except Throw (Option GigValueReturn × List Ptr)
  | _, [], acc => .ok (none, acc)
  | car, next :: rest, acc => do
    let p0 ← meta.params0
    let r ← scm_list_to_value_element E p0 car
    let acc1 := match r.2 with
      | some w => if meta.gtype = G_TYPE_LIST ∨ meta.gtype = G_TYPE_SLIST then w :: acc else acc
      | none => acc
    if r.1 ≠ GIG_VALUE_OK then pure (some r.1, acc1)
    else scm_list_to_value_loop E meta next rest acc1

def scm_list_to_value (E : Env) (src : SCM) (meta : GigTypeMeta) (dest : GValue) :
    Except Throw (GigValueReturn × GValue) :=
  match scm_list_elements src with
  | none => .ok (GIG_VALUE_WRONG_TYPE, dest)
  | some [] => .ok (GIG_VALUE_OK, g_value_set_pointer dest Ptr.null)
  | some (car :: rest) => do
    let r ← scm_list_to_value_loop E meta car rest []
    match r.1 with
    | some ret => pure (ret, dest)
    | none =>
      if meta.gtype = G_TYPE_LIST then
        pure (GIG_VALUE_OK, g_value_take_boxed dest (.list r.2.reverse))
      else if meta.gtype = G_TYPE_SLIST then
        pure (GIG_VALUE_OK, g_value_take_boxed dest (.slist r.2.reverse))
      else
        pure (GIG_VALUE_OK, g_value_take_boxed dest (.slist []))

/-- The boxed pointer for the C object at `p`. -/
def Boxed.of_pointer (p : Ptr) : Boxed := if p.is_null then .null else .other p

def scm_boxed_to_value (E : Env) (src : SCM) (meta : GigTypeMeta) (dest : GValue) :
    Except Throw (GigValueReturn × GValue) :=
  if meta.gtype = G_TYPE_LENGTH_CARRAY ∨ meta.gtype = G_TYPE_ZERO_TERMINATED_CARRAY
      ∨ meta.gtype = G_TYPE_FIXED_SIZE_CARRAY ∨ meta.gtype = G_TYPE_ARRAY then
    scm_array_to_value E src meta dest
  else if meta.gtype = G_TYPE_LIST ∨ meta.gtype = G_TYPE_SLIST then
    scm_list_to_value E src meta dest
  else if scm_is_false src ∧ meta.is_nullable then
    .ok (GIG_VALUE_OK, g_value_take_boxed dest .null)
  else
    .ok (GIG_VALUE_OK, g_value_take_boxed dest (Boxed.of_pointer (E.gig_type_peek_object src)))

def gig_scm_to_value_full (E : Env) (src : SCM) (meta : GigTypeMeta) (dest : GValue) :
    Except Throw (GigValueReturn × GValue) :=
  let fundamental_type := G_TYPE_FUNDAMENTAL meta.gtype
  if fundamental_type = G_TYPE_INVALID then .ok (GIG_VALUE_INVALID, dest)
  else if fundamental_type = G_TYPE_NONE ∨ fundamental_type = G_TYPE_VOID then
    .ok (GIG_VALUE_OK, dest)
  else if fundamental_type = G_TYPE_INTERFACE then scm_interface_to_value E src meta dest
  else if fundamental_type = G_TYPE_CHAR ∨ fundamental_type = G_TYPE_UCHAR then
    scm_char_to_value src meta dest
  else if fundamental_type = G_TYPE_BOOLEAN then scm_boolean_to_value src meta dest
  else if fundamental_type = G_TYPE_INT ∨ fundamental_type = G_TYPE_UINT
      ∨ fundamental_type = G_TYPE_LONG ∨ fundamental_type = G_TYPE_ULONG
      ∨ fundamental_type = G_TYPE_INT64 ∨ fundamental_type = G_TYPE_UINT64 then
    scm_integer_to_value E src meta dest
  else if fundamental_type = G_TYPE_ENUM ∨ fundamental_type = G_TYPE_FLAGS then
    scm_enum_to_value src meta dest
  else if fundamental_type = G_TYPE_FLOAT ∨ fundamental_type = G_TYPE_DOUBLE then
    scm_real_to_value src meta dest
  else if fundamental_type = G_TYPE_STRING then scm_string_to_value E src meta dest
  else if fundamental_type = G_TYPE_POINTER then scm_pointer_to_value E src meta dest
  else if fundamental_type = G_TYPE_BOXED then scm_boxed_to_value E src meta dest
  else if fundamental_type = G_TYPE_PARAM then .ok (GIG_VALUE_UNIMPLEMENTED, dest)
  else if fundamental_type = G_TYPE_OBJECT then scm_object_to_value E src meta dest
  else if fundamental_type = G_TYPE_VARIANT then scm_variant_to_value E src meta dest
  else .ok (GIG_VALUE_INVALID, dest)

/-- `gig_scm_to_value_full_with_error`: the result code becomes a Scheme error. -/
def gig_scm_to_value_full_with_error (E : Env) (src : SCM) (meta : GigTypeMeta) (dest : GValue)
    (pos : Nat) : Except Throw GValue := do
  let r ← gig_scm_to_value_full E src meta dest
  if r.1 = GIG_VALUE_INVALID then throw (Throw.misc_error "cannot convert ~S: invalid gtype")
  else if r.1 = GIG_VALUE_UNIMPLEMENTED then
    throw (Throw.misc_error
      "cannot convert ~S: conversion to argument type ~S is unimplemented")
  else if r.1 = GIG_VALUE_OUT_OF_RANGE then throw Throw.out_of_range
  else if r.1 = GIG_VALUE_WRONG_TYPE then throw (Throw.wrong_type_arg pos)
  else pure r.2

/-! ## C to host: `gig_value_to_scm_full` and its helpers

Each function returns the result code and the contents of `*dest`, which is the
incoming `dest` when the function does not write it. -/

/-- `SCM_MAKE_CHAR (n)`.  An integer that is not a Unicode scalar value does not make
a character object. -/
def SCM_MAKE_CHAR (n : Int) : Except Throw SCM :=
  if n < 0 then .error .abort
  else
    match char_of_code_point n.toNat with
    | some c => .ok (SCM.char c)
    | none => .error .abort

def interface_value_to_scm (E : Env) (src : GValue) (meta : GigTypeMeta) (_dest : SCM) :
    Except Throw (GigValueReturn × SCM) :=
  .ok (GIG_VALUE_OK,
    E.gig_type_transfer_object meta.gtype (g_value_get_object src) meta.is_transfer_ownership)

def char_value_to_scm (src : GValue) (meta : GigTypeMeta) (dest : SCM) :
    Except Throw (GigValueReturn × SCM) :=
  if G_TYPE_FUNDAMENTAL meta.gtype = G_TYPE_CHAR then
    if G_VALUE_HOLDS src G_TYPE_CHAR then .ok (GIG_VALUE_OK, SCM.int (g_value_get_schar src))
    else .ok (GIG_VALUE_WRONG_TYPE, dest)
  else if G_TYPE_FUNDAMENTAL meta.gtype = G_TYPE_UCHAR then
    if G_VALUE_HOLDS src G_TYPE_UCHAR then .ok (GIG_VALUE_OK, SCM.int (g_value_get_uchar src))
    else .ok (GIG_VALUE_WRONG_TYPE, dest)
  else .ok (GIG_VALUE_INVALID, dest)

def boolean_value_to_scm (src : GValue) (_meta : GigTypeMeta) (dest : SCM) :
    Except Throw (GigValueReturn × SCM) :=
  if G_VALUE_HOLDS src G_TYPE_BOOLEAN then
    .ok (GIG_VALUE_OK, SCM.bool (decide (g_value_get_boolean src ≠ 0)))
  else .ok (GIG_VALUE_INVALID, dest)

def integer_value_to_scm (src : GValue) (_meta : GigTypeMeta) (dest : SCM) :
    Except Throw (GigValueReturn × SCM) :=
  let src_type := G_VALUE_TYPE src
  if src_type = G_TYPE_UNICHAR then do
    let c ← SCM_MAKE_CHAR (g_value_get_int src)
    pure (GIG_VALUE_OK, c)
  else if G_TYPE_FUNDAMENTAL src_type = G_TYPE_INT then
    if G_VALUE_HOLDS src G_TYPE_INT then .ok (GIG_VALUE_OK, SCM.int (g_value_get_int src))
    else .ok (GIG_VALUE_WRONG_TYPE, dest)
  else if src_type = G_TYPE_INT64 then
    if G_VALUE_HOLDS src G_TYPE_INT64 then .ok (GIG_VALUE_OK, SCM.int (g_value_get_int64 src))
    else .ok (GIG_VALUE_WRONG_TYPE, dest)
  else if src_type = G_TYPE_LONG then
    if G_VALUE_HOLDS src G_TYPE_LONG then .ok (GIG_VALUE_OK, SCM.int (g_value_get_long src))
    else .ok (GIG_VALUE_WRONG_TYPE, dest)
  else if G_TYPE_FUNDAMENTAL src_type = G_TYPE_UINT then
    if G_VALUE_HOLDS src G_TYPE_UINT then .ok (GIG_VALUE_OK, SCM.int (g_value_get_uint src))
    else .ok (GIG_VALUE_WRONG_TYPE, dest)
  else if src_type = G_TYPE_UINT64 then
    if G_VALUE_HOLDS src G_TYPE_UINT64 then .ok (GIG_VALUE_OK, SCM.int (g_value_get_uint64 src))
    else .ok (GIG_VALUE_WRONG_TYPE, dest)
  else if src_type = G_TYPE_ULONG then
    if G_VALUE_HOLDS src G_TYPE_ULONG then .ok (GIG_VALUE_OK, SCM.int (g_value_get_ulong src))
    else .ok (GIG_VALUE_WRONG_TYPE, dest)
  else .ok (GIG_VALUE_INVALID, dest)

def enum_value_to_scm (src : GValue) (_meta : GigTypeMeta) (dest : SCM) :
    Except Throw (GigValueReturn × SCM) :=
  let fundamental_type := G_TYPE_FUNDAMENTAL (G_VALUE_TYPE src)
  if fundamental_type = G_TYPE_ENUM then
    if G_VALUE_HOLDS src G_TYPE_ENUM then .ok (GIG_VALUE_OK, SCM.int (g_value_get_enum src))
    else .ok (GIG_VALUE_WRONG_TYPE, dest)
  else if fundamental_type = G_TYPE_INT then
    if G_VALUE_HOLDS src G_TYPE_INT then .ok (GIG_VALUE_OK, SCM.int (g_value_get_int src))
    else .ok (GIG_VALUE_WRONG_TYPE, dest)
  else if fundamental_type = G_TYPE_FLAGS then
    if G_VALUE_HOLDS src G_TYPE_FLAGS then .ok (GIG_VALUE_OK, SCM.int (g_value_get_flags src))
    else .ok (GIG_VALUE_WRONG_TYPE, dest)
  else if fundamental_type = G_TYPE_UINT then
    if G_VALUE_HOLDS src G_TYPE_UINT then .ok (GIG_VALUE_OK, SCM.int (g_value_get_uint src))
    else .ok (GIG_VALUE_WRONG_TYPE, dest)
  else .ok (GIG_VALUE_UNIMPLEMENTED, dest)

def real_value_to_scm (src : GValue) (_meta : GigTypeMeta) (dest : SCM) :
    Except Throw (GigValueReturn × SCM) :=
  let fundamental_type := G_TYPE_FUNDAMENTAL (G_VALUE_TYPE src)
  if fundamental_type = G_TYPE_FLOAT then
    if G_VALUE_HOLDS src G_TYPE_FLOAT then .ok (GIG_VALUE_OK, SCM.real (g_value_get_float src))
    else .ok (GIG_VALUE_WRONG_TYPE, dest)
  else if fundamental_type = G_TYPE_DOUBLE then
    if G_VALUE_HOLDS src G_TYPE_DOUBLE then .ok (GIG_VALUE_OK, SCM.real (g_value_get_double src))
    else .ok (GIG_VALUE_WRONG_TYPE, dest)
  else .ok (GIG_VALUE_UNIMPLEMENTED, dest)

def string_value_to_scm (E : Env) (src : GValue) (meta : GigTypeMeta) (dest : SCM) :
    Except Throw (GigValueReturn × SCM) :=
  let src_type := G_VALUE_TYPE src
  if G_TYPE_FUNDAMENTAL src_type = G_TYPE_STRING then
    if G_VALUE_HOLDS src G_TYPE_STRING then
      if meta.is_nullable ∧ g_value_get_string src = none then .ok (GIG_VALUE_OK, SCM_BOOL_F)
      else
        match g_value_dup_string src with
        | none => .error .abort
        | some buf => do
          let str ← if src_type = G_TYPE_LOCALE_STRING then E.scm_from_locale_string buf
                    else scm_from_utf8_string buf
          pure (GIG_VALUE_OK, str)
    else .ok (GIG_VALUE_WRONG_TYPE, dest)
  else .ok (GIG_VALUE_UNIMPLEMENTED, dest)

/-- The integer value of a pointer; the address of host or string memory is not part
of the model. -/
def Ptr.to_word : Ptr → Except Throw Nat
  | .addr a => .ok a
  | _ => .error .abort

def pointer_value_to_scm (E : Env) (src : GValue) (meta : GigTypeMeta) (_dest : SCM) :
    Except Throw (GigValueReturn × SCM) :=
  let src_type := G_VALUE_TYPE src
  if G_TYPE_FUNDAMENTAL src_type = G_TYPE_POINTER then
    if (g_value_get_pointer src).is_null ∧ meta.is_nullable then .ok (GIG_VALUE_OK, SCM_BOOL_F)
    else if src_type = G_TYPE_GTYPE then do
      let w ← (g_value_get_pointer src).to_word
      pure (GIG_VALUE_OK, SCM.int w)
    else if src_type = G_TYPE_CALLBACK then
      .ok (GIG_VALUE_OK,
        E.gig_type_transfer_object src_type (g_value_get_pointer src) meta.is_transfer_ownership)
    else .ok (GIG_VALUE_OK, SCM.pointer (g_value_get_pointer src))
  else .ok (GIG_VALUE_WRONG_TYPE, _dest)

/-! ### Boxed containers -/

/-- The bytes of the buffer `arr->data` when every element is given by its bytes;
`none` when the array holds pointers. -/
def elems_bytes : List Elem → Option (List Nat)
  | [] => some []
  | .raw b :: rest =>
    match elems_bytes rest with
    | some bs => some (b ++ bs)
    | none => none
  | .ptr _ :: _ => none

/-- Reading `n` objects of `size` bytes each from the start of a buffer: `none` when
the buffer is too short. -/
def read_chunks (size : Nat) : Nat → List Nat → Option (List (List Nat))
  | 0, _ => some []
  | n + 1, bytes =>
    if bytes.length < size then none
    else
      match read_chunks size n (bytes.drop size) with
      | some cs => some (bytes.take size :: cs)
      | none => none

/-- The unsigned integer whose bytes, least significant first, are `bytes`. -/
def le_value : List Nat → Nat
  | [] => 0
  | b :: rest => b + 256 * le_value rest

/-- The `TRANSFER (_type, _short_type)` macro of `boxed_array_value_to_scm`, `width`
being `sizeof (_type)`: a uniform vector of `arr->len` elements over a copy of the
buffer, or the empty vector when the buffer has no bytes. -/
def TRANSFER (E : Env) (arr : GArray) (tag : UvecTag) (width : Nat) : Except Throw SCM :=
  let sz := arr.len * arr.element_size
  if (sz : Int) ≥ SIZE_MAX E.model then .error (.misc_error "Array size overflow")
  else if sz = 0 then .ok (SCM.uvector tag [])
  else
    match elems_bytes arr.data with
    | none => .error .abort
    | some bytes =>
      match read_chunks width arr.len bytes with
      | some cs => .ok (SCM.uvector tag cs)
      | none => .error .abort

/-- The strings of a `gchar **` buffer as host values: `#f` stays in the place of a
null pointer. -/
def strings_to_scm (E : Env) (item_type : GType) : List Elem → Except Throw (List SCM)
  | [] => .ok []
  | .ptr p :: rest => do
    let x ← if p.is_null then pure SCM_BOOL_F
            else
              match p with
              | .cstring buf =>
                if item_type = G_TYPE_STRING then scm_from_utf8_string buf
                else E.scm_from_locale_string buf
              | _ => throw Throw.abort
    let xs ← strings_to_scm E item_type rest
    pure (x :: xs)
  | .raw _ :: _ => .error .abort

/-- The characters of a `gunichar` buffer. -/
def unichars_to_scm : List (List Nat) → Except Throw (List Char)
  | [] => .ok []
  | b :: rest =>
    match char_of_code_point (le_value b) with
    | some c => do
      let cs ← unichars_to_scm rest
      pure (c :: cs)
    | none => .error .abort

def boxed_array_value_to_scm (E : Env) (src : GValue) (meta : GigTypeMeta) (_dest : SCM) :
    Except Throw (GigValueReturn × SCM) :=
  match g_value_get_boxed src with
  | .array arr =>
    if arr.len = 0 ∧ meta.is_nullable then .ok (GIG_VALUE_OK, SCM_BOOL_F)
    else do
      let p0 ← meta.params0
      let item_type := p0.gtype
      if item_type = G_TYPE_NONE ∧ p0.item_size > 0 then
        match (elems_bytes arr.data).bind (read_chunks p0.item_size arr.len) with
        | some cs => pure (GIG_VALUE_OK, SCM.vector (cs.map SCM.bytevector))
        | none => throw Throw.abort
      else if item_type = G_TYPE_CHAR then do
        let v ← TRANSFER E arr .s8 1
        pure (GIG_VALUE_OK, v)
      else if item_type = G_TYPE_UCHAR then do
        let v ← TRANSFER E arr .u8 1
        pure (GIG_VALUE_OK, v)
      else if item_type = G_TYPE_INT16 then do
        let v ← TRANSFER E arr .s16 2
        pure (GIG_VALUE_OK, v)
      else if item_type = G_TYPE_UINT16 then do
        let v ← TRANSFER E arr .u16 2
        pure (GIG_VALUE_OK, v)
      else if item_type = G_TYPE_INT32 then do
        let v ← TRANSFER E arr .s32 4
        pure (GIG_VALUE_OK, v)
      else if item_type = G_TYPE_UINT32 then do
        let v ← TRANSFER E arr .u32 4
        pure (GIG_VALUE_OK, v)
      else if item_type = G_TYPE_INT64 then do
        let v ← TRANSFER E arr .s64 8
        pure (GIG_VALUE_OK, v)
      else if item_type = G_TYPE_UINT64 then do
        let v ← TRANSFER E arr .u64 8
        pure (GIG_VALUE_OK, v)
      else if item_type = G_TYPE_FLOAT then do
        let v ← TRANSFER E arr .f32 4
        pure (GIG_VALUE_OK, v)
      else if item_type = G_TYPE_DOUBLE then do
        let v ← TRANSFER E arr .f64 8
        pure (GIG_VALUE_OK, v)
      else if item_type = G_TYPE_GTYPE then throw Throw.abort
      else if item_type = G_TYPE_BOOLEAN then
        match (elems_bytes arr.data).bind (read_chunks 4 arr.len) with
        | some cs => pure (GIG_VALUE_OK, SCM.vector (cs.map (fun b => SCM.bool (decide (le_value b ≠ 0)))))
        | none => throw Throw.abort
      else if item_type = G_TYPE_UNICHAR then
        match (elems_bytes arr.data).bind (read_chunks 4 arr.len) with
        | some cs => do
          let str ← unichars_to_scm cs
          pure (GIG_VALUE_OK, SCM.string str)
        | none => throw Throw.abort
      else if item_type = G_TYPE_VARIANT then throw Throw.abort
      else if item_type = G_TYPE_STRING ∨ item_type = G_TYPE_LOCALE_STRING then do
        let xs ← strings_to_scm E item_type arr.data
        pure (GIG_VALUE_OK, SCM.vector xs)
      else throw Throw.abort
  | _ => .error .abort

def boxed_byte_array_value_to_scm (src : GValue) (_meta : GigTypeMeta) (_dest : SCM) :
    Except Throw (GigValueReturn × SCM) :=
  match g_value_get_boxed src with
  | .byte_array bytes => .ok (GIG_VALUE_OK, SCM.bytevector bytes)
  | _ => .error .abort

def boxed_ptr_array_value_to_scm (src : GValue) (_meta : GigTypeMeta) (_dest : SCM) :
    Except Throw (GigValueReturn × SCM) :=
  match g_value_get_boxed src with
  | .ptr_array pdata => .ok (GIG_VALUE_OK, SCM.vector (pdata.map SCM.pointer))
  | _ => .error .abort

/-- The body of the `while` loop of `boxed_list_to_scm` for one node: the host value
read from the node's `data` word. -/
def boxed_list_item_to_scm (E : Env) (p0 : GigTypeMeta) (data : Ptr) : Except Throw SCM :=
  if p0.is_ptr = false then do
    let w ← data.to_word
    let item_type := p0.gtype
    if item_type = G_TYPE_CHAR then pure (SCM.int (wrap_signed 8 w))
    else if item_type = G_TYPE_INT16 then pure (SCM.int (wrap_signed 16 w))
    else if item_type = G_TYPE_INT32 then pure (SCM.int (wrap_signed 32 w))
    else if item_type = G_TYPE_INT64 then pure (SCM.int (wrap_signed 64 w))
    else if item_type = G_TYPE_UCHAR then pure (SCM.int (wrap_unsigned 8 w))
    else if item_type = G_TYPE_UINT16 then pure (SCM.int (wrap_unsigned 16 w))
    else if item_type = G_TYPE_UINT32 then pure (SCM.int (wrap_unsigned 32 w))
    else if item_type = G_TYPE_UINT64 then pure (SCM.int (wrap_unsigned 64 w))
    else if item_type = G_TYPE_FLOAT then pure (SCM.real (E.ieee_float (w % 2 ^ 32)))
    else if item_type = G_TYPE_DOUBLE then pure (SCM.real (E.ieee_double (w % 2 ^ 64)))
    else if item_type = G_TYPE_UNICHAR then SCM_MAKE_CHAR (wrap_unsigned 32 w)
    else if item_type = G_TYPE_GTYPE then pure (SCM.int w)
    else throw Throw.abort
  else throw Throw.abort

/-- The `while (list != NULL)` loop of `boxed_list_to_scm`. -/
def boxed_list_items_to_scm (E : Env) (meta : GigTypeMeta) : List Ptr → Except Throw (List SCM)
  | [] => .ok []
  | data :: rest => do
    let p0 ← meta.params0
    let x ← boxed_list_item_to_scm E p0 data
    let xs ← boxed_list_items_to_scm E meta rest
    pure (x :: xs)

def boxed_list_to_scm (E : Env) (src : GValue) (meta : GigTypeMeta) (_dest : SCM) :
    Except Throw (GigValueReturn × SCM) :=
  if meta.gtype = G_TYPE_LIST ∨ meta.gtype = G_TYPE_SLIST then
    match g_value_get_boxed src with
    | .null => .ok (GIG_VALUE_OK, scm_list [])
    | .list items => do
      let xs ← boxed_list_items_to_scm E meta items
      pure (GIG_VALUE_OK, scm_list xs)
    | .slist items => do
      let xs ← boxed_list_items_to_scm E meta items
      pure (GIG_VALUE_OK, scm_list xs)
    | _ => .error .abort
  else .error .abort

def boxed_value_to_scm (E : Env) (src : GValue) (meta : GigTypeMeta) (dest : SCM) :
    Except Throw (GigValueReturn × SCM) :=
  if meta.gtype = G_TYPE_LENGTH_CARRAY ∨ meta.gtype = G_TYPE_FIXED_SIZE_CARRAY
      ∨ meta.gtype = G_TYPE_ZERO_TERMINATED_CARRAY ∨ meta.gtype = G_TYPE_ARRAY then do
    let r ← boxed_array_value_to_scm E src meta dest
    pure (GIG_VALUE_OK, r.2)
  else if meta.gtype = G_TYPE_BYTE_ARRAY then do
    let r ← boxed_byte_array_value_to_scm src meta dest
    pure (GIG_VALUE_OK, r.2)
  else if meta.gtype = G_TYPE_PTR_ARRAY then do
    let r ← boxed_ptr_array_value_to_scm src meta dest
    pure (GIG_VALUE_OK, r.2)
  else if meta.gtype = G_TYPE_LIST ∨ meta.gtype = G_TYPE_SLIST then do
    let r ← boxed_list_to_scm E src meta dest
    pure (GIG_VALUE_OK, r.2)
  else
    .ok (GIG_VALUE_OK,
      E.gig_type_transfer_object meta.gtype
        (match g_value_get_boxed src with
         | .other p => p
         | _ => Ptr.null)
        meta.is_transfer_ownership)

def gig_value_to_scm_full (E : Env) (src : GValue) (meta : GigTypeMeta) (dest : SCM) :
    Except Throw (GigValueReturn × SCM) :=
  let fundamental_type := G_TYPE_FUNDAMENTAL meta.gtype
  if fundamental_type = G_TYPE_VOID then .ok (GIG_VALUE_OK, SCM_UNSPECIFIED)
  else if fundamental_type = G_TYPE_INTERFACE then interface_value_to_scm E src meta dest
  else if fundamental_type = G_TYPE_CHAR ∨ fundamental_type = G_TYPE_UCHAR then
    char_value_to_scm src meta dest
  else if fundamental_type = G_TYPE_BOOLEAN then boolean_value_to_scm src meta dest
  else if fundamental_type = G_TYPE_INT ∨ fundamental_type = G_TYPE_UINT
      ∨ fundamental_type = G_TYPE_LONG ∨ fundamental_type = G_TYPE_ULONG
      ∨ fundamental_type = G_TYPE_INT64 ∨ fundamental_type = G_TYPE_UINT64 then
    integer_value_to_scm src meta dest
  else if fundamental_type = G_TYPE_ENUM ∨ fundamental_type = G_TYPE_FLAGS then
    enum_value_to_scm src meta dest
  else if fundamental_type = G_TYPE_FLOAT ∨ fundamental_type = G_TYPE_DOUBLE then
    real_value_to_scm src meta dest
  else if fundamental_type = G_TYPE_STRING then string_value_to_scm E src meta dest
  else if fundamental_type = G_TYPE_POINTER then pointer_value_to_scm E src meta dest
  else if fundamental_type = G_TYPE_BOXED then boxed_value_to_scm E src meta dest
  else if fundamental_type = G_TYPE_OBJECT then .ok (GIG_VALUE_UNIMPLEMENTED, dest)
  else .ok (GIG_VALUE_UNIMPLEMENTED, dest)

/-- `gig_value_to_scm_full_with_error`: the result code becomes a Scheme error. -/
def gig_value_to_scm_full_with_error (E : Env) (src : GValue) (meta : GigTypeMeta) (dest : SCM) :
    Except Throw SCM := do
  let r ← gig_value_to_scm_full E src meta dest
  if r.1 = GIG_VALUE_INVALID then throw (Throw.misc_error "internal type error: ~S != ~S")
  else if r.1 = GIG_VALUE_UNIMPLEMENTED then
    throw (Throw.misc_error
      "internal conversion error: conversion from ~S to ~S is unimplemented")
  else if r.1 = GIG_VALUE_OUT_OF_RANGE then throw (Throw.misc_error "internal type range error")
  else if r.1 = GIG_VALUE_WRONG_TYPE then throw (Throw.misc_error "internal type error")
  else pure r.2

/-! ## Sample data -/

/-- An environment for concrete evaluations: an LP64 target, a registry that knows no
object, UTF-8 as the locale encoding. -/
def sample_env : Env :=
  { model := .LP64
    scm_to_gtype := fun x => scm_to_integer 0 (SIZE_MAX .LP64) x
    gig_type_peek_object := fun _ => Ptr.null
    gig_type_transfer_object := fun _ _ _ => SCM.object 0
    gig_callback_get_ptr := fun info _ => Ptr.addr (info + 1)
    G_TYPE_CHECK_INSTANCE_TYPE := fun _ _ => false
    scm_to_locale_string := scm_to_utf8_string
    scm_from_locale_string := scm_from_utf8_string
    ieee_float := fun _ => 0
    ieee_double := fun _ => 0
    indeterminate_ret := GIG_VALUE_OK
    indeterminate_value := G_VALUE_INIT }

/-- The meta of an input slot of type `t` that is not a pointer, not nullable and has
no parameters. -/
def leaf_meta (t : GType) : GigTypeMeta :=
  { gtype := t, is_ptr := false, is_in := true, is_out := false, is_nullable := false,
    is_transfer_ownership := false, is_caller_allocates := false, length := 0, item_size := 0,
    callable_info := 0, params := [] }

/-! ## Integer kinds -/

/-- The integer kinds of a slot: `char`/`int8`, `uchar`/`uint8`, the 16-, 32- and
64-bit kinds, `int`, `uint`, `long` and `ulong`. -/
def integer_kinds : List GType :=
  [G_TYPE_CHAR, G_TYPE_UCHAR, G_TYPE_INT16, G_TYPE_INT32, G_TYPE_INT64, G_TYPE_UINT16,
    G_TYPE_UINT32, G_TYPE_UINT64, G_TYPE_INT, G_TYPE_UINT, G_TYPE_LONG, G_TYPE_ULONG]

/-- The least value of the C type behind an integer kind. -/
def kind_min (D : DataModel) : GType → Int
  | G_TYPE_CHAR => INT8_MIN
  | G_TYPE_INT16 => INT16_MIN
  | G_TYPE_INT32 => INT32_MIN
  | G_TYPE_INT64 => INT64_MIN
  | G_TYPE_INT => INT_MIN
  | G_TYPE_LONG => LONG_MIN D
  | _ => 0

/-- The greatest value of the C type behind an integer kind. -/
def kind_max (D : DataModel) : GType → Int
  | G_TYPE_CHAR => INT8_MAX
  | G_TYPE_UCHAR => UINT8_MAX
  | G_TYPE_INT16 => INT16_MAX
  | G_TYPE_INT32 => INT32_MAX
  | G_TYPE_INT64 => INT64_MAX
  | G_TYPE_UINT16 => UINT16_MAX
  | G_TYPE_UINT32 => UINT32_MAX
  | G_TYPE_UINT64 => UINT64_MAX
  | G_TYPE_INT => INT_MAX
  | G_TYPE_UINT => UINT_MAX
  | G_TYPE_LONG => LONG_MAX D
  | G_TYPE_ULONG => ULONG_MAX D
  | _ => 0

/-! ## Arg-Map -/

/-- Modelled from the spec: one entry of the Arg-Map (`gig_arg_map.h` is not among the
sources).  The fields are those that `rebox_inout_vals` reads, with the host-visible
positions of the spec; `child` and `parent` hold the index of the linked entry. -/
structure GigArgMapEntry where
  name : String
  meta : GigTypeMeta
  is_c_input : Bool
  c_input_pos : Nat
  is_c_output : Bool
  c_output_pos : Nat
  is_s_input : Bool
  s_input_pos : Nat
  is_s_output : Bool
  s_output_pos : Nat
  child : Option Nat
  parent : Option Nat
  deriving Repr

/-- Modelled from the spec: the Arg-Map of a callable; `amap->len` is the length of
`pdata`. -/
structure GigArgMap where
  pdata : List GigArgMapEntry
  s_input_req : Nat
  s_input_opt : Nat
  c_input_len : Nat
  c_output_len : Nat
  return_val : GigArgMapEntry
  deriving Repr

/-- Modelled from the spec: the count accessor of the Arg-Map, `(host_required,
host_optional)`. -/
def gig_amap_s_input_count (amap : GigArgMap) : Nat × Nat := (amap.s_input_req, amap.s_input_opt)

/-- The index of the first entry that satisfies `p`. -/
def first_entry_index (p : GigArgMapEntry → Bool) : List GigArgMapEntry → Option Nat
  | [] => none
  | e :: es =>
    if p e then some 0
    else
      match first_entry_index p es with
      | some i => some (i + 1)
      | none => none

/-- Modelled from the spec: the query `host→entry`, the index of the entry at host
input position `s`. -/
def gig_amap_input_s2i (amap : GigArgMap) (s : Nat) : Option Nat :=
  first_entry_index (fun e => e.is_s_input && decide (e.s_input_pos = s)) amap.pdata

/-- Modelled from the spec: the C input position of entry `i`, if it has one. -/
def gig_amap_input_i2c (amap : GigArgMap) (i : Nat) : Option Nat :=
  match amap.pdata.get? i with
  | some e => if e.is_c_input then some e.c_input_pos else none
  | none => none

/-- Modelled from the spec: the C output position of entry `i`, if it has one. -/
def gig_amap_output_i2c (amap : GigArgMap) (i : Nat) : Option Nat :=
  match amap.pdata.get? i with
  | some e => if e.is_c_output then some e.c_output_pos else none
  | none => none

/-- Modelled from the spec: the index of the entry at C input position `c`. -/
def gig_amap_input_c2i (amap : GigArgMap) (c : Nat) : Option Nat :=
  first_entry_index (fun e => e.is_c_input && decide (e.c_input_pos = c)) amap.pdata

/-- Modelled from the spec: the index of the entry at C output position `c`. -/
def gig_amap_output_c2i (amap : GigArgMap) (c : Nat) : Option Nat :=
  first_entry_index (fun e => e.is_c_output && decide (e.c_output_pos = c)) amap.pdata

/-- Modelled from the spec: the query `c_out→host`, the host output position of the
entry at C output position `c`, if that entry is visible to the host. -/
def gig_amap_output_c2s (amap : GigArgMap) (c : Nat) : Option Nat :=
  match amap.pdata.find? (fun e => e.is_c_output && decide (e.c_output_pos = c)) with
  | some e => if e.is_s_output then some e.s_output_pos else none
  | none => none

/-- Modelled from the spec: the query `child_of`, the index of the length entry linked
to entry `i`. -/
def gig_amap_child_i (amap : GigArgMap) (i : Nat) : Option Nat :=
  match amap.pdata.get? i with
  | some e => e.child
  | none => none

/-! ## The forward call: `gig_function.c` -/

def gig_value_preset_type (entry : GigArgMapEntry) : Except Throw GValue :=
  let type := entry.meta.gtype
  if type = G_TYPE_INVALID then .ok (g_value_init G_TYPE_VOID)
  else if type = G_TYPE_ENUM then .ok (g_value_init G_TYPE_INT)
  else if type = G_TYPE_FLAGS then .ok (g_value_init G_TYPE_UINT)
  else if type = G_TYPE_LENGTH_CARRAY ∨ type = G_TYPE_FIXED_SIZE_CARRAY
      ∨ type = G_TYPE_ZERO_TERMINATED_CARRAY then do
    let p0 ← entry.meta.params0
    if p0.item_size = 0 then
      pure (g_value_set_boxed (g_value_init G_TYPE_PTR_ARRAY) (.ptr_array []))
    else
      pure (g_value_set_boxed (g_value_init G_TYPE_ARRAY) (.array (g_array_new p0.item_size)))
  else if type = G_TYPE_PTR_ARRAY then
    .ok (g_value_set_boxed (g_value_init G_TYPE_PTR_ARRAY) (.ptr_array []))
  else if type = G_TYPE_BYTE_ARRAY then
    .ok (g_value_set_boxed (g_value_init G_TYPE_BYTE_ARRAY) (.byte_array []))
  else .ok (g_value_init type)

/-- What a forward call does that its caller or the C side can observe: a host value
is handed to the host→C marshaller (for host argument `s`, or for the length of an
array), or the C function is invoked. -/
inductive Event where
  | marshal (s : Nat)
  | marshal_length
  | invoke
  deriving DecidableEq, Repr

/-- A step of the forward call: its outcome and the events up to the point where it
returned or left. -/
def Traced (α : Type) : Type := Except Throw α × List Event

def Traced.pure {α : Type} (a : α) : Traced α := (.ok a, [])

def Traced.bind {α β : Type} (m : Traced α) (f : α → Traced β) : Traced β :=
  match m with
  | (.error e, ev) => (.error e, ev)
  | (.ok a, ev) => ((f a).1, ev ++ (f a).2)

instance : Monad Traced where
  pure := Traced.pure
  bind := Traced.bind

/-- A step without events. -/
def Traced.lift {α : Type} (m : Except Throw α) : Traced α := (m, [])

/-- The empty step that records one event. -/
def Traced.log (e : Event) : Traced Unit := (.ok (), [e])

/-- The element `xs[n]` of a C array of `GValue`s; an index outside the array is an
invalid memory access. -/
def value_at (xs : List GValue) (n : Nat) : Except Throw GValue :=
  match xs.get? n with
  | some v => .ok v
  | none => .error .abort

/-- The store `xs[n] = v`. -/
def set_value_at (xs : List GValue) (n : Nat) (v : GValue) : Except Throw (List GValue) :=
  if n < xs.length then .ok (xs.set n v) else .error .abort

/-- The entry `amap->pdata[i]`. -/
def entry_at (amap : GigArgMap) (i : Nat) : Except Throw GigArgMapEntry :=
  match amap.pdata.get? i with
  | some e => .ok e
  | none => .error .abort

/-- The value that a query of the Arg-Map wrote through its out-pointer; when the
query failed the variable is indeterminate. -/
def query_result (r : Option Nat) : Except Throw Nat :=
  match r with
  | some n => .ok n
  | none => .error .abort

/-- The loop bodies of `set_value_types`, for the C positions below `len`. -/
def preset_values (amap : GigArgMap) (c2i : GigArgMap → Nat → Option Nat) :
    List Nat → Except Throw (List GValue)
  | [] => .ok []
  | c :: cs => do
    let i ← query_result (c2i amap c)
    let entry ← entry_at amap i
    let v ← gig_value_preset_type entry
    let vs ← preset_values amap c2i cs
    pure (v :: vs)

/-- `set_value_types`: the typed, empty `self_val`, `in_vals`, `out_vals` and
`return_val`. -/
def set_value_types (amap : GigArgMap) :
    Except Throw (GValue × List GValue × List GValue × GValue) := do
  let in_vals ← preset_values amap gig_amap_input_c2i (List.range amap.c_input_len)
  let out_vals ← preset_values amap gig_amap_output_c2i (List.range amap.c_output_len)
  let return_val ← gig_value_preset_type amap.return_val
  pure (g_value_init G_TYPE_POINTER, in_vals, out_vals, return_val)

/-- Where the pointer `val` of `convert_input_val1` points: into `c_in_vals`, into
`c_out_vals`, or nowhere yet (the variable has no initialiser). -/
inductive ValRef where
  | input (c : Nat)
  | output (c : Nat)
  | unset
  deriving DecidableEq, Repr

/-- The pattern that `convert_input_val1` runs twice, for the host argument and for the
length of an array: entry `i` receives the host value `x`.  If the entry is a C input,
`x` is marshalled into its input slot; if it is also a C output, the input slot is
copied over the output slot (`memmove`); if it is only a C output, `x` is marshalled
into the output slot.  `event` is what the marshalling is recorded as and `pos` the
position given to the error message. -/
def convert_input_slot (E : Env) (amap : GigArgMap) (i : Nat) (x : SCM) (pos : Nat)
    (event : Event) (c_in_vals c_out_vals : List GValue) :
    Traced (List GValue × List GValue × ValRef) := do
  let is_input := gig_amap_input_i2c amap i
  let is_output := gig_amap_output_i2c amap i
  let entry ← Traced.lift (entry_at amap i)
  let r ← (match is_input with
    | some c_in_pos => do
      let val ← Traced.lift (value_at c_in_vals c_in_pos)
      Traced.log event
      let v ← Traced.lift (gig_scm_to_value_full_with_error E x entry.meta val pos)
      let vals ← Traced.lift (set_value_at c_in_vals c_in_pos v)
      pure (vals, ValRef.input c_in_pos)
    | none => pure (c_in_vals, ValRef.unset) : Traced (List GValue × ValRef))
  match is_output with
  | some c_out_pos =>
    match is_input with
    | some c_in_pos => do
      let val ← Traced.lift (value_at r.1 c_in_pos)
      let outs ← Traced.lift (set_value_at c_out_vals c_out_pos val)
      pure (r.1, outs, r.2)
    | none => do
      let val ← Traced.lift (value_at c_out_vals c_out_pos)
      Traced.log event
      let v ← Traced.lift (gig_scm_to_value_full_with_error E x entry.meta val pos)
      let outs ← Traced.lift (set_value_at c_out_vals c_out_pos v)
      pure (r.1, outs, ValRef.output c_out_pos)
  | none => pure (r.1, c_out_vals, r.2)

/-- The read `arr->len` of `convert_input_val1`, `arr` being the boxed pointer of
`*val`. -/
def boxed_array_len (b : Boxed) : Except Throw Nat :=
  match b with
  | .array a => .ok a.len
  | .byte_array bytes => .ok bytes.length
  | .ptr_array pdata => .ok pdata.length
  | _ => .error .abort

def convert_input_val1 (E : Env) (amap : GigArgMap) (s : Nat) (s_arg : SCM)
    (c_in_vals c_out_vals : List GValue) : Traced (List GValue × List GValue) := do
  if s ≥ 20 then Traced.lift (.error .abort)
  else
    let i ← Traced.lift (query_result (gig_amap_input_s2i amap s))
    let entry ← Traced.lift (entry_at amap i)
    let r ← convert_input_slot E amap i s_arg s (Event.marshal s) c_in_vals c_out_vals
    if entry.meta.gtype = G_TYPE_LENGTH_CARRAY then
      let val ← Traced.lift (match r.2.2 with
        | .input c => value_at r.1 c
        | .output c => value_at r.2.1 c
        | .unset => .error .abort)
      let len ← Traced.lift (boxed_array_len (g_value_get_boxed val))
      let i_child ← Traced.lift (query_result (gig_amap_child_i amap i))
      let r2 ← convert_input_slot E amap i_child (SCM.int len) 0 Event.marshal_length r.1 r.2.1
      pure (r2.1, r2.2.1)
    else pure (r.1, r.2.1)

/-- `convert_input_vals`: the host arguments are converted one after the other, `s`
being the host position of the first of `s_args`. -/
def convert_input_vals (E : Env) (amap : GigArgMap) :
    List SCM → Nat → List GValue → List GValue → Traced (List GValue × List GValue)
  | [], _, c_in_vals, c_out_vals => pure (c_in_vals, c_out_vals)
  | s_arg :: s_rest, s, c_in_vals, c_out_vals => do
    let r ← convert_input_val1 E amap s s_arg c_in_vals c_out_vals
    convert_input_vals E amap s_rest (s + 1) r.1 r.2

/-- The body of the loop of `convert_output_vals` for the C output position `c`: the
host values it appends to `output`. -/
def convert_output_val (E : Env) (amap : GigArgMap) (out_vals : List GValue) (c : Nat) :
    Except Throw (List SCM) :=
  match gig_amap_output_c2s amap c with
  | none => .ok []
  | some _ => do
    let i ← query_result (gig_amap_output_c2i amap c)
    let entry ← entry_at amap i
    match gig_amap_child_i amap i with
    | some size_index =>
      match gig_amap_output_i2c amap size_index with
      | some c_child => do
        let size_entry ← entry_at amap size_index
        let v ← value_at out_vals c_child
        let obj ← gig_value_to_scm_full_with_error E v size_entry.meta SCM.undefined
        let _ ← scm_to_int obj
        let v ← value_at out_vals c
        let obj ← gig_value_to_scm_full_with_error E v entry.meta obj
        pure [obj]
      | none => do
        let v ← value_at out_vals c
        let obj ← gig_value_to_scm_full_with_error E v entry.meta SCM.undefined
        pure [obj]
    | none => do
      let v ← value_at out_vals c
      let obj ← gig_value_to_scm_full_with_error E v entry.meta SCM.undefined
      pure [obj]

/-- The loop of `convert_output_vals` over the given C output positions. -/
def convert_output_vals_from (E : Env) (amap : GigArgMap) (out_vals : List GValue) :
    List Nat → Except Throw (List SCM)
  | [] => .ok []
  | c :: cs => do
    let xs ← convert_output_val E amap out_vals c
    let ys ← convert_output_vals_from E amap out_vals cs
    pure (xs ++ ys)

def convert_output_vals (E : Env) (amap : GigArgMap) (out_vals : List GValue) :
    Except Throw (List SCM) :=
  convert_output_vals_from E amap out_vals (List.range amap.c_output_len)

/-- The body of the outer loop of `rebox_inout_vals` for the C input position
`c_input_pos`: the inner loop stops at the first entry that is at this position and is
both `in` and `out`. -/
def rebox_inout_val (E : Env) (amap : GigArgMap) (in_vals : List GValue) (c_input_pos : Nat) :
    Except Throw (List SCM) :=
  match amap.pdata.find? (fun e => e.is_c_input && decide (e.c_input_pos = c_input_pos)
      && e.meta.is_in && e.meta.is_out) with
  | none => .ok []
  | some amap_entry => do
    let obj ← (match amap_entry.child with
      | some size_index => do
        let size_entry ← entry_at amap size_index
        let v ← value_at in_vals size_entry.c_input_pos
        let obj ← gig_value_to_scm_full_with_error E v size_entry.meta SCM.undefined
        let _ ← scm_to_size_t E.model obj
        pure obj
      | none => pure SCM.undefined : Except Throw SCM)
    match amap_entry.parent with
    | none => do
      let v ← value_at in_vals amap_entry.c_input_pos
      let obj ← gig_value_to_scm_full_with_error E v amap_entry.meta obj
      pure [obj]
    | some _ => pure []

/-- The outer loop of `rebox_inout_vals` over the given C input positions. -/
def rebox_inout_vals_from (E : Env) (amap : GigArgMap) (in_vals : List GValue) :
    List Nat → Except Throw (List SCM)
  | [] => .ok []
  | c :: cs => do
    let xs ← rebox_inout_val E amap in_vals c
    let ys ← rebox_inout_vals_from E amap in_vals cs
    pure (xs ++ ys)

def rebox_inout_vals (E : Env) (amap : GigArgMap) (in_vals : List GValue) (s_args : List SCM) :
    Except Throw (List SCM) :=
  match s_args with
  | [] => .ok []
  | _ :: _ => rebox_inout_vals_from E amap in_vals (List.range amap.c_input_len)

/-- What `function_invoke` leaves behind: whether the GI invoke succeeded, the three
groups of typed values after the call, and the message of the `GError` if one was
set. -/
structure InvokeResult where
  ok : Bool
  in_vals : List GValue
  out_vals : List GValue
  return_val : GValue
  error : Option String
  deriving Repr

/-- How `function_call` and `function_binding` leave without returning: through
`scm_error_num_args_subr`, in one of the ways of the marshaller, or, for
`function_binding`, through `scm_misc_error (gfn->name, str, SCM_EOL)`, where `message`
holds the bytes of the C string `str`. -/
inductive CallThrow where
  | wrong_num_args
  | raised (t : Throw)
  | misc_error_message (message : List Nat)
  deriving DecidableEq, Repr

/-- The outcome of a marshalling step as an outcome of `function_call`. -/
def raise {α : Type} : Except Throw α → Except CallThrow α
  | .ok a => .ok a
  | .error t => .error (.raised t)

/-- The part of `function_call` after `function_invoke`: the three components of the
output are built (when the invoke succeeded) and packed into the host result. -/
def function_call_output (E : Env) (amap : GigArgMap) (res : InvokeResult) (s_args : List SCM) :
    Except Throw SCM :=
  if res.ok then do
    let output1 ← gig_value_to_scm_full_with_error E res.return_val amap.return_val.meta SCM_EOL
    let output1 := if scm_is_eq_unspecified output1 then [] else [output1]
    let output2 ← convert_output_vals E amap res.out_vals
    let output3 ← rebox_inout_vals E amap res.in_vals s_args
    match output1 ++ output2 ++ output3 with
    | [] => pure SCM_UNSPECIFIED
    | [x] => pure x
    | output => pure (SCM.values output)
  else .ok SCM_UNSPECIFIED

/-- `function_call`.  `function_invoke` is a parameter: it maps `self_val`, `in_vals`,
`out_vals` and `return_val` to what it leaves behind, or to `none` when it stops the
process.  The result is the host value returned and the `GError` message set, next to
the events of the call. -/
def function_call (E : Env) (amap : GigArgMap)
    (function_invoke : GValue → List GValue → List GValue → GValue → Option InvokeResult)
    (self : Ptr) (s_args : List SCM) : Except CallThrow (SCM × Option String) × List Event :=
  let args_count := s_args.length
  let required := (gig_amap_s_input_count amap).1
  let optional := (gig_amap_s_input_count amap).2
  if args_count < required ∨ args_count > required + optional then
    (.error .wrong_num_args, [])
  else
    match set_value_types amap with
    | .error t => (.error (.raised t), [])
    | .ok (self_val, in_vals, out_vals, return_val) =>
      let self_val := g_value_set_pointer self_val self
      match convert_input_vals E amap s_args 0 in_vals out_vals with
      | (.error t, events) => (.error (.raised t), events)
      | (.ok vals, events) =>
        match function_invoke self_val vals.1 vals.2 return_val with
        | none => (.error (.raised .abort), events ++ [Event.invoke])
        | some res =>
          (raise ((function_call_output E amap res s_args).map (fun output => (output, res.error))),
            events ++ [Event.invoke])

/-- The integer kinds wider than a byte. -/
def wide_integer_kinds : List GType :=
  [G_TYPE_INT16, G_TYPE_INT32, G_TYPE_INT64, G_TYPE_UINT16, G_TYPE_UINT32, G_TYPE_UINT64,
    G_TYPE_INT, G_TYPE_UINT, G_TYPE_LONG, G_TYPE_ULONG]

/-- The pointer kind and its two sub-kinds. -/
def pointer_kinds : List GType := [G_TYPE_POINTER, G_TYPE_GTYPE, G_TYPE_CALLBACK]

/-- The string kinds. -/
def string_kinds : List GType := [G_TYPE_STRING, G_TYPE_LOCALE_STRING]

/-- The Arg-Map entry of a host input of the given meta at position 0, without linked
entries. -/
def input_entry (name : String) (meta : GigTypeMeta) : GigArgMapEntry :=
  { name := name, meta := meta, is_c_input := true, c_input_pos := 0, is_c_output := false,
    c_output_pos := 0, is_s_input := true, s_input_pos := 0, is_s_output := false,
    s_output_pos := 0, child := none, parent := none }

/-- A fixed-size C array slot of three `unichar` elements. -/
def fixed_unichar_array_meta : GigTypeMeta :=
  { leaf_meta G_TYPE_FIXED_SIZE_CARRAY with
    is_ptr := true, length := 3, item_size := 4,
    params := [{ leaf_meta G_TYPE_UNICHAR with item_size := 4 }] }

/-- A C array slot of `gboolean` elements whose length is a separate argument. -/
def boolean_array_meta : GigTypeMeta :=
  { leaf_meta G_TYPE_LENGTH_CARRAY with
    is_ptr := true, item_size := 4,
    params := [{ leaf_meta G_TYPE_BOOLEAN with item_size := 4 }] }

/-- The pre-typed empty container of a C array slot with 4-byte elements: a `GValue` of
type `G_TYPE_ARRAY` that holds an empty `GArray`. -/
def empty_array_slot : GValue :=
  { g_type := G_TYPE_ARRAY, data := .boxed (.array (g_array_new 4)) }

/-! ## The result of a forward call, in words

The definitions of this section do not come from the C code: they spell out the
descriptions of the host result that the theorems compare `function_call` with. -/

/-- The host result for a result sequence: unspecified for the empty sequence, the
sole element for a sequence of length 1, a multiple-values object otherwise. -/
def pack_output : List SCM → SCM
  | [] => SCM_UNSPECIFIED
  | [x] => x
  | output => SCM.values output

/-- The C→host conversion of the slot at position `slot.1` of `vals`, of meta `slot.2`,
into a destination variable with the contents `dest`. -/
def slot_to_scm (E : Env) (vals : List GValue) (slot : Nat × GigTypeMeta) (dest : SCM) :
    Except Throw SCM := do
  let v ← value_at vals slot.1
  gig_value_to_scm_full_with_error E v slot.2 dest

/-- The slots with a host-output position, in increasing C-output position. -/
def host_output_slots (amap : GigArgMap) : List (Nat × GigTypeMeta) :=
  (List.range amap.c_output_len).filterMap (fun c =>
    match amap.pdata.find? (fun e => e.is_c_output && decide (e.c_output_pos = c)) with
    | some e => if e.is_s_output then some (c, e.meta) else none
    | none => none)

/-- The inout slots that the host gets back, in increasing C-input position: none when
the host argument list is empty, and never the length child of another slot. -/
def returned_inout_slots (amap : GigArgMap) (s_args : List SCM) : List (Nat × GigTypeMeta) :=
  match s_args with
  | [] => []
  | _ :: _ =>
    (List.range amap.c_input_len).filterMap (fun c =>
      match amap.pdata.find? (fun e => e.is_c_input && decide (e.c_input_pos = c)
          && e.meta.is_in && e.meta.is_out) with
      | some e => if e.parent = none then some (c, e.meta) else none
      | none => none)

/-- The host-visible pure-output slots, in increasing C-output position. -/
def claimed_pure_output_slots (amap : GigArgMap) : List (Nat × GigTypeMeta) :=
  (List.range amap.c_output_len).filterMap (fun c =>
    match amap.pdata.find? (fun e => e.is_c_output && decide (e.c_output_pos = c)) with
    | some e => if e.is_s_output && !(e.meta.is_in && e.meta.is_out) then some (c, e.meta) else none
    | none => none)

/-- The inout slots, in increasing C-input position. -/
def claimed_inout_slots (amap : GigArgMap) : List (Nat × GigTypeMeta) :=
  (List.range amap.c_input_len).filterMap (fun c =>
    match amap.pdata.find? (fun e => e.is_c_input && decide (e.c_input_pos = c)
        && e.meta.is_in && e.meta.is_out) with
    | some e => some (c, e.meta)
    | none => none)

/-- The conversions of a list of slots, in order. -/
def slots_to_scm (E : Env) (vals : List GValue) : List (Nat × GigTypeMeta) → Except Throw (List SCM)
  | [] => .ok []
  | slot :: rest => do
    let x ← slot_to_scm E vals slot SCM.undefined
    let xs ← slots_to_scm E vals rest
    pure (x :: xs)

/-- The host result of a successful forward call as the claim words it: the converted
return value (omitted when the return kind is void), then the host-visible pure-output
slots in increasing C-output position, then the inout slots in increasing C-input
position, packed by length. -/
def claimed_output (E : Env) (amap : GigArgMap) (res : InvokeResult) : Except Throw SCM := do
  let ret ← (if G_TYPE_FUNDAMENTAL amap.return_val.meta.gtype = G_TYPE_VOID then pure []
    else do
      let r ← gig_value_to_scm_full_with_error E res.return_val amap.return_val.meta SCM_EOL
      pure [r] : Except Throw (List SCM))
  let outs ← slots_to_scm E res.out_vals (claimed_pure_output_slots amap)
  let inouts ← slots_to_scm E res.in_vals (claimed_inout_slots amap)
  pure (pack_output (ret ++ outs ++ inouts))

/-! ## Sample callables -/

/-- A `function_invoke` whose C function changes nothing and succeeds. -/
def idle_invoke (_self : GValue) (in_vals out_vals : List GValue) (return_val : GValue) :
    Option InvokeResult :=
  some { ok := true, in_vals := in_vals, out_vals := out_vals, return_val := return_val,
         error := none }

/-- The Arg-Map of `int add (int a, int b)`. -/
def add_amap : GigArgMap :=
  { pdata := [input_entry "a" (leaf_meta G_TYPE_INT),
              { input_entry "b" (leaf_meta G_TYPE_INT) with c_input_pos := 1, s_input_pos := 1 }]
    s_input_req := 2, s_input_opt := 0, c_input_len := 2, c_output_len := 0
    return_val := { input_entry "%return" (leaf_meta G_TYPE_INT) with
                    is_c_input := false, is_s_input := false } }

/-- A `function_invoke` whose C function returns the sum of its two `int` inputs. -/
def add_invoke (_self : GValue) (in_vals out_vals : List GValue) (return_val : GValue) :
    Option InvokeResult :=
  match in_vals with
  | [a, b] =>
    some { ok := true, in_vals := in_vals, out_vals := out_vals,
           return_val := g_value_set_int return_val (g_value_get_int a + g_value_get_int b),
           error := none }
  | _ => none

/-- The Arg-Map of `void f (gpointer *p)` with `p` inout and nullable: its one host
input is optional. -/
def optional_inout_amap : GigArgMap :=
  { pdata := [{ input_entry "p" { leaf_meta G_TYPE_POINTER with
                                   is_out := true, is_nullable := true, is_ptr := true } with
                is_c_output := true }]
    s_input_req := 0, s_input_opt := 1, c_input_len := 1, c_output_len := 1
    return_val := { input_entry "%return" (leaf_meta G_TYPE_VOID) with
                    is_c_input := false, is_s_input := false } }

/-- The Arg-Map of `void g (const guint8 *data, gulong *n)` with `n` inout and the
length of `data`: the host sees `data` only. -/
def inout_length_amap : GigArgMap :=
  { pdata := [{ input_entry "data" { leaf_meta G_TYPE_LENGTH_CARRAY with
                                      is_ptr := true, item_size := 1,
                                      params := [{ leaf_meta G_TYPE_UCHAR with item_size := 1 }] }
                with child := some 1 },
              { input_entry "n" { leaf_meta G_TYPE_ULONG with is_out := true } with
                c_input_pos := 1, is_c_output := true, is_s_input := false, parent := some 0 }]
    s_input_req := 1, s_input_opt := 0, c_input_len := 2, c_output_len := 1
    return_val := { input_entry "%return" (leaf_meta G_TYPE_VOID) with
                    is_c_input := false, is_s_input := false } }

/-! ## Sample list, array and object slots -/

/-- The meta of a list slot of flavour `flavour` (`G_TYPE_LIST` or `G_TYPE_SLIST`) whose
elements are of type `elem` and are not pointers. -/
def list_meta (flavour elem : GType) : GigTypeMeta :=
  { leaf_meta flavour with is_ptr := true, params := [leaf_meta elem] }

/-- The sample environment in which the local `_dest` of `scm_list_to_value`, which the
C code declares without an initialiser, happens to hold a zero value of type `t`: the
case in which every store into `_dest` succeeds. -/
def env_with_local (t : GType) : Env := { sample_env with indeterminate_value := g_value_init t }

/-- The element kinds for which the `switch` of `scm_list_to_value` answers
`GIG_VALUE_INVALID`. -/
def wide_list_element_kinds : List GType :=
  [G_TYPE_INT64, G_TYPE_UINT64, G_TYPE_LONG, G_TYPE_ULONG, G_TYPE_ENUM, G_TYPE_FLAGS,
    G_TYPE_FLOAT, G_TYPE_DOUBLE]

/-- The two list flavours. -/
def list_flavours : List GType := [G_TYPE_LIST, G_TYPE_SLIST]

/-- A C array slot of `gunichar` elements whose length is a separate argument. -/
def unichar_array_meta : GigTypeMeta :=
  { leaf_meta G_TYPE_LENGTH_CARRAY with
    is_ptr := true, item_size := 4,
    params := [{ leaf_meta G_TYPE_UNICHAR with item_size := 4 }] }

/-! ## `GIArgument` and the typed values: `gig_argument.c` -/

/-- GObject Introspection's `GIArgument`, a union: the member written last, with its
value.  `int` stands for the integer members (`v_boolean`, `v_int8` to `v_uint64`,
`v_int`, `v_long`, `v_size` and so on), `real` for `v_float` and `v_double`, `string` for
`v_string`, `pointer` for `v_pointer` with a plain pointer in it.  `carray` is
`v_pointer` pointing to a C buffer with the given elements; `own` says that the buffer
is the `data` of the container of the very slot the argument belongs to.  `boxed` is
`v_pointer` pointing to a boxed object.  `g_new0` gives `int 0`. -/
inductive GIArgument where
  | int (v : Int)
  | real (q : Rat)
  | string (s : Option (List Nat))
  | pointer (p : Ptr)
  | carray (own : Bool) (elems : List Elem)
  | boxed (b : Boxed)
  deriving DecidableEq, Repr

/-- The test `arg.v_pointer == NULL`. -/
def GIArgument.is_null : GIArgument → Bool
  | .int v => decide (v = 0)
  | .real q => decide (q = 0)
  | .string s => s.isNone
  | .pointer p => p.is_null
  | .carray _ _ => false
  | .boxed b => decide (b = Boxed.null)

/-- The read of an integer member of `bits` bits.  Only an argument that holds an
integer or a plain address is read; the bits of any other member are not part of the
model. -/
def GIArgument.v_integer (bits : Nat) (signed : Bool) : GIArgument → Except Throw Int
  | .int v => .ok (if signed then wrap_signed bits v else wrap_unsigned bits v)
  | .pointer (.addr a) => .ok (if signed then wrap_signed bits a else wrap_unsigned bits a)
  | _ => .error .abort

/-- The read of `v_float` or `v_double`. -/
def GIArgument.v_real : GIArgument → Except Throw Rat
  | .real q => .ok q
  | .int 0 => .ok 0
  | _ => .error .abort

/-- The read of `v_string`. -/
def GIArgument.v_string : GIArgument → Except Throw (Option (List Nat))
  | .string s => .ok s
  | .pointer (.cstring buf) => .ok (some buf)
  | .pointer (.host_bytes buf) => .ok (some buf)
  | a => if a.is_null then .ok none else .error .abort

/-- The read of `v_pointer` as a plain pointer. -/
def GIArgument.v_pointer (D : DataModel) : GIArgument → Except Throw Ptr
  | .pointer p => .ok p
  | .int v => .ok (GSIZE_TO_POINTER D v)
  | .string s => .ok (string_pointer s)
  | .boxed .null => .ok Ptr.null
  | .boxed (.other p) => .ok p
  | _ => .error .abort

/-- The read of `v_pointer` as a pointer to a boxed object. -/
def GIArgument.v_boxed (D : DataModel) : GIArgument → Except Throw Boxed
  | .boxed b => .ok b
  | .carray _ _ => .error .abort
  | a => do
    let p ← a.v_pointer D
    pure (Boxed.of_pointer p)

/-- The `GIArgument` whose `v_pointer` is the boxed pointer `b`. -/
def GIArgument.of_boxed : Boxed → GIArgument
  | .null => .pointer Ptr.null
  | .other p => .pointer p
  | b => .boxed b

/-- The `GIArgument` whose `v_pointer` is the `data` of a container with the given
elements: a container without elements has no buffer. -/
def GIArgument.of_data (elems : List Elem) : GIArgument :=
  if elems = [] then .pointer Ptr.null else .carray true elems

/-- The C conversion of a floating-point number to `gint`: truncation, within the
range of `gint`. -/
def c_real_to_int (q : Rat) : Except Throw Int :=
  let t : Int := if 0 ≤ q then q.floor else -((-q).floor)
  if INT_MIN ≤ t ∧ t ≤ INT_MAX then .ok t else .error .abort

def gig_value2arg (val : GValue) (arg : GIArgument) (size : Nat) :
    Except Throw (GIArgument × Nat) :=
  let type := G_VALUE_TYPE val
  let fundamental_type := G_TYPE_FUNDAMENTAL type
  if fundamental_type = G_TYPE_INVALID ∨ fundamental_type = G_TYPE_NONE then .error .abort
  else if fundamental_type = G_TYPE_VOID then .ok (.pointer Ptr.null, size)
  else if fundamental_type = G_TYPE_INTERFACE then .ok (.pointer (g_value_get_object val), size)
  else if fundamental_type = G_TYPE_CHAR then .ok (.int (wrap_signed 8 (g_value_get_schar val)), size)
  else if fundamental_type = G_TYPE_UCHAR then
    .ok (.int (wrap_unsigned 8 (g_value_get_uchar val)), size)
  else if fundamental_type = G_TYPE_BOOLEAN then .ok (.int (g_value_get_boolean val), size)
  else if fundamental_type = G_TYPE_INT then
    if type = G_TYPE_INT then .ok (.int (g_value_get_int val), size)
    else if type = G_TYPE_INT16 then .ok (.int (wrap_signed 16 (g_value_get_int val)), size)
    else if type = G_TYPE_INT32 then .ok (.int (wrap_signed 32 (g_value_get_int val)), size)
    else if type = G_TYPE_UNICHAR then .ok (.int (wrap_signed 32 (g_value_get_int val)), size)
    else .ok (arg, size)
  else if fundamental_type = G_TYPE_UINT then
    if type = G_TYPE_UINT then .ok (.int (g_value_get_uint val), size)
    else if type = G_TYPE_UINT16 then .ok (.int (wrap_unsigned 16 (g_value_get_uint val)), size)
    else if type = G_TYPE_UINT32 then .ok (.int (wrap_unsigned 32 (g_value_get_uint val)), size)
    else .ok (arg, size)
  else if fundamental_type = G_TYPE_LONG then .ok (.int (g_value_get_long val), size)
  else if fundamental_type = G_TYPE_ULONG then .ok (.int (g_value_get_ulong val), size)
  else if fundamental_type = G_TYPE_INT64 then .ok (.int (g_value_get_int64 val), size)
  else if fundamental_type = G_TYPE_UINT64 then .ok (.int (g_value_get_uint64 val), size)
  else if fundamental_type = G_TYPE_ENUM then .ok (.int (g_value_get_enum val), size)
  else if fundamental_type = G_TYPE_FLAGS then
    .ok (.int (wrap_signed 32 (g_value_get_flags val)), size)
  else if fundamental_type = G_TYPE_FLOAT then .ok (.real (g_value_get_float val), size)
  else if fundamental_type = G_TYPE_DOUBLE then .ok (.real (g_value_get_double val), size)
  else if fundamental_type = G_TYPE_STRING then .ok (.string (g_value_get_string val), size)
  else if fundamental_type = G_TYPE_POINTER then .ok (.pointer (g_value_get_pointer val), size)
  else if fundamental_type = G_TYPE_BOXED then
    if type = G_TYPE_FIXED_SIZE_CARRAY ∨ type = G_TYPE_ZERO_TERMINATED_CARRAY
        ∨ type = G_TYPE_LENGTH_CARRAY then .error .abort
    else if type = G_TYPE_ARRAY then
      match g_value_get_boxed val with
      | .array arr => .ok (GIArgument.of_data arr.data, arr.len)
      | _ => .error .abort
    else if type = G_TYPE_BYTE_ARRAY then
      match g_value_get_boxed val with
      | .byte_array bytes => .ok (GIArgument.of_data (bytes.map (fun b => Elem.raw [b])), bytes.length)
      | _ => .error .abort
    else if type = G_TYPE_PTR_ARRAY then
      match g_value_get_boxed val with
      | .ptr_array pdata => .ok (GIArgument.of_data (pdata.map Elem.ptr), pdata.length)
      | _ => .error .abort
    else .ok (GIArgument.of_boxed (g_value_get_boxed val), size)
  else .error .abort

/-- The loop `while (*ptr++ != 0) length++` over the objects of `size` bytes of the
buffer `bytes`; no zero object inside the buffer means a read past its end.  `fuel`
bounds the number of turns: every turn consumes `size` bytes, so the length of the
buffer plus one is enough. -/
def zero_scan (size : Nat) : Nat → List Nat → Except Throw Nat
  | 0, _ => .error .abort
  | fuel + 1, bytes =>
    if bytes.length < size then .error .abort
    else if le_value (bytes.take size) = 0 then .ok 0
    else do
      let n ← zero_scan size fuel (bytes.drop size)
      pure (n + 1)

/-- The loop `while (ptr[length] != NULL) length++` over a buffer of pointers. -/
def null_scan : List Elem → Except Throw Nat
  | [] => .error .abort
  | .ptr p :: rest =>
    if p.is_null then .ok 0
    else do
      let n ← null_scan rest
      pure (n + 1)
  | .raw b :: rest =>
    if le_value b = 0 then .ok 0
    else do
      let n ← null_scan rest
      pure (n + 1)

/-- The bytes of the C buffer that `v_pointer` points to. -/
def GIArgument.buffer_bytes : GIArgument → Except Throw (List Nat)
  | .carray _ elems =>
    match elems_bytes elems with
    | some bytes => .ok bytes
    | none => .error .abort
  | .pointer (.host_bytes bytes) => .ok bytes
  | .pointer (.cstring bytes) => .ok bytes
  | .string (some bytes) => .ok bytes
  | _ => .error .abort

/-- `zero_terminated_carray_length`.  The loop of the `default` case tests the address
`ptr + i`, not the byte found there: it never sees a zero and leaves the buffer
(`default_case_loop` is that loop, turn by turn). -/
def zero_terminated_carray_length (meta : GigTypeMeta) (array : GIArgument) : Except Throw Nat :=
  if array.is_null then .ok 0
  else do
    let p0 ← meta.params0
    if G_TYPE_FUNDAMENTAL p0.gtype = G_TYPE_STRING then
      match array with
      | .carray _ elems => null_scan elems
      | _ => throw Throw.abort
    else if p0.item_size = 0 then throw Throw.abort
    else if p0.item_size = 1 ∨ p0.item_size = 2 ∨ p0.item_size = 4 ∨ p0.item_size = 8 then do
      let bytes ← array.buffer_bytes
      zero_scan p0.item_size (bytes.length + 1) bytes
    else throw Throw.abort

/-- The first `n` elements, of `size` bytes each, of the C buffer that `v_pointer`
points to; a buffer with fewer elements is read past its end. -/
def GIArgument.buffer_elems (size n : Nat) : GIArgument → Except Throw (List Elem)
  | .carray _ elems => if n ≤ elems.length then .ok (elems.take n) else .error .abort
  | .pointer (.host_bytes bytes) =>
    if n * size ≤ bytes.length then .ok (byte_chunks size n bytes) else .error .abort
  | .pointer (.cstring bytes) =>
    if n * size ≤ bytes.length then .ok (byte_chunks size n bytes) else .error .abort
  | _ => .error .abort

/-- The pointers among the elements of a buffer. -/
def elems_pointers : List Elem → Except Throw (List Ptr)
  | [] => .ok []
  | .ptr p :: rest => do
    let ps ← elems_pointers rest
    pure (p :: ps)
  | .raw _ :: _ => .error .abort

/-- The test `arg->v_pointer != arr->data` of `gig_arg2value`, for a container with
the elements `data`. -/
def GIArgument.differs_from_data (arg : GIArgument) (data : List Elem) : Bool :=
  match arg with
  | .carray own _ => !own
  | a => !(a.is_null && decide (data = []))

def gig_arg2value (D : DataModel) (val : GValue) (arg : GIArgument) (array_len : Nat) :
    Except Throw GValue :=
  let type := G_VALUE_TYPE val
  let fundamental_type := G_TYPE_FUNDAMENTAL type
  if fundamental_type = G_TYPE_INVALID ∨ fundamental_type = G_TYPE_NONE then .error .abort
  else if fundamental_type = G_TYPE_VOID then .ok val
  else if fundamental_type = G_TYPE_INTERFACE then do
    let p ← arg.v_pointer D
    pure (g_value_set_object val p)
  else if fundamental_type = G_TYPE_CHAR then do
    let v ← arg.v_integer 8 true
    pure (g_value_set_schar val v)
  else if fundamental_type = G_TYPE_UCHAR then do
    let v ← arg.v_integer 8 false
    pure (g_value_set_uchar val v)
  else if fundamental_type = G_TYPE_BOOLEAN then do
    let v ← arg.v_integer 32 true
    pure (g_value_set_boolean val (decide (v ≠ 0)))
  else if fundamental_type = G_TYPE_INT then
    if type = G_TYPE_INT then do
      let v ← arg.v_integer 32 true
      pure (g_value_set_int val v)
    else if type = G_TYPE_INT16 then do
      let v ← arg.v_integer 16 true
      pure (g_value_set_int val v)
    else if type = G_TYPE_INT32 ∨ type = G_TYPE_UNICHAR then do
      let v ← arg.v_integer 32 true
      pure (g_value_set_int val v)
    else .error .abort
  else if fundamental_type = G_TYPE_UINT then
    if type = G_TYPE_UINT then do
      let v ← arg.v_integer 32 false
      pure (g_value_set_uint val v)
    else if type = G_TYPE_UINT16 then do
      let v ← arg.v_integer 16 false
      pure (g_value_set_uint val v)
    else if type = G_TYPE_UINT32 then do
      let v ← arg.v_integer 32 false
      pure (g_value_set_uint val v)
    else .error .abort
  else if fundamental_type = G_TYPE_LONG then do
    let v ← arg.v_integer (LONG_BITS D) true
    pure (g_value_set_long val v)
  else if fundamental_type = G_TYPE_ULONG then do
    let v ← arg.v_integer (LONG_BITS D) false
    pure (g_value_set_ulong val v)
  else if fundamental_type = G_TYPE_INT64 then do
    let v ← arg.v_integer 64 true
    pure (g_value_set_int64 val v)
  else if fundamental_type = G_TYPE_UINT64 then do
    let v ← arg.v_integer 64 false
    pure (g_value_set_uint64 val v)
  else if fundamental_type = G_TYPE_ENUM then do
    let v ← arg.v_integer 32 true
    pure (g_value_set_enum val v)
  else if fundamental_type = G_TYPE_FLAGS then do
    let v ← arg.v_integer 32 false
    pure (g_value_set_flags val v)
  else if fundamental_type = G_TYPE_FLOAT ∨ fundamental_type = G_TYPE_DOUBLE then do
    let q ← arg.v_real
    let v ← c_real_to_int q
    pure (g_value_set_enum val v)
  else if fundamental_type = G_TYPE_STRING then do
    let s ← arg.v_string
    pure (g_value_take_string val s)
  else if fundamental_type = G_TYPE_POINTER then do
    let p ← arg.v_pointer D
    pure (g_value_set_pointer val p)
  else if fundamental_type = G_TYPE_BOXED then
    if type = G_TYPE_LENGTH_CARRAY ∨ type = G_TYPE_FIXED_SIZE_CARRAY
        ∨ type = G_TYPE_ZERO_TERMINATED_CARRAY then .error .abort
    else if type = G_TYPE_ARRAY then
      match g_value_get_boxed val with
      | .array arr =>
        if arg.differs_from_data arr.data ∧ array_len ≠ 0 then do
          let elems ← arg.buffer_elems arr.element_size array_len
          pure (with_array val { arr with data := arr.data ++ elems })
        else .ok val
      | _ => .error .abort
    else if type = G_TYPE_BYTE_ARRAY then
      match g_value_get_boxed val with
      | .byte_array bytes =>
        if arg.is_null = false ∧ array_len ≠ 0 then do
          let buf ← arg.buffer_bytes
          if array_len ≤ buf.length then
            pure { val with data := .boxed (.byte_array (bytes ++ buf.take array_len)) }
          else throw Throw.abort
        else .ok val
      | _ => .error .abort
    else if type = G_TYPE_PTR_ARRAY then
      match g_value_get_boxed val with
      | .ptr_array pdata =>
        if arg.is_null = false ∧ array_len ≠ 0 then do
          let elems ← arg.buffer_elems (POINTER_BITS D / 8) array_len
          let ps ← elems_pointers elems
          pure { val with data := .boxed (.ptr_array (pdata ++ ps)) }
        else .ok val
      | _ => .error .abort
    else do
      let b ← arg.v_boxed D
      pure (g_value_take_boxed val b)
  else .error .abort

/-! ## `function_invoke` and `function_binding`: `gig_function.c` -/

/-- Modelled from the spec: the query `child_of` for a C output position, the C output
position of the length entry linked to the entry at position `c`
(`gig_arg_map.c` is not among the sources). -/
def gig_amap_output_child_c (amap : GigArgMap) (c : Nat) : Option Nat :=
  match gig_amap_output_c2i amap c with
  | some i =>
    match gig_amap_child_i amap i with
    | some j => gig_amap_output_i2c amap j
    | none => none
  | none => none

/-- Modelled from the spec: the query `return_child`, the index of the length entry
linked to the return value. -/
def gig_amap_return_child_i (amap : GigArgMap) : Option Nat := amap.return_val.child

/-- `g_value_init (value, t)` on a value in place: a value that has a type already is
left as it is. -/
def g_value_init_at (value : GValue) (t : GType) : GValue :=
  if value.g_type = G_TYPE_INVALID then g_value_init t else value

/-- The element `xs[n]` of a C array of `GIArgument`s. -/
def arg_at (xs : List GIArgument) (n : Nat) : Except Throw GIArgument :=
  match xs.get? n with
  | some a => .ok a
  | none => .error .abort

/-- The variable `array_len` that `function_invoke` sets before each `gig_value2arg`:
`len` of the container for the three array types, 0 otherwise. -/
def container_len (val : GValue) : Except Throw Nat :=
  let type := G_VALUE_TYPE val
  if type = G_TYPE_ARRAY ∨ type = G_TYPE_BYTE_ARRAY ∨ type = G_TYPE_PTR_ARRAY then
    boxed_array_len (g_value_get_boxed val)
  else .ok 0

/-- The loop over the C input positions before the call: `in_args[c + offset]`. -/
def in_vals_to_args (in_vals : List GValue) : List Nat → Except Throw (List GIArgument)
  | [] => .ok []
  | c :: cs => do
    let val ← value_at in_vals c
    let array_len ← container_len val
    let r ← gig_value2arg val (.int 0) array_len
    let rest ← in_vals_to_args in_vals cs
    pure (r.1 :: rest)

/-- The loop over the C output positions before the call: `out_args[c]`, which stays
zero for a value without type. -/
def out_vals_to_args (out_vals : List GValue) : List Nat → Except Throw (List GIArgument)
  | [] => .ok []
  | c :: cs => do
    let val ← value_at out_vals c
    let array_len ← container_len val
    let a ← (if G_VALUE_TYPE val ≠ G_TYPE_INVALID then do
        let r ← gig_value2arg val (.int 0) array_len
        pure r.1
      else pure (GIArgument.int 0) : Except Throw GIArgument)
    let rest ← out_vals_to_args out_vals cs
    pure (a :: rest)

/-- The `in_args` of the call: the pointer of `self_val` first when it is not null
(`offset = 1`), then the C inputs. -/
def function_invoke_in_args (amap : GigArgMap) (self_val : GValue) (in_vals : List GValue) :
    Except Throw (List GIArgument) := do
  let args ← in_vals_to_args in_vals (List.range amap.c_input_len)
  if (g_value_get_pointer self_val).is_null then pure args
  else pure (GIArgument.pointer (g_value_get_pointer self_val) :: args)

/-- What `g_function_info_invoke` leaves behind: its result, what the C function stored
through `out_args[c].v_pointer` for each C output position, the `return_arg`, and the
message of the `GError` if it set one. -/
structure CalleeResult where
  ok : Bool
  out_stored : List GIArgument
  return_arg : GIArgument
  error : Option String
  deriving Repr

/-- The `out_args` after the call.  An argument that was null before the call pointed
to its `out_boxes` entry during the call and is overwritten with the contents of that
entry; any other argument is left as it was. -/
def out_args_after (before stored : List GIArgument) : List GIArgument :=
  (List.range before.length).map (fun c =>
    match before.get? c with
    | some b => if b.is_null then (stored.get? c).getD (GIArgument.int 0) else b
    | none => GIArgument.int 0)

/-- The read `out_args[child_c].v_size`. -/
def arg_v_size (D : DataModel) (out_args : List GIArgument) (child_c : Nat) : Except Throw Nat := do
  let a ← arg_at out_args child_c
  let v ← a.v_integer (POINTER_BITS D) false
  pure v.toNat

/-- The body of the loop of `function_invoke` over the C output positions after the
call, for position `c`.  `size` and `i` are the variables of these names: `size` is
written only for a value without type, and both are kept from one turn to the next;
`i` has no value before the first turn. -/
def out_arg_to_val (D : DataModel) (amap : GigArgMap) (out_args : List GIArgument) (c : Nat)
    (out_vals : List GValue) (return_val : GValue) (size : Nat) :
    Except Throw (List GValue × GValue × Nat × Nat) := do
  let val ← value_at out_vals c
  let i ← query_result (gig_amap_output_c2i amap c)
  let arg ← arg_at out_args c
  let r ← (if G_VALUE_TYPE val = G_TYPE_INVALID then do
      let entry ← entry_at amap i
      let type := entry.meta.gtype
      if type = G_TYPE_LENGTH_CARRAY ∨ type = G_TYPE_ZERO_TERMINATED_CARRAY
          ∨ type = G_TYPE_FIXED_SIZE_CARRAY then do
        let val1 := g_value_set_boxed (g_value_init G_TYPE_ARRAY)
          (.array (g_array_new entry.meta.item_size))
        if type = G_TYPE_FIXED_SIZE_CARRAY then pure (val1, return_val, entry.meta.length)
        else if type = G_TYPE_ZERO_TERMINATED_CARRAY then do
          let n ← zero_terminated_carray_length entry.meta arg
          pure (val1, return_val, n)
        else
          match gig_amap_output_child_c amap c with
          | some child_c => do
            let n ← arg_v_size D out_args child_c
            pure (val1, return_val, n)
          | none => pure (val1, return_val, size)
      else if type = G_TYPE_ENUM then pure (val, g_value_init_at return_val G_TYPE_INT, size)
      else pure (g_value_init entry.meta.gtype, return_val, size)
    else pure (val, return_val, size) : Except Throw (GValue × GValue × Nat))
  let val2 ← gig_arg2value D r.1 arg r.2.2
  let out_vals1 ← set_value_at out_vals c val2
  pure (out_vals1, r.2.1, r.2.2, i)

/-- The loop of `function_invoke` over the C output positions after the call. -/
def out_args_to_vals (D : DataModel) (amap : GigArgMap) (out_args : List GIArgument) :
    List Nat → List GValue → GValue → Nat → Option Nat →
      Except Throw (List GValue × GValue × Nat × Option Nat)
  | [], out_vals, return_val, size, i => .ok (out_vals, return_val, size, i)
  | c :: cs, out_vals, return_val, size, _ => do
    let r ← out_arg_to_val D amap out_args c out_vals return_val size
    out_args_to_vals D amap out_args cs r.1 r.2.1 r.2.2.1 (some r.2.2.2)

/-- The end of `function_invoke`: the return value is given a type if it has none, and
receives `return_arg`.  The entry `amap->pdata[i]` that gives the element size and the
length is the one of the last C output position. -/
def return_arg_to_val (D : DataModel) (amap : GigArgMap) (out_args : List GIArgument)
    (return_arg : GIArgument) (return_val : GValue) (size : Nat) (i : Option Nat) :
    Except Throw GValue := do
  let r ← (if G_VALUE_TYPE return_val = G_TYPE_INVALID then do
      let type := amap.return_val.meta.gtype
      if type = G_TYPE_LENGTH_CARRAY ∨ type = G_TYPE_ZERO_TERMINATED_CARRAY
          ∨ type = G_TYPE_FIXED_SIZE_CARRAY then do
        let i ← query_result i
        let entry ← entry_at amap i
        let val1 := g_value_set_boxed (g_value_init G_TYPE_ARRAY)
          (.array (g_array_new entry.meta.item_size))
        if type = G_TYPE_FIXED_SIZE_CARRAY then pure (val1, entry.meta.length)
        else if type = G_TYPE_ZERO_TERMINATED_CARRAY then do
          let n ← zero_terminated_carray_length entry.meta return_arg
          pure (val1, n)
        else
          match gig_amap_return_child_i amap with
          | some child_i => do
            let child_c ← query_result (gig_amap_output_i2c amap child_i)
            let n ← arg_v_size D out_args child_c
            pure (val1, n)
          | none => pure (val1, 0)
      else if type = G_TYPE_ENUM then pure (g_value_init G_TYPE_INT, size)
      else pure (g_value_init amap.return_val.meta.gtype, size)
    else pure (return_val, size) : Except Throw (GValue × Nat))
  gig_arg2value D r.1 return_arg r.2

/-- The part of `function_invoke` after `g_function_info_invoke`: the typed output
values and the typed return value receive the `out_args` and the `return_arg`. -/
def function_invoke_out_vals (D : DataModel) (amap : GigArgMap) (out_args : List GIArgument)
    (return_arg : GIArgument) (out_vals : List GValue) (return_val : GValue) :
    Except Throw (List GValue × GValue) := do
  let r ← out_args_to_vals D amap out_args (List.range amap.c_output_len) out_vals return_val 0 none
  let return_val1 ← return_arg_to_val D amap out_args return_arg r.2.1 r.2.2.1 r.2.2.2
  pure (r.1, return_val1)

/-- `function_invoke`.  `g_function_info_invoke` is a parameter: it maps the `in_args`
and the `out_args` of before the call (a null `out_args[c]` stands for the pointer to
`out_boxes[c]`) to what the C function leaves behind, or to `none` when the process
stops in it.  The values are modelled by value: what the C function writes into memory
that an input or a container of the caller points to is not followed, and `in_vals`
comes back as it went in. -/
def function_invoke (D : DataModel) (amap : GigArgMap)
    (g_function_info_invoke : List GIArgument → List GIArgument → Option CalleeResult)
    (self_val : GValue) (in_vals out_vals : List GValue) (return_val : GValue) :
    Option InvokeResult :=
  match function_invoke_in_args amap self_val in_vals,
      out_vals_to_args out_vals (List.range amap.c_output_len) with
  | .ok in_args, .ok out_args =>
    match g_function_info_invoke in_args out_args with
    | none => none
    | some res =>
      match function_invoke_out_vals D amap (out_args_after out_args res.out_stored)
          res.return_arg out_vals return_val with
      | .ok vals =>
        some { ok := res.ok, in_vals := in_vals, out_vals := vals.1, return_val := vals.2,
               error := res.error }
      | .error _ => none
  | _, _ => none

/-- The bytes of the C string `err->message` for a `GError` with the message `m`: the
UTF-8 encoding of the message, up to its first NUL. -/
def gerror_message_bytes (m : String) : List Nat := c_string_bytes (utf8_encode m.toList ++ [0])

/-- `strncpy (str, src, n)` into a buffer `str` that `memset` has filled with zeros
and that has room for more than `n` bytes: the C string that `str` holds afterwards. -/
def strncpy_text (src : List Nat) (n : Nat) : List Nat := src.take n

/-- `function_binding`, the wrapper that libffi calls for a forward call.  `s_args` is
the packed host argument list (`SCM_UNDEFINED` when the wrapper has no argument) and
`is_method` is `g_callable_info_is_method (gfn->function_info)`.  A `GError` that
`function_call` hands back becomes a misc-error whose message is the C string that
`strncpy` copies into the 256-byte buffer `str`; an outcome `error` means that nothing
is stored into the return slot `*(ffi_arg *) ret`. -/
def function_binding (E : Env) (amap : GigArgMap) (is_method : Bool)
    (function_invoke : GValue → List GValue → List GValue → GValue → Option InvokeResult)
    (s_args : SCM) : Except CallThrow SCM × List Event :=
  let s_args := match s_args with
    | .undefined => SCM_EOL
    | x => x
  let r : Except CallThrow (Ptr × SCM) :=
    if is_method then
      match s_args with
      | .pair car cdr => .ok (E.gig_type_peek_object car, cdr)
      | _ => .error (.raised (.wrong_type_arg 0))
    else .ok (Ptr.null, s_args)
  match r with
  | .error t => (.error t, [])
  | .ok (self, s_args) =>
    match scm_list_elements s_args with
    | none => (.error (.raised (.wrong_type_arg 1)), [])
    | some args =>
      match function_call E amap function_invoke self args with
      | (.error t, events) => (.error t, events)
      | (.ok (_, some err), events) =>
        (.error (.misc_error_message (strncpy_text (gerror_message_bytes err) 255)), events)
      | (.ok (output, none), events) => (.ok output, events)

/-! ## Sample callables with C arrays, objects and boxed values -/

/-- The entry of a return value of the given meta. -/
def return_entry (meta : GigTypeMeta) : GigArgMapEntry :=
  { input_entry "%return" meta with is_c_input := false, is_s_input := false }

/-- The entry of a pure output of the given meta at C output position `c`. -/
def output_entry (name : String) (meta : GigTypeMeta) (c : Nat) : GigArgMapEntry :=
  { input_entry name { meta with is_in := false, is_out := true } with
    is_c_input := false, is_s_input := false, is_c_output := true, c_output_pos := c,
    is_s_output := true, s_output_pos := c }

/-- A C array slot of 32-bit integers of the given flavour, with declared length
`length`. -/
def int32_array_meta (flavour : GType) (length : Nat) : GigTypeMeta :=
  { leaf_meta flavour with
    is_ptr := true, length := length, item_size := 4,
    params := [{ leaf_meta G_TYPE_INT32 with item_size := 4 }] }

/-- The Arg-Map of `void get_data (gint32 **data, gint *n)`: `data` is an output array
whose length the callee writes into `n`; the host sees `data` only. -/
def length_array_out_amap : GigArgMap :=
  { pdata := [{ output_entry "data" (int32_array_meta G_TYPE_LENGTH_CARRAY 0) 0 with
                child := some 1 },
              { output_entry "n" (leaf_meta G_TYPE_INT) 1 with
                is_s_output := false, parent := some 0 }]
    s_input_req := 0, s_input_opt := 0, c_input_len := 0, c_output_len := 2
    return_val := return_entry (leaf_meta G_TYPE_VOID) }

/-- The Arg-Map of `void get_triple (gint32 **data)`: `data` is an output array of the
fixed size 3. -/
def fixed_array_out_amap : GigArgMap :=
  { pdata := [output_entry "data" (int32_array_meta G_TYPE_FIXED_SIZE_CARRAY 3) 0]
    s_input_req := 0, s_input_opt := 0, c_input_len := 0, c_output_len := 1
    return_val := return_entry (leaf_meta G_TYPE_VOID) }

/-- The Arg-Map of `void get_list (gint32 **data)`: `data` is a zero-terminated output
array. -/
def zero_terminated_array_out_amap : GigArgMap :=
  { pdata := [output_entry "data" (int32_array_meta G_TYPE_ZERO_TERMINATED_CARRAY 0) 0]
    s_input_req := 0, s_input_opt := 0, c_input_len := 0, c_output_len := 1
    return_val := return_entry (leaf_meta G_TYPE_VOID) }

/-- The buffer of the three 32-bit integers 10, 20, 30 followed by a zero. -/
def sample_buffer : List Elem :=
  [Elem.raw [10, 0, 0, 0], Elem.raw [20, 0, 0, 0], Elem.raw [30, 0, 0, 0], Elem.raw [0, 0, 0, 0]]

/-- A C function that stores a pointer to `sample_buffer` through its first output
argument and the length 3 through its second one, if it has one. -/
def sample_array_callee (_in_args _out_args : List GIArgument) : Option CalleeResult :=
  some { ok := true, out_stored := [GIArgument.carray false sample_buffer, GIArgument.int 3],
         return_arg := GIArgument.int 0, error := none }

/-- The Arg-Map of the method `gint count (Self *self)`, which has no argument besides
the instance; the Arg-Map does not list the instance. -/
def method_amap : GigArgMap :=
  { pdata := [], s_input_req := 0, s_input_opt := 0, c_input_len := 0, c_output_len := 0
    return_val := return_entry (leaf_meta G_TYPE_INT) }

/-- The Arg-Map of `gint probe (T x)` for one input of the given meta. -/
def one_input_amap (meta : GigTypeMeta) : GigArgMap :=
  { pdata := [input_entry "x" meta], s_input_req := 1, s_input_opt := 0, c_input_len := 1,
    c_output_len := 0, return_val := return_entry (leaf_meta G_TYPE_INT) }

/-- A C function that returns the number of arguments it was called with. -/
def count_args_callee (in_args _out_args : List GIArgument) : Option CalleeResult :=
  some { ok := true, out_stored := [], return_arg := GIArgument.int in_args.length,
         error := none }

/-- A C function that returns 1 when its first argument is a null pointer and 0 when it
is not. -/
def null_probe_callee (in_args _out_args : List GIArgument) : Option CalleeResult :=
  match in_args with
  | a :: _ =>
    some { ok := true, out_stored := [], return_arg := GIArgument.int (if a.is_null then 1 else 0),
           error := none }
  | [] => none

/-- An environment whose registry knows one object: the host object 7 wraps the C
object at address 64, which is an instance of every type. -/
def registry_env : Env :=
  { sample_env with
    gig_type_peek_object := fun x =>
      match x with
      | .object 7 => Ptr.addr 64
      | _ => Ptr.null
    G_TYPE_CHECK_INSTANCE_TYPE := fun p _ => !p.is_null }

/-! ## The reverse call: `gir_callback.c` -/

/-- GObject Introspection's `GITypeTag`. -/
inductive GITypeTag where
  | GI_TYPE_TAG_VOID
  | GI_TYPE_TAG_BOOLEAN
  | GI_TYPE_TAG_INT8
  | GI_TYPE_TAG_UINT8
  | GI_TYPE_TAG_INT16
  | GI_TYPE_TAG_UINT16
  | GI_TYPE_TAG_INT32
  | GI_TYPE_TAG_UINT32
  | GI_TYPE_TAG_INT64
  | GI_TYPE_TAG_UINT64
  | GI_TYPE_TAG_FLOAT
  | GI_TYPE_TAG_DOUBLE
  | GI_TYPE_TAG_GTYPE
  | GI_TYPE_TAG_UTF8
  | GI_TYPE_TAG_FILENAME
  | GI_TYPE_TAG_ARRAY
  | GI_TYPE_TAG_INTERFACE
  | GI_TYPE_TAG_GLIST
  | GI_TYPE_TAG_GSLIST
  | GI_TYPE_TAG_GHASH
  | GI_TYPE_TAG_ERROR
  | GI_TYPE_TAG_UNICHAR
  deriving DecidableEq, Repr

export GITypeTag (GI_TYPE_TAG_VOID GI_TYPE_TAG_BOOLEAN GI_TYPE_TAG_INT8 GI_TYPE_TAG_UINT8
  GI_TYPE_TAG_INT16 GI_TYPE_TAG_UINT16 GI_TYPE_TAG_INT32 GI_TYPE_TAG_UINT32 GI_TYPE_TAG_INT64
  GI_TYPE_TAG_UINT64 GI_TYPE_TAG_FLOAT GI_TYPE_TAG_DOUBLE GI_TYPE_TAG_GTYPE GI_TYPE_TAG_UTF8
  GI_TYPE_TAG_FILENAME GI_TYPE_TAG_ARRAY GI_TYPE_TAG_INTERFACE GI_TYPE_TAG_GLIST
  GI_TYPE_TAG_GSLIST GI_TYPE_TAG_GHASH GI_TYPE_TAG_ERROR GI_TYPE_TAG_UNICHAR)

/-- GObject Introspection's `GIInfoType`, the kind of a base info record. -/
inductive GIInfoType where
  | GI_INFO_TYPE_INVALID
  | GI_INFO_TYPE_FUNCTION
  | GI_INFO_TYPE_CALLBACK
  | GI_INFO_TYPE_STRUCT
  | GI_INFO_TYPE_BOXED
  | GI_INFO_TYPE_ENUM
  | GI_INFO_TYPE_FLAGS
  | GI_INFO_TYPE_OBJECT
  | GI_INFO_TYPE_INTERFACE
  | GI_INFO_TYPE_CONSTANT
  | GI_INFO_TYPE_UNION
  | GI_INFO_TYPE_VALUE
  | GI_INFO_TYPE_SIGNAL
  | GI_INFO_TYPE_VFUNC
  | GI_INFO_TYPE_PROPERTY
  | GI_INFO_TYPE_FIELD
  | GI_INFO_TYPE_ARG
  | GI_INFO_TYPE_TYPE
  | GI_INFO_TYPE_UNRESOLVED
  deriving DecidableEq, Repr

export GIInfoType (GI_INFO_TYPE_INVALID GI_INFO_TYPE_FUNCTION GI_INFO_TYPE_CALLBACK
  GI_INFO_TYPE_STRUCT GI_INFO_TYPE_BOXED GI_INFO_TYPE_ENUM GI_INFO_TYPE_FLAGS
  GI_INFO_TYPE_OBJECT GI_INFO_TYPE_INTERFACE GI_INFO_TYPE_CONSTANT GI_INFO_TYPE_UNION
  GI_INFO_TYPE_VALUE GI_INFO_TYPE_SIGNAL GI_INFO_TYPE_VFUNC GI_INFO_TYPE_PROPERTY
  GI_INFO_TYPE_FIELD GI_INFO_TYPE_ARG GI_INFO_TYPE_TYPE GI_INFO_TYPE_UNRESOLVED)

/-- What the bridge reads from a `GITypeInfo`: `g_type_info_get_tag`,
`g_type_info_is_pointer`, and `g_base_info_get_type` of `g_type_info_get_interface`. -/
structure GITypeInfo where
  tag : GITypeTag
  is_pointer : Bool
  interface_info_type : GIInfoType
  deriving DecidableEq, Repr

/-- What the bridge reads from a `GIArgInfo`: `g_arg_info_get_type`. -/
structure GIArgInfo where
  type_info : GITypeInfo
  deriving DecidableEq, Repr

/-- What the bridge reads from a `GICallbackInfo`: `g_base_info_get_type`, the
arguments, `g_callable_info_get_return_type`, `g_callable_info_get_caller_owns` (a
`GITransfer`), `g_callable_info_may_return_null` and `g_callable_info_skip_return`. -/
structure GICallbackInfo where
  info_type : GIInfoType
  args : List GIArgInfo
  return_type : GITypeInfo
  caller_owns : Nat
  may_return_null : Bool
  skip_return : Bool
  deriving DecidableEq, Repr

/-- The type descriptors of libffi that the bridge uses; `other` is any further
descriptor. -/
inductive ffi_type where
  | ffi_type_void
  | ffi_type_pointer
  | ffi_type_sint8
  | ffi_type_uint8
  | ffi_type_sint16
  | ffi_type_uint16
  | ffi_type_sint32
  | ffi_type_uint32
  | ffi_type_sint64
  | ffi_type_uint64
  | ffi_type_float
  | ffi_type_double
  | other (id : Nat)
  deriving DecidableEq, Repr

export ffi_type (ffi_type_void ffi_type_pointer ffi_type_sint8 ffi_type_uint8 ffi_type_sint16
  ffi_type_uint16 ffi_type_sint32 ffi_type_uint32 ffi_type_sint64 ffi_type_uint64
  ffi_type_float ffi_type_double)

/-- `ffi_type_sint`: libffi defines it as `ffi_type_sint32` where `int` has 32 bits. -/
def ffi_type_sint : ffi_type := ffi_type_sint32

/-- `ffi_type_uint`: libffi defines it as `ffi_type_uint32` where `int` has 32 bits. -/
def ffi_type_uint : ffi_type := ffi_type_uint32

def type_info_to_ffi_type (D : DataModel) (type_info : GITypeInfo) : Except Throw ffi_type :=
  let type_tag := type_info.tag
  let is_ptr := type_info.is_pointer
  if is_ptr then .ok ffi_type_pointer
  else
    match type_tag with
    | GI_TYPE_TAG_VOID => .ok ffi_type_void
    | GI_TYPE_TAG_BOOLEAN => .ok ffi_type_sint
    | GI_TYPE_TAG_INT8 => .ok ffi_type_sint8
    | GI_TYPE_TAG_UINT8 => .ok ffi_type_uint8
    | GI_TYPE_TAG_INT16 => .ok ffi_type_sint16
    | GI_TYPE_TAG_UINT16 => .ok ffi_type_uint16
    | GI_TYPE_TAG_INT32 => .ok ffi_type_sint32
    | GI_TYPE_TAG_UINT32 => .ok ffi_type_uint32
    | GI_TYPE_TAG_INT64 => .ok ffi_type_sint64
    | GI_TYPE_TAG_UINT64 => .ok ffi_type_uint64
    | GI_TYPE_TAG_FLOAT => .ok ffi_type_float
    | GI_TYPE_TAG_DOUBLE => .ok ffi_type_double
    | GI_TYPE_TAG_GTYPE =>
      if POINTER_BITS D = 32 then .ok ffi_type_sint32 else .ok ffi_type_sint64
    | GI_TYPE_TAG_UTF8 => .error .abort
    | GI_TYPE_TAG_FILENAME => .error .abort
    | GI_TYPE_TAG_ARRAY => .error .abort
    | GI_TYPE_TAG_INTERFACE =>
      if type_info.interface_info_type = GI_INFO_TYPE_ENUM then .ok ffi_type_sint
      else if type_info.interface_info_type = GI_INFO_TYPE_FLAGS then .ok ffi_type_uint
      else .error .abort
    | GI_TYPE_TAG_GLIST => .error .abort
    | GI_TYPE_TAG_GSLIST => .error .abort
    | GI_TYPE_TAG_GHASH => .error .abort
    | GI_TYPE_TAG_ERROR => .error .abort
    | GI_TYPE_TAG_UNICHAR => .ok ffi_type_uint32

/-- libffi's call interface descriptor `ffi_cif`, as far as the bridge reads it. -/
structure ffi_cif where
  nargs : Nat
  arg_types : List ffi_type
  rtype : ffi_type
  deriving DecidableEq, Repr

/-- The Callback Record `GirCallback` (the copies of its pointers that are kept for
debugging are left out). -/
structure GirCallback where
  callback_info : GICallbackInfo
  closure : Ptr
  cif : ffi_cif
  s_func : SCM
  callback_ptr : Ptr
  deriving Repr

/-- What libffi answers during one `gir_callback_new`: the closure and the executable
address that `ffi_closure_alloc` gives (null when it fails), and the status of
`ffi_prep_cif` and of `ffi_prep_closure_loc` (`FFI_OK` is 0). -/
structure FfiAnswers where
  closure : Ptr
  callback_ptr : Ptr
  prep_cif_status : Nat
  prep_closure_status : Nat
  deriving DecidableEq, Repr

/-- `scm_is_eq` on two host values of which one is a procedure: procedures are
compared by identity. -/
def scm_is_eq_procedure : SCM → SCM → Bool
  | .procedure a, .procedure b => decide (a = b)
  | _, _ => false

/-- The loop of `gir_callback_new` over the arguments of the callback. -/
def callback_arg_types (D : DataModel) : List GIArgInfo → Except Throw (List ffi_type)
  | [] => .ok []
  | a :: rest => do
    let t ← type_info_to_ffi_type D a.type_info
    let ts ← callback_arg_types D rest
    pure (t :: ts)

/-- `gir_callback_new`; `none` is its `NULL` result. -/
def gir_callback_new (D : DataModel) (ffi : FfiAnswers) (callback_info : GICallbackInfo)
    (s_func : SCM) : Except Throw (Option GirCallback) :=
  if ffi.closure.is_null then .ok none
  else if ffi.callback_ptr.is_null then .ok none
  else do
    let ffi_args ← callback_arg_types D callback_info.args
    let ffi_ret_type ← type_info_to_ffi_type D callback_info.return_type
    if ffi.prep_cif_status ≠ 0 then
      throw (Throw.misc_error "closure call interface preparation error #~A")
    else if ffi.prep_closure_status ≠ 0 then
      throw (Throw.misc_error "closure location preparation error #~A")
    else
      pure (some { callback_info := callback_info, closure := ffi.closure,
                   cif := { nargs := callback_info.args.length, arg_types := ffi_args,
                            rtype := ffi_ret_type },
                   s_func := s_func, callback_ptr := ffi.callback_ptr })

/-- The lookup loop of `gir_callback_get_ptr`: the first record with the same procedure
and the same info type as `cb_info`. -/
def callback_list_lookup (cb_info : GICallbackInfo) (s_func : SCM) :
    List GirCallback → Option GirCallback
  | [] => none
  | gcb :: x =>
    if scm_is_eq_procedure gcb.s_func s_func then
      if cb_info.info_type = gcb.callback_info.info_type then some gcb
      else callback_list_lookup cb_info s_func x
    else callback_list_lookup cb_info s_func x

/-- `gir_callback_get_ptr` on the cache `callback_list`: its outcome and the cache after
it.  A `NULL` from `gir_callback_new` is prepended and then dereferenced, which stops
the process. -/
def gir_callback_get_ptr (D : DataModel) (ffi : FfiAnswers) (cb_info : GICallbackInfo)
    (s_func : SCM) (callback_list : List GirCallback) : Except Throw Ptr × List GirCallback :=
  if scm_procedure_p s_func = false then (.error .abort, callback_list)
  else
    match callback_list_lookup cb_info s_func callback_list with
    | some gcb => (.ok gcb.callback_ptr, callback_list)
    | none =>
      match gir_callback_new D ffi cb_info s_func with
      | .error t => (.error t, callback_list)
      | .ok none => (.error .abort, callback_list)
      | .ok (some gcb) => (.ok gcb.callback_ptr, gcb :: callback_list)

/-- The lookup loop of `gir_callback_get_ptr` in `gi/gir_callback.c`, which tests the
procedure and the info type in one condition. -/
def gi.callback_list_lookup (callback_info : GICallbackInfo) (s_func : SCM) :
    List GirCallback → Option GirCallback
  | [] => none
  | gcb :: x =>
    if scm_is_eq_procedure gcb.s_func s_func
        && decide (callback_info.info_type = gcb.callback_info.info_type) then some gcb
    else gi.callback_list_lookup callback_info s_func x

/-- `gir_callback_get_ptr` of `gi/gir_callback.c`. -/
def gi.gir_callback_get_ptr (D : DataModel) (ffi : FfiAnswers) (callback_info : GICallbackInfo)
    (s_func : SCM) (callback_list : List GirCallback) : Except Throw Ptr × List GirCallback :=
  if scm_procedure_p s_func = false then (.error .abort, callback_list)
  else
    match gi.callback_list_lookup callback_info s_func callback_list with
    | some gcb => (.ok gcb.callback_ptr, callback_list)
    | none =>
      match gir_callback_new D ffi callback_info s_func with
      | .error t => (.error t, callback_list)
      | .ok none => (.error .abort, callback_list)
      | .ok (some gcb) => (.ok gcb.callback_ptr, gcb :: callback_list)

/-- `scm_is_registered_callback_p`, the host procedure `is-registered-callback?`. -/
def scm_is_registered_callback_p (s_proc : SCM) (callback_list : List GirCallback) :
    Except Throw SCM :=
  if scm_procedure_p s_proc = false then .error (.wrong_type_arg 0)
  else if callback_list.any (fun gcb => scm_is_eq_procedure gcb.s_func s_proc) then .ok SCM_BOOL_T
  else .ok SCM_BOOL_F

/-- `scm_get_registered_callback_closure_pointer`, the host procedure
`get-registered-callback-closure-pointer`. -/
def scm_get_registered_callback_closure_pointer (s_proc : SCM)
    (callback_list : List GirCallback) : Except Throw SCM :=
  if scm_procedure_p s_proc = false then .error (.wrong_type_arg 0)
  else
    match callback_list.find? (fun gcb => scm_is_eq_procedure gcb.s_func s_proc) with
    | some gcb => .ok (SCM.pointer gcb.callback_ptr)
    | none => .ok SCM_BOOL_F

/-- One raw ABI argument slot of a reverse call: the storage that `ffi_args[i]` points
to, with its address and the bytes stored in it. -/
structure AbiSlot where
  address : Nat
  contents : List Nat
  deriving DecidableEq, Repr

/-- Modelled from the spec: the collaborators of the reverse trampoline that are not
among the sources, taken as parameters.  `gi_giargument_convert_arg_to_object` (the
C→host marshaller of a callback argument: the host value it stores) and
`gi_giargument_convert_return_type_object_to_arg` (the host→C marshaller of the return
value: the `GIArgument` it fills) belong to `gi_giargument.c`; `scm_apply_0` is the
application of a host procedure, which returns a value or raises a condition;
`ieee_float` and `ieee_double` give the number that a bit pattern denotes and
`double_to_float` is the C conversion from `double` to `float`. -/
structure ReverseEnv where
  model : DataModel
  gi_giargument_convert_arg_to_object : GIArgument → GIArgInfo → Except Throw SCM
  gi_giargument_convert_return_type_object_to_arg :
    SCM → GITypeInfo → Nat → Bool → Bool → Except Throw GIArgument
  scm_apply_0 : SCM → List SCM → Except Throw SCM
  ieee_float : Nat → Rat
  ieee_double : Nat → Rat
  double_to_float : Rat → Rat

/-- The C cast of the pointer with the given address to an integer type of `bits` bits:
the bits of the address, cut to the width (a narrower pointer is sign-extended
first). -/
def pointer_to_integer (D : DataModel) (bits : Nat) (signed : Bool) (address : Nat) : Int :=
  let p := wrap_signed (POINTER_BITS D) address
  if signed then wrap_signed bits p else wrap_unsigned bits p

/-- The `if` chain at the head of the loop of `callback_binding`: the `GIArgument` made
for an argument of FFI type `t` whose raw slot is `slot`, that is, from the pointer
`ffi_args[i]`. -/
def callback_binding_giarg (R : ReverseEnv) (t : ffi_type) (slot : AbiSlot) :
    Except Throw GIArgument :=
  if t = ffi_type_pointer then .ok (.pointer (Ptr.addr slot.address))
  else if t = ffi_type_void then .ok (.pointer (Ptr.addr slot.address))
  else if t = ffi_type_sint then .ok (.int (pointer_to_integer R.model 32 true slot.address))
  else if t = ffi_type_sint8 then .ok (.int (pointer_to_integer R.model 8 true slot.address))
  else if t = ffi_type_uint8 then .ok (.int (pointer_to_integer R.model 8 false slot.address))
  else if t = ffi_type_sint16 then .ok (.int (pointer_to_integer R.model 16 true slot.address))
  else if t = ffi_type_uint16 then .ok (.int (pointer_to_integer R.model 16 false slot.address))
  else if t = ffi_type_sint32 then .ok (.int (pointer_to_integer R.model 32 true slot.address))
  else if t = ffi_type_uint32 then .ok (.int (pointer_to_integer R.model 32 false slot.address))
  else if t = ffi_type_sint64 then .ok (.int (pointer_to_integer R.model 64 true slot.address))
  else if t = ffi_type_uint64 then .ok (.int (pointer_to_integer R.model 64 false slot.address))
  else if t = ffi_type_float then
    if slot.contents.length < 4 then .error .abort
    else .ok (.real (R.ieee_float (le_value (slot.contents.take 4))))
  else if t = ffi_type_double then
    if slot.contents.length < 8 then .error .abort
    else .ok (.real (R.double_to_float (R.ieee_double (le_value (slot.contents.take 8)))))
  else .ok (.pointer (Ptr.addr slot.address))

/-- The loop of `callback_binding` over the arguments `i`, `i + 1`, ...: the host
values appended to `s_args`. -/
def callback_binding_args (R : ReverseEnv) (cif : ffi_cif) (ffi_args : List AbiSlot)
    (gcb : GirCallback) : List Nat → Except Throw (List SCM)
  | [] => .ok []
  | i :: rest => do
    let t ← (match cif.arg_types.get? i with
      | some t => pure t
      | none => throw Throw.abort : Except Throw ffi_type)
    let slot ← (match ffi_args.get? i with
      | some s => pure s
      | none => throw Throw.abort : Except Throw AbiSlot)
    let giarg ← callback_binding_giarg R t slot
    let arg_info ← (match gcb.callback_info.args.get? i with
      | some a => pure a
      | none => throw Throw.abort : Except Throw GIArgInfo)
    let s_entry ← R.gi_giargument_convert_arg_to_object giarg arg_info
    let s_rest ← callback_binding_args R cif ffi_args gcb rest
    pure (s_entry :: s_rest)

/-- What a reverse call leaves behind when it returns to its C caller: the value
stored into `*(ffi_arg *) ret`, whether the handler of `scm_c_catch` ran (and logged
its message), and whether the return value went through the host→C marshaller. -/
structure ReverseResult where
  ret : Int
  handler_ran : Bool
  return_marshalled : Bool
  deriving DecidableEq, Repr

/-- `scm_c_catch (SCM_BOOL_T, scm_call_proc, ..., scm_handler_proc, ...)`: the
application of the procedure, where every condition it raises is caught and replaced
by the `#f` of the handler.  The result says whether the handler ran. -/
def scm_c_catch_call (R : ReverseEnv) (s_func : SCM) (s_args : List SCM) :
    Except Throw (SCM × Bool) :=
  match R.scm_apply_0 s_func s_args with
  | .ok v => .ok (v, false)
  | .error .abort => .error .abort
  | .error _ => .ok (SCM_BOOL_F, true)

/-- `callback_binding` of `gir_callback.c`, the reverse trampoline.  An outcome
`error` is a condition that leaves the trampoline towards its C caller, or the stop of
the process. -/
def callback_binding (R : ReverseEnv) (cif : ffi_cif) (ffi_args : List AbiSlot)
    (gcb : GirCallback) : Except Throw ReverseResult := do
  let s_args ← callback_binding_args R cif ffi_args gcb (List.range cif.nargs)
  let r ← scm_c_catch_call R gcb.s_func s_args
  if scm_is_false r.1 then
    pure { ret := 0, handler_ran := r.2, return_marshalled := false }
  else do
    let giarg ← R.gi_giargument_convert_return_type_object_to_arg r.1
      gcb.callback_info.return_type gcb.callback_info.caller_owns
      gcb.callback_info.may_return_null gcb.callback_info.skip_return
    let v ← giarg.v_integer 64 false
    pure { ret := wrap_unsigned (POINTER_BITS R.model) v, handler_ran := r.2,
           return_marshalled := true }

/-- `callback_binding` of `gi/gir_callback.c`: the procedure is applied with
`scm_apply_0` directly, and the return value always goes through the marshaller. -/
def gi.callback_binding (R : ReverseEnv) (cif : ffi_cif) (ffi_args : List AbiSlot)
    (gcb : GirCallback) : Except Throw ReverseResult := do
  let s_args ← callback_binding_args R cif ffi_args gcb (List.range cif.nargs)
  let s_ret ← R.scm_apply_0 gcb.s_func s_args
  let giarg ← R.gi_giargument_convert_return_type_object_to_arg s_ret
    gcb.callback_info.return_type gcb.callback_info.caller_owns
    gcb.callback_info.may_return_null gcb.callback_info.skip_return
  let v ← giarg.v_integer 64 false
  pure { ret := wrap_unsigned (POINTER_BITS R.model) v, handler_ran := false,
         return_marshalled := true }

/-! ## Sample callbacks -/

/-- The type info of a 32-bit integer passed by value. -/
def int32_type_info : GITypeInfo :=
  { tag := GI_TYPE_TAG_INT32, is_pointer := false, interface_info_type := GI_INFO_TYPE_INVALID }

/-- The callback type `gint32 (*) (gint32)`. -/
def int_callback_info : GICallbackInfo :=
  { info_type := GI_INFO_TYPE_CALLBACK, args := [{ type_info := int32_type_info }],
    return_type := int32_type_info, caller_owns := 0, may_return_null := false,
    skip_return := false }

/-- Answers of libffi for a successful preparation of a closure at the given
addresses. -/
def ffi_answers (closure callback_ptr : Nat) : FfiAnswers :=
  { closure := Ptr.addr closure, callback_ptr := Ptr.addr callback_ptr, prep_cif_status := 0,
    prep_closure_status := 0 }

/-- A host runtime for concrete reverse calls on an LP64 target.  The marshallers take
integers, pointers and floating-point numbers to the host value of the same content and
back.  The host procedure 1 returns its integer argument plus one, the host procedure
2 raises a misc-error, every other procedure returns the unspecified value. -/
def sample_reverse_env : ReverseEnv :=
  { model := .LP64
    gi_giargument_convert_arg_to_object := fun giarg _ =>
      match giarg with
      | .int v => .ok (SCM.int v)
      | .pointer p => .ok (SCM.pointer p)
      | .real q => .ok (SCM.real q)
      | _ => .error .abort
    gi_giargument_convert_return_type_object_to_arg := fun x _ _ _ _ =>
      match x with
      | .int v => .ok (GIArgument.int v)
      | .pointer p => .ok (GIArgument.pointer p)
      | _ => .ok (GIArgument.int 0)
    scm_apply_0 := fun f args =>
      match f, args with
      | .procedure 1, [SCM.int v] => .ok (SCM.int (v + 1))
      | .procedure 2, _ => .error (Throw.misc_error "boom")
      | _, _ => .ok SCM_UNSPECIFIED
    ieee_float := fun _ => 0
    ieee_double := fun _ => 0
    double_to_float := fun q => q }

/-- The Callback Record of the host procedure `id` for `int_callback_info`. -/
def int_callback_record (id : Nat) : GirCallback :=
  { callback_info := int_callback_info, closure := Ptr.addr 4096,
    cif := { nargs := 1, arg_types := [ffi_type_sint32], rtype := ffi_type_sint32 },
    s_func := SCM.procedure id, callback_ptr := Ptr.addr 8192 }

/-- A raw argument slot at the address `0x7ffc1000` that holds the 32-bit integer
41. -/
def slot_41 : AbiSlot := { address := 0x7ffc1000, contents := [41, 0, 0, 0] }

/-- A raw argument slot at the address `0x7ffc1000` that holds the pointer
`0x5000`. -/
def slot_pointer : AbiSlot := { address := 0x7ffc1000, contents := [0, 0x50, 0, 0, 0, 0, 0, 0] }

/-! ## The leaf value of a reverse call, in words -/

/-- The width in bits and the signedness of an integer FFI type. -/
def ffi_integer_format : ffi_type → Option (Nat × Bool)
  | ffi_type_sint8 => some (8, true)
  | ffi_type_uint8 => some (8, false)
  | ffi_type_sint16 => some (16, true)
  | ffi_type_uint16 => some (16, false)
  | ffi_type_sint32 => some (32, true)
  | ffi_type_uint32 => some (32, false)
  | ffi_type_sint64 => some (64, true)
  | ffi_type_uint64 => some (64, false)
  | _ => none

/-- The leaf value of an argument as the description words it: the contents of the raw
slot, read as an integer of the width and signedness of the FFI type, or as a pointer
for the pointer type. -/
def abi_slot_value (D : DataModel) (t : ffi_type) (slot : AbiSlot) : Option GIArgument :=
  if t = ffi_type_pointer then
    some (.pointer (Ptr.addr (le_value (slot.contents.take (POINTER_BITS D / 8)))))
  else
    match ffi_integer_format t with
    | some (bits, signed) =>
      let v : Int := le_value (slot.contents.take (bits / 8))
      some (.int (if signed then wrap_signed bits v else wrap_unsigned bits v))
    | none => none

/-- The integer FFI types. -/
def integer_ffi_types : List ffi_type :=
  [ffi_type_sint8, ffi_type_uint8, ffi_type_sint16, ffi_type_uint16, ffi_type_sint32,
    ffi_type_uint32, ffi_type_sint64, ffi_type_uint64]

/-! ## Histories of the callback cache -/

/-- One call `gir_callback_get_ptr (cb_info, s_func)` of a history, with what libffi
answers if the call builds a record. -/
structure CallbackRequest where
  cb_info : GICallbackInfo
  s_func : SCM
  ffi : FfiAnswers
  deriving Repr

/-- The trace of a call `gir_callback_get_ptr (_, s_func)` that returned: the pointer
it returned, and whether it created a record. -/
structure CallbackReturn where
  s_func : SCM
  callback_ptr : Ptr
  created : Bool
  deriving Repr

/-- The cache and the returns after a history of calls of `gir_callback_get_ptr`, which
is the only operation that writes `callback_list`.  A call that leaves with a Scheme
error changes nothing; the history ends with a call that stops the process. -/
def run_requests (D : DataModel) :
    List CallbackRequest → List GirCallback × List CallbackReturn →
      List GirCallback × List CallbackReturn
  | [], st => st
  | r :: rest, (cache, log) =>
    match gir_callback_get_ptr D r.ffi r.cb_info r.s_func cache with
    | (.ok p, cache1) =>
      run_requests D rest (cache1,
        { s_func := r.s_func, callback_ptr := p,
          created := (callback_list_lookup r.cb_info r.s_func cache).isNone } :: log)
    | (.error .abort, _) => (cache, log)
    | (.error _, cache1) => run_requests D rest (cache1, log)

/-! ## The host procedure of a callable: `gig_function_define1` -/

def g_ascii_islower (c : Char) : Bool := decide (97 ≤ c.toNat ∧ c.toNat ≤ 122)

def g_ascii_isupper (c : Char) : Bool := decide (65 ≤ c.toNat ∧ c.toNat ≤ 90)

def g_ascii_isdigit (c : Char) : Bool := decide (48 ≤ c.toNat ∧ c.toNat ≤ 57)

def g_ascii_tolower (c : Char) : Char := if g_ascii_isupper c then Char.ofNat (c.toNat + 32) else c

/-- The `for` loop of `gname_to_scm_name` over the characters that are left, with the
current value of `was_lower`. -/
def gname_to_scm_name_loop : Bool → List Char → List Char
  | _, [] => []
  | was_lower, c :: rest =>
    if g_ascii_islower c then c :: gname_to_scm_name_loop true rest
    else if c = '_' ∨ c = '-' then '-' :: gname_to_scm_name_loop false rest
    else if g_ascii_isdigit c then c :: gname_to_scm_name_loop false rest
    else if g_ascii_isupper c then
      if was_lower then '-' :: g_ascii_tolower c :: gname_to_scm_name_loop false rest
      else g_ascii_tolower c :: gname_to_scm_name_loop false rest
    else gname_to_scm_name_loop was_lower rest

/-- `gname_to_scm_name` on the characters of the C string `gname`. -/
def gname_to_scm_name (gname : List Char) : List Char := gname_to_scm_name_loop false gname

/-! ## Messages of errors: `store_gerror_message` -/

/-- `MAX_GERROR_MSG`. -/
def MAX_GERROR_MSG : Nat := 100

/-- `store_gerror_message`: the contents of the buffer `gerror_msg` after the call, for
a message whose C string has the bytes `msg`. -/
def store_gerror_message (msg : List Nat) : List Nat :=
  let copied := msg.take (MAX_GERROR_MSG - 1)
  let gerror_msg := copied ++ List.replicate (MAX_GERROR_MSG - copied.length) 0
  if msg.length ≥ MAX_GERROR_MSG - 1 then
    ((gerror_msg.set (MAX_GERROR_MSG - 2) 46).set (MAX_GERROR_MSG - 3) 46).set
      (MAX_GERROR_MSG - 4) 46
  else gerror_msg

/-! ## Sample callbacks with a string argument -/

/-- The type info of a UTF-8 string; `is_pointer` says whether the typelib marks the
type as passed by pointer. -/
def utf8_type_info (is_pointer : Bool) : GITypeInfo :=
  { tag := GI_TYPE_TAG_UTF8, is_pointer := is_pointer,
    interface_info_type := GI_INFO_TYPE_INVALID }

/-- The callback type `gint32 (*) (utf8)`. -/
def string_callback_info (is_pointer : Bool) : GICallbackInfo :=
  { info_type := GI_INFO_TYPE_CALLBACK, args := [{ type_info := utf8_type_info is_pointer }],
    return_type := int32_type_info, caller_owns := 0, may_return_null := false,
    skip_return := false }

/-- The type tags for which `type_info_to_ffi_type` has no descriptor. -/
def tags_without_ffi_type : List GITypeTag :=
  [GI_TYPE_TAG_UTF8, GI_TYPE_TAG_FILENAME, GI_TYPE_TAG_ARRAY, GI_TYPE_TAG_GLIST,
   GI_TYPE_TAG_GSLIST, GI_TYPE_TAG_GHASH, GI_TYPE_TAG_ERROR]

/-! ## Sample callables for the error paths of a forward call -/

/-- The `for` loop of the `default` case for `ptr` at the address `ptr`: the value it
leaves in `non_null`.  It compares the addresses `ptr + i`, for `i` from 0 to
`item_size`, with 0. -/
def default_case_non_null (D : DataModel) (item_size ptr : Nat) : Bool :=
  (List.range (item_size + 1)).any (fun i => decide ((ptr + i) % 2 ^ POINTER_BITS D ≠ 0))

/-- The `do ... while (non_null)` loop of the `default` case: `ptr` is the address in
`ptr` when a turn starts and `length` the value of `length` after `length++`.  `fuel`
bounds the number of turns; `none` when it runs out. -/
def default_case_loop (D : DataModel) (item_size : Nat) : Nat → Nat → Nat → Option Nat
  | 0, _, _ => none
  | fuel + 1, ptr, length =>
    if default_case_non_null D item_size ptr then
      default_case_loop D item_size fuel ((ptr + item_size) % 2 ^ POINTER_BITS D) (length + 1)
    else some length

/-- A C array slot of the given flavour whose elements are structures of `item_size`
bytes. -/
def struct_array_meta (flavour : GType) (item_size : Nat) : GigTypeMeta :=
  { leaf_meta flavour with
    is_ptr := true, item_size := item_size,
    params := [{ leaf_meta (GType.boxed_class 1) with item_size := item_size }] }

/-! ## The host name of a C name, in words -/

/-- Whether a character may stand in a C-style name as `gname_to_scm_name` receives
it: a letter, a digit, an underscore or a hyphen. -/
def is_gname_char (c : Char) : Bool :=
  g_ascii_islower c || g_ascii_isupper c || g_ascii_isdigit c || decide (c = '_')
    || decide (c = '-')

/-- The host name as the specification describes it, character by character:
lowercase letters and digits are kept, `_` and `-` become `-`, and an uppercase letter
becomes its lowercase form, preceded by `-` exactly when the immediately preceding
input character was a lowercase letter.  `previous` is the preceding input character,
if there is one. -/
def described_scm_name : Option Char → List Char → List Char
  | _, [] => []
  | previous, c :: rest =>
    (if g_ascii_islower c ∨ g_ascii_isdigit c then [c]
     else if c = '_' ∨ c = '-' then ['-']
     else if g_ascii_isupper c then
       if previous.any g_ascii_islower then ['-', g_ascii_tolower c] else [g_ascii_tolower c]
     else []) ++ described_scm_name (some c) rest

/-! # Theorems -/

/-! ## Integer slots -/

/-- Host to C for an exact integer and a slot of an integer kind: the range of the kind
decides between `ok`, with the slot holding the integer, and `out-of-range`, with the
slot untouched. -/
theorem int_kind_marshal (E : Env) (meta : GigTypeMeta) (v : Int)
    (hk : meta.gtype ∈ integer_kinds) :
    gig_scm_to_value_full E (SCM.int v) meta (g_value_init meta.gtype) =
      if kind_min E.model meta.gtype ≤ v ∧ v ≤ kind_max E.model meta.gtype then
        .ok (GIG_VALUE_OK, { g_type := meta.gtype, data := .int v })
      else .ok (GIG_VALUE_OUT_OF_RANGE, g_value_init meta.gtype) := by
  simp only [integer_kinds, List.mem_cons, List.mem_singleton, List.not_mem_nil, or_false] at hk
  rcases hk with h | h | h | h | h | h | h | h | h | h | h | h <;>
    simp [h, gig_scm_to_value_full, G_TYPE_FUNDAMENTAL, scm_char_to_value, scm_integer_to_value,
      scm_is_integer, SCM_CHARP, scm_is_signed_integer, scm_is_unsigned_integer, kind_min, kind_max,
      g_value_init, zero_data, scm_to_int8, scm_to_uint8, scm_to_int, scm_to_uint, scm_to_long,
      scm_to_ulong, scm_to_int64, scm_to_uint64, scm_to_integer,
      g_value_set_schar, g_value_set_uchar, g_value_set_int, g_value_set_uint, g_value_set_long,
      g_value_set_ulong, g_value_set_int64, g_value_set_uint64, G_VALUE_HOLDS, g_type_is_a,
      INT_MIN, INT_MAX, UINT_MAX] <;>
    split_ifs <;>
    first
      | rfl
      | (simp only [INT8_MIN, INT8_MAX, UINT8_MAX, INT16_MIN, INT16_MAX, UINT16_MAX, INT32_MIN,
          INT32_MAX, UINT32_MAX, INT64_MIN, INT64_MAX, UINT64_MAX] at *; omega)

/-- The range of every integer kind is not empty. -/
theorem kind_min_le_max (D : DataModel) (k : GType) (hk : k ∈ integer_kinds) :
    kind_min D k ≤ kind_max D k := by
  simp only [integer_kinds, List.mem_cons, List.mem_singleton, List.not_mem_nil, or_false] at hk
  rcases hk with h | h | h | h | h | h | h | h | h | h | h | h <;> subst h <;> cases D <;>
    simp [kind_min, kind_max, INT8_MIN, INT8_MAX, UINT8_MAX, INT16_MIN, INT16_MAX, UINT16_MAX,
      INT32_MIN, INT32_MAX, UINT32_MAX, INT64_MIN, INT64_MAX, UINT64_MAX, INT_MIN, INT_MAX,
      UINT_MAX, LONG_MIN, LONG_MAX, ULONG_MAX, LONG_BITS]

/-- C→host of a slot of an integer kind that holds `v` gives the exact integer `v`. -/
theorem int_kind_unmarshal (E : Env) (meta : GigTypeMeta) (v : Int) (dest : SCM)
    (hk : meta.gtype ∈ integer_kinds) :
    gig_value_to_scm_full E { g_type := meta.gtype, data := .int v } meta dest =
      .ok (GIG_VALUE_OK, SCM.int v) := by
  simp only [integer_kinds, List.mem_cons, List.mem_singleton, List.not_mem_nil, or_false] at hk
  rcases hk with h | h | h | h | h | h | h | h | h | h | h | h <;>
    simp [h, gig_value_to_scm_full, G_TYPE_FUNDAMENTAL, char_value_to_scm, integer_value_to_scm,
      G_VALUE_TYPE, G_VALUE_HOLDS, g_type_is_a, g_value_get_schar, g_value_get_uchar,
      g_value_get_int, g_value_get_uint, g_value_get_long, g_value_get_ulong, g_value_get_int64,
      g_value_get_uint64, GData.as_int]

/-- C1. For every integer kind `k` and every exact host integer `v`, host→C into a slot
of kind `k` returns out-of-range (and leaves the slot alone) when `v < min(k)` or
`v > max(k)`, and returns ok with the slot holding `v` when `min(k) ≤ v ≤ max(k)`; in
particular it returns ok at `min(k)` and `max(k)` and out-of-range at `min(k) - 1` and
`max(k) + 1`. -/
theorem C1_integer_range_check (E : Env) (meta : GigTypeMeta)
    (hk : meta.gtype ∈ integer_kinds) :
    (∀ v : Int, gig_scm_to_value_full E (SCM.int v) meta (g_value_init meta.gtype) =
      if kind_min E.model meta.gtype ≤ v ∧ v ≤ kind_max E.model meta.gtype then
        .ok (GIG_VALUE_OK, { g_type := meta.gtype, data := .int v })
      else .ok (GIG_VALUE_OUT_OF_RANGE, g_value_init meta.gtype)) ∧
    gig_scm_to_value_full E (SCM.int (kind_min E.model meta.gtype)) meta (g_value_init meta.gtype)
      = .ok (GIG_VALUE_OK, { g_type := meta.gtype, data := .int (kind_min E.model meta.gtype) }) ∧
    gig_scm_to_value_full E (SCM.int (kind_max E.model meta.gtype)) meta (g_value_init meta.gtype)
      = .ok (GIG_VALUE_OK, { g_type := meta.gtype, data := .int (kind_max E.model meta.gtype) }) ∧
    gig_scm_to_value_full E (SCM.int (kind_min E.model meta.gtype - 1)) meta
        (g_value_init meta.gtype)
      = .ok (GIG_VALUE_OUT_OF_RANGE, g_value_init meta.gtype) ∧
    gig_scm_to_value_full E (SCM.int (kind_max E.model meta.gtype + 1)) meta
        (g_value_init meta.gtype)
      = .ok (GIG_VALUE_OUT_OF_RANGE, g_value_init meta.gtype) := by
  have hle := kind_min_le_max E.model meta.gtype hk
  refine ⟨fun v => int_kind_marshal E meta v hk, ?_, ?_, ?_, ?_⟩
  · rw [int_kind_marshal E meta _ hk, if_pos ⟨le_refl _, hle⟩]
  · rw [int_kind_marshal E meta _ hk, if_pos ⟨hle, le_refl _⟩]
  · rw [int_kind_marshal E meta _ hk, if_neg (by omega)]
  · rw [int_kind_marshal E meta _ hk, if_neg (by omega)]

/-- C1, at a concrete input: 32767 fits an `int16` slot. -/
theorem C1_integer_range_check_witness :
    gig_scm_to_value_full sample_env (SCM.int 32767) (leaf_meta G_TYPE_INT16)
        (g_value_init G_TYPE_INT16)
      = .ok (GIG_VALUE_OK, { g_type := G_TYPE_INT16, data := .int 32767 }) :=
  (C1_integer_range_check sample_env (leaf_meta G_TYPE_INT16) (by decide)).2.2.1

/-- C2. For every leaf integer kind `k` and every exact integer `v` with
`min(k) ≤ v ≤ max(k)`, host→C of `v` into a slot of kind `k` returns ok, and C→host of
the resulting slot returns ok with a host value equal to `v`. -/
theorem C2_integer_round_trip (E : Env) (meta : GigTypeMeta) (v : Int) (dest : SCM)
    (hk : meta.gtype ∈ integer_kinds)
    (hv : kind_min E.model meta.gtype ≤ v ∧ v ≤ kind_max E.model meta.gtype) :
    ∃ slot : GValue,
      gig_scm_to_value_full E (SCM.int v) meta (g_value_init meta.gtype) = .ok (GIG_VALUE_OK, slot) ∧
      gig_value_to_scm_full E slot meta dest = .ok (GIG_VALUE_OK, SCM.int v) := by
  refine ⟨{ g_type := meta.gtype, data := .int v }, ?_, int_kind_unmarshal E meta v dest hk⟩
  rw [int_kind_marshal E meta v hk, if_pos hv]

/-- C2, at a concrete input: -5 through a `long` slot. -/
theorem C2_integer_round_trip_witness :
    ∃ slot : GValue,
      gig_scm_to_value_full sample_env (SCM.int (-5)) (leaf_meta G_TYPE_LONG)
        (g_value_init G_TYPE_LONG) = .ok (GIG_VALUE_OK, slot) ∧
      gig_value_to_scm_full sample_env slot (leaf_meta G_TYPE_LONG) SCM.undefined
        = .ok (GIG_VALUE_OK, SCM.int (-5)) :=
  C2_integer_round_trip sample_env (leaf_meta G_TYPE_LONG) (-5) SCM.undefined (by decide)
    (by decide)

/-! ## Booleans, characters, null pointers -/

/-- C6. For every host value `x`, `scm_boolean_to_value` returns ok if and only if `x`
is the literal true or the literal false, it returns wrong-type (and leaves the slot
alone) for every other value, and on a boolean slot it stores true exactly when `x` is
the literal true. -/
theorem C6_boolean_literals_only (x : SCM) (meta : GigTypeMeta) (dest : GValue) :
    ((∃ d, scm_boolean_to_value x meta dest = .ok (GIG_VALUE_OK, d)) ↔
        (x = SCM.bool true ∨ x = SCM.bool false)) ∧
    (scm_boolean_to_value x meta dest = .ok (GIG_VALUE_WRONG_TYPE, dest) ↔
        ¬ (x = SCM.bool true ∨ x = SCM.bool false)) ∧
    (∀ b : Bool, scm_boolean_to_value (SCM.bool b) meta (g_value_init G_TYPE_BOOLEAN) =
        .ok (GIG_VALUE_OK, { g_type := G_TYPE_BOOLEAN, data := .int (if b then 1 else 0) })) ∧
    scm_boolean_to_value (SCM.int 1) meta dest = .ok (GIG_VALUE_WRONG_TYPE, dest) ∧
    scm_boolean_to_value SCM.eol meta dest = .ok (GIG_VALUE_WRONG_TYPE, dest) := by
  refine ⟨?_, ?_, ?_, ?_, ?_⟩
  · cases x with
    | bool b => cases b <;> simp [scm_boolean_to_value, scm_is_eq_bool_t, scm_is_false]
    | _ => simp [scm_boolean_to_value, scm_is_eq_bool_t, scm_is_false]
  · cases x with
    | bool b => cases b <;> simp [scm_boolean_to_value, scm_is_eq_bool_t, scm_is_false]
    | _ => simp [scm_boolean_to_value, scm_is_eq_bool_t, scm_is_false]
  · intro b
    cases b <;>
      simp [scm_boolean_to_value, scm_is_eq_bool_t, scm_is_false, scm_is_true, g_value_init,
        g_value_set_boolean, G_VALUE_HOLDS, g_type_is_a, zero_data, G_TYPE_FUNDAMENTAL]
  · simp [scm_boolean_to_value, scm_is_eq_bool_t, scm_is_false]
  · simp [scm_boolean_to_value, scm_is_eq_bool_t, scm_is_false]

/-- C7 (as stated, refuted). A `char` slot accepts the character of code point 200,
which lies above `max(char) = 127`, and stores -56; an `int32` slot rejects the
character `A`, whose code point 65 lies inside the range of `int32`. -/
theorem C7_counterexample :
    gig_scm_to_value_full sample_env (SCM.char (Char.ofNat 200)) (leaf_meta G_TYPE_CHAR)
        (g_value_init G_TYPE_CHAR)
      = .ok (GIG_VALUE_OK, { g_type := G_TYPE_CHAR, data := .int (-56) }) ∧
    ¬ ((200 : Int) ≤ kind_max sample_env.model G_TYPE_CHAR) ∧
    gig_scm_to_value_full sample_env (SCM.char (Char.ofNat 65)) (leaf_meta G_TYPE_INT32)
        (g_value_init G_TYPE_INT32)
      = .ok (GIG_VALUE_OUT_OF_RANGE, g_value_init G_TYPE_INT32) ∧
    (kind_min sample_env.model G_TYPE_INT32 ≤ 65 ∧
      (65 : Int) ≤ kind_max sample_env.model G_TYPE_INT32) := by
  refine ⟨?_, by decide, ?_, by decide⟩
  · rfl
  · rfl

/-- C7 (amended). For a host character literal `c`: a `char` or `uchar` slot returns ok
if and only if the code point is at most 255, and then holds the code point as the
8-bit value of the slot (for `char`, code points 128 to 255 read as the code point
minus 256); every integer kind wider than a byte returns out-of-range; a `unichar`
slot returns ok and holds the code point. -/
theorem C7_character_literals (E : Env) (meta : GigTypeMeta) (c : Char) :
    (meta.gtype = G_TYPE_CHAR →
      gig_scm_to_value_full E (SCM.char c) meta (g_value_init G_TYPE_CHAR) =
        if c.toNat ≤ 255 then
          .ok (GIG_VALUE_OK, { g_type := G_TYPE_CHAR,
                               data := .int (if c.toNat ≤ 127 then c.toNat else c.toNat - 256) })
        else .ok (GIG_VALUE_OUT_OF_RANGE, g_value_init G_TYPE_CHAR)) ∧
    (meta.gtype = G_TYPE_UCHAR →
      gig_scm_to_value_full E (SCM.char c) meta (g_value_init G_TYPE_UCHAR) =
        if c.toNat ≤ 255 then
          .ok (GIG_VALUE_OK, { g_type := G_TYPE_UCHAR, data := .int c.toNat })
        else .ok (GIG_VALUE_OUT_OF_RANGE, g_value_init G_TYPE_UCHAR)) ∧
    (meta.gtype ∈ wide_integer_kinds →
      ∀ dest, gig_scm_to_value_full E (SCM.char c) meta dest = .ok (GIG_VALUE_OUT_OF_RANGE, dest)) ∧
    (meta.gtype = G_TYPE_UNICHAR →
      gig_scm_to_value_full E (SCM.char c) meta (g_value_init G_TYPE_UNICHAR) =
        .ok (GIG_VALUE_OK, { g_type := G_TYPE_UNICHAR, data := .int c.toNat })) := by
  refine ⟨?_, ?_, ?_, ?_⟩
  · intro h
    simp only [gig_scm_to_value_full, h, G_TYPE_FUNDAMENTAL, scm_char_to_value, scm_is_integer,
      SCM_CHARP, SCM_CHAR]
    by_cases hc : c.toNat ≤ 255
    · by_cases hs : c.toNat ≤ 127
      · have hw : wrap_signed 8 (c.toNat : Int) = c.toNat := by
          simp only [wrap_signed]; omega
        simp [hc, hs, hw, g_value_init, g_value_set_schar, G_VALUE_HOLDS, g_type_is_a, zero_data,
          G_TYPE_FUNDAMENTAL, bind, Except.bind, pure, Except.pure]
      · have hw : wrap_signed 8 (c.toNat : Int) = c.toNat - 256 := by
          simp only [wrap_signed]; omega
        simp [hc, hs, hw, g_value_init, g_value_set_schar, G_VALUE_HOLDS, g_type_is_a, zero_data,
          G_TYPE_FUNDAMENTAL, bind, Except.bind, pure, Except.pure]
    · simp [hc, g_value_init, zero_data, G_TYPE_FUNDAMENTAL, bind, Except.bind, pure, Except.pure]
  · intro h
    simp only [gig_scm_to_value_full, h, G_TYPE_FUNDAMENTAL, scm_char_to_value, scm_is_integer,
      SCM_CHARP, SCM_CHAR]
    by_cases hc : c.toNat ≤ 255
    · have hw : wrap_unsigned 8 (c.toNat : Int) = c.toNat := by
        simp only [wrap_unsigned]; omega
      simp [hc, hw, g_value_init, g_value_set_uchar, G_VALUE_HOLDS, g_type_is_a, zero_data,
        G_TYPE_FUNDAMENTAL, bind, Except.bind, pure, Except.pure]
    · simp [hc, g_value_init, zero_data, G_TYPE_FUNDAMENTAL, bind, Except.bind, pure, Except.pure]
  · intro hk dest
    simp only [wide_integer_kinds, List.mem_cons, List.mem_singleton, List.not_mem_nil,
      or_false] at hk
    rcases hk with h | h | h | h | h | h | h | h | h | h <;>
      simp [h, gig_scm_to_value_full, G_TYPE_FUNDAMENTAL, scm_integer_to_value, scm_is_integer,
        SCM_CHARP, scm_is_signed_integer, scm_is_unsigned_integer]
  · intro h
    simp [h, gig_scm_to_value_full, G_TYPE_FUNDAMENTAL, scm_integer_to_value, scm_is_integer,
      SCM_CHARP, scm_is_signed_integer, scm_is_unsigned_integer, SCM_CHAR, g_value_init,
      g_value_set_int, G_VALUE_HOLDS, g_type_is_a, zero_data, bind, Except.bind, pure, Except.pure]

/-- C7 (amended), at concrete inputs: `a` into a `char` slot, and `a` into an `int`
slot. -/
theorem C7_character_literals_witness :
    gig_scm_to_value_full sample_env (SCM.char 'a') (leaf_meta G_TYPE_CHAR)
        (g_value_init G_TYPE_CHAR)
      = .ok (GIG_VALUE_OK, { g_type := G_TYPE_CHAR, data := .int 97 }) ∧
    gig_scm_to_value_full sample_env (SCM.char 'a') (leaf_meta G_TYPE_INT)
        (g_value_init G_TYPE_INT)
      = .ok (GIG_VALUE_OUT_OF_RANGE, g_value_init G_TYPE_INT) :=
  ⟨(C7_character_literals sample_env (leaf_meta G_TYPE_CHAR) 'a').1 rfl,
   (C7_character_literals sample_env (leaf_meta G_TYPE_INT) 'a').2.2.1 (by decide)
     (g_value_init G_TYPE_INT)⟩

/-- C5 (as stated, refuted). For the host false value and a `gtype` slot that is not
nullable the marshaller returns no result code other than ok: the value goes to
`scm_to_gtype`, and here it is that function which raises a Scheme error. -/
theorem C5_counterexample :
    gig_scm_to_value_full sample_env SCM_BOOL_F (leaf_meta G_TYPE_GTYPE)
        (g_value_init G_TYPE_GTYPE) = .error (.wrong_type_arg 0) ∧
    ¬ ∃ code slot, code ≠ GIG_VALUE_OK ∧
        gig_scm_to_value_full sample_env SCM_BOOL_F (leaf_meta G_TYPE_GTYPE)
          (g_value_init G_TYPE_GTYPE) = .ok (code, slot) := by
  have h : gig_scm_to_value_full sample_env SCM_BOOL_F (leaf_meta G_TYPE_GTYPE)
      (g_value_init G_TYPE_GTYPE) = .error (.wrong_type_arg 0) := rfl
  refine ⟨h, ?_⟩
  rintro ⟨code, slot, _, h2⟩
  rw [h] at h2
  cases h2

/-- C5 (amended). Host→C of the host false value: a nullable slot of pointer kind (the
`gtype` and callback sub-kinds included) or of string kind returns ok and holds the
null pointer; a slot that is not nullable returns wrong-type when it is of pointer
kind proper, of the callback sub-kind or of string kind; for a `gtype` slot that is not
nullable the false value is handed to `scm_to_gtype`, the marshaller returns ok with the
identity that function yields, and it returns no other code. -/
theorem C5_false_value (E : Env) (meta : GigTypeMeta) (dest : GValue) :
    (meta.gtype ∈ pointer_kinds → meta.is_nullable = true →
      gig_scm_to_value_full E SCM_BOOL_F meta (g_value_init meta.gtype) =
        .ok (GIG_VALUE_OK, { g_type := meta.gtype, data := .pointer Ptr.null })) ∧
    (meta.gtype ∈ string_kinds → meta.is_nullable = true →
      gig_scm_to_value_full E SCM_BOOL_F meta (g_value_init meta.gtype) =
        .ok (GIG_VALUE_OK, { g_type := meta.gtype, data := .string none })) ∧
    (meta.gtype = G_TYPE_POINTER ∨ meta.gtype = G_TYPE_CALLBACK ∨ meta.gtype ∈ string_kinds →
      meta.is_nullable = false →
      gig_scm_to_value_full E SCM_BOOL_F meta dest = .ok (GIG_VALUE_WRONG_TYPE, dest)) ∧
    (meta.gtype = G_TYPE_GTYPE → meta.is_nullable = false →
      gig_scm_to_value_full E SCM_BOOL_F meta dest =
        (match E.scm_to_gtype SCM_BOOL_F with
         | .ok t => .ok (GIG_VALUE_OK, g_value_set_pointer dest (GSIZE_TO_POINTER E.model t))
         | .error e => .error e) ∧
      ∀ code slot, gig_scm_to_value_full E SCM_BOOL_F meta dest = .ok (code, slot) →
        code = GIG_VALUE_OK) := by
  refine ⟨?_, ?_, ?_, ?_⟩
  · intro hk hn
    simp only [pointer_kinds, List.mem_cons, List.mem_singleton, List.not_mem_nil, or_false] at hk
    rcases hk with h | h | h <;>
      simp [h, hn, gig_scm_to_value_full, G_TYPE_FUNDAMENTAL, scm_pointer_to_value, SCM_BOOL_F,
        scm_is_false, g_value_init, g_value_set_pointer, G_VALUE_HOLDS, g_type_is_a, zero_data]
  · intro hk hn
    simp only [string_kinds, List.mem_cons, List.mem_singleton, List.not_mem_nil, or_false] at hk
    rcases hk with h | h <;>
      simp [h, hn, gig_scm_to_value_full, G_TYPE_FUNDAMENTAL, scm_string_to_value, SCM_BOOL_F,
        scm_is_false, g_value_init, g_value_set_static_string, G_VALUE_HOLDS, g_type_is_a,
        zero_data]
  · intro hk hn
    simp only [string_kinds, List.mem_cons, List.mem_singleton, List.not_mem_nil, or_false] at hk
    rcases hk with h | h | h | h <;>
      simp [h, hn, gig_scm_to_value_full, G_TYPE_FUNDAMENTAL, scm_pointer_to_value,
        scm_string_to_value, SCM_BOOL_F, scm_is_false, scm_procedure_p, scm_is_string,
        scm_is_bytevector]
  · intro h hn
    have e : gig_scm_to_value_full E SCM_BOOL_F meta dest =
        (match E.scm_to_gtype SCM_BOOL_F with
         | .ok t => .ok (GIG_VALUE_OK, g_value_set_pointer dest (GSIZE_TO_POINTER E.model t))
         | .error e => .error e) := by
      simp only [gig_scm_to_value_full, h, hn, G_TYPE_FUNDAMENTAL, scm_pointer_to_value]
      simp only [bind, Except.bind, pure, Except.pure]
      cases E.scm_to_gtype SCM_BOOL_F <;> simp
    refine ⟨e, ?_⟩
    intro code slot hr
    rw [e] at hr
    cases hg : E.scm_to_gtype SCM_BOOL_F with
    | error err => rw [hg] at hr; cases hr
    | ok t => rw [hg] at hr; cases hr; rfl

/-- C5 (amended), at concrete inputs: a nullable string slot, a pointer slot that is
not nullable, and a `gtype` slot that is not nullable. -/
theorem C5_false_value_witness :
    gig_scm_to_value_full sample_env SCM_BOOL_F
        { leaf_meta G_TYPE_STRING with is_nullable := true, is_ptr := true }
        (g_value_init G_TYPE_STRING)
      = .ok (GIG_VALUE_OK, { g_type := G_TYPE_STRING, data := .string none }) ∧
    gig_scm_to_value_full sample_env SCM_BOOL_F (leaf_meta G_TYPE_POINTER)
        (g_value_init G_TYPE_POINTER)
      = .ok (GIG_VALUE_WRONG_TYPE, g_value_init G_TYPE_POINTER) ∧
    (∀ code slot, gig_scm_to_value_full sample_env SCM_BOOL_F (leaf_meta G_TYPE_GTYPE)
        (g_value_init G_TYPE_GTYPE) = .ok (code, slot) → code = GIG_VALUE_OK) :=
  ⟨(C5_false_value sample_env { leaf_meta G_TYPE_STRING with is_nullable := true, is_ptr := true }
      (g_value_init G_TYPE_STRING)).2.1 (by decide) rfl,
   (C5_false_value sample_env (leaf_meta G_TYPE_POINTER) (g_value_init G_TYPE_POINTER)).2.2.1
      (Or.inl rfl) rfl,
   ((C5_false_value sample_env (leaf_meta G_TYPE_GTYPE) (g_value_init G_TYPE_GTYPE)).2.2.2
      rfl rfl).2⟩

/-! ## Strings -/

theorem char_of_code_point_toNat (c : Char) : char_of_code_point c.toNat = some c := by
  have h : c.toNat.isValidChar := c.valid
  unfold char_of_code_point
  rw [if_pos h, Char.ofNat_toNat]

theorem char_toNat_bound (c : Char) : c.toNat < 0x110000 := by
  have h : c.toNat.isValidChar := c.valid
  rcases h with h | h
  · omega
  · exact h.2

theorem utf8_decode_encode_char (c : Char) (rest : List Nat) :
    utf8_decode_from 0 0 0 (utf8_encode_char c ++ rest) =
      utf8_cons (some c) (utf8_decode_from 0 0 0 rest) := by
  have hb := char_toNat_bound c
  have hc := char_of_code_point_toNat c
  unfold utf8_encode_char
  split_ifs with h1 h2 h3
  · simp only [List.singleton_append, utf8_decode_from, h1, if_true, hc]
    rfl
  · have e : (0xC0 + c.toNat / 0x40 - 0xC0) * 0x40 + (0x80 + c.toNat % 0x40 - 0x80) = c.toNat := by
      omega
    have c1 : ¬ (0xC0 + c.toNat / 0x40 < 0x80) := by omega
    have c2 : 0xC0 ≤ 0xC0 + c.toNat / 0x40 ∧ 0xC0 + c.toNat / 0x40 < 0xE0 := by omega
    have c3 : utf8_is_cont (0x80 + c.toNat % 0x40) = true := by
      simp only [utf8_is_cont, decide_eq_true_eq]; omega
    have c4 : 0x80 ≤ c.toNat := by omega
    simp only [List.cons_append, List.nil_append, utf8_decode_from, c1, c2, c3, e, c4, hc,
      if_true, if_false, and_self]
    rfl
  · have e : ((0xE0 + c.toNat / 0x1000 - 0xE0) * 0x40 + (0x80 + c.toNat / 0x40 % 0x40 - 0x80)) * 0x40
        + (0x80 + c.toNat % 0x40 - 0x80) = c.toNat := by omega
    have c1 : ¬ (0xE0 + c.toNat / 0x1000 < 0x80) := by omega
    have c2 : ¬ (0xC0 ≤ 0xE0 + c.toNat / 0x1000 ∧ 0xE0 + c.toNat / 0x1000 < 0xE0) := by omega
    have c2b : 0xE0 ≤ 0xE0 + c.toNat / 0x1000 ∧ 0xE0 + c.toNat / 0x1000 < 0xF0 := by omega
    have c3 : utf8_is_cont (0x80 + c.toNat / 0x40 % 0x40) = true := by
      simp only [utf8_is_cont, decide_eq_true_eq]; omega
    have c3b : utf8_is_cont (0x80 + c.toNat % 0x40) = true := by
      simp only [utf8_is_cont, decide_eq_true_eq]; omega
    have c4 : 0x800 ≤ c.toNat := by omega
    simp only [List.cons_append, List.nil_append, utf8_decode_from, c1, c2, c2b, c3, c3b, e, c4, hc,
      if_true, if_false, and_self, Nat.succ_ne_zero, one_ne_zero]
    rfl
  · have e : (((0xF0 + c.toNat / 0x40000 - 0xF0) * 0x40 + (0x80 + c.toNat / 0x1000 % 0x40 - 0x80))
        * 0x40 + (0x80 + c.toNat / 0x40 % 0x40 - 0x80)) * 0x40
        + (0x80 + c.toNat % 0x40 - 0x80) = c.toNat := by omega
    have c1 : ¬ (0xF0 + c.toNat / 0x40000 < 0x80) := by omega
    have c2 : ¬ (0xC0 ≤ 0xF0 + c.toNat / 0x40000 ∧ 0xF0 + c.toNat / 0x40000 < 0xE0) := by omega
    have c2b : ¬ (0xE0 ≤ 0xF0 + c.toNat / 0x40000 ∧ 0xF0 + c.toNat / 0x40000 < 0xF0) := by omega
    have c2c : 0xF0 ≤ 0xF0 + c.toNat / 0x40000 ∧ 0xF0 + c.toNat / 0x40000 < 0xF8 := by omega
    have c3 : utf8_is_cont (0x80 + c.toNat / 0x1000 % 0x40) = true := by
      simp only [utf8_is_cont, decide_eq_true_eq]; omega
    have c3a : utf8_is_cont (0x80 + c.toNat / 0x40 % 0x40) = true := by
      simp only [utf8_is_cont, decide_eq_true_eq]; omega
    have c3b : utf8_is_cont (0x80 + c.toNat % 0x40) = true := by
      simp only [utf8_is_cont, decide_eq_true_eq]; omega
    have c4 : 0x10000 ≤ c.toNat := by omega
    simp only [List.cons_append, List.nil_append, utf8_decode_from, c1, c2, c2b, c2c, c3, c3a, c3b,
      e, c4, hc, if_true, if_false, and_self, Nat.succ_ne_zero, one_ne_zero]
    rfl

theorem utf8_decode_encode (s : List Char) : utf8_decode (utf8_encode s) = some s := by
  unfold utf8_decode
  induction s with
  | nil => rfl
  | cons c s ih =>
    rw [utf8_encode, utf8_decode_encode_char, ih]
    rfl

theorem utf8_encode_char_ne_zero (c : Char) (hc : c.toNat ≠ 0) :
    ∀ b ∈ utf8_encode_char c, b ≠ 0 := by
  intro b hb
  unfold utf8_encode_char at hb
  split_ifs at hb <;> simp at hb <;> omega

theorem c_string_bytes_encode (s : List Char) (hs : ∀ c ∈ s, c.toNat ≠ 0) :
    c_string_bytes (utf8_encode s ++ [0]) = utf8_encode s := by
  unfold c_string_bytes
  have h : ∀ b ∈ utf8_encode s, b ≠ 0 := by
    induction s with
    | nil => intro b hb; simp [utf8_encode] at hb
    | cons c s ih =>
      intro b hb
      rw [utf8_encode, List.mem_append] at hb
      rcases hb with hb | hb
      · exact utf8_encode_char_ne_zero c (hs c (List.mem_cons_self c s)) b hb
      · exact ih (fun d hd => hs d (List.mem_cons_of_mem c hd)) b hb
  generalize utf8_encode s = l at h
  induction l with
  | nil => simp
  | cons x l ih =>
    have hx : x ≠ 0 := h x (List.mem_cons_self x l)
    simp only [List.cons_append, List.takeWhile_cons, hx, ne_eq, not_false_eq_true, decide_True,
      if_true]
    rw [ih (fun b hb => h b (List.mem_cons_of_mem x hb))]

/-- C9 (as stated, refuted). The host string of the three characters `a`, NUL, `b`
goes into a UTF-8 string slot with transfer none as the C string `a\0b\0`, and comes
back as the host string `a`. -/
theorem C9_counterexample :
    gig_scm_to_value_full sample_env (SCM.string ['a', Char.ofNat 0, 'b'])
        { leaf_meta G_TYPE_STRING with is_ptr := true } (g_value_init G_TYPE_STRING)
      = .ok (GIG_VALUE_OK, { g_type := G_TYPE_STRING, data := .string (some [97, 0, 98, 0]) }) ∧
    gig_value_to_scm_full sample_env
        { g_type := G_TYPE_STRING, data := .string (some [97, 0, 98, 0]) }
        { leaf_meta G_TYPE_STRING with is_ptr := true } SCM.undefined
      = .ok (GIG_VALUE_OK, SCM.string ['a']) ∧
    SCM.string ['a'] ≠ SCM.string ['a', Char.ofNat 0, 'b'] := by
  refine ⟨rfl, rfl, ?_⟩
  intro h
  cases h

/-- C9 (amended). For every host string `s` that contains no NUL character and every
UTF-8 string slot (a pointer slot) with transfer none, host→C returns ok, and C→host of
the resulting slot returns ok with a host string equal to `s`. -/
theorem C9_utf8_string_round_trip (E : Env) (meta : GigTypeMeta) (s : List Char) (dest : SCM)
    (hg : meta.gtype = G_TYPE_STRING) (hp : meta.is_ptr = true)
    (ht : meta.is_transfer_ownership = false) (hs : ∀ c ∈ s, c.toNat ≠ 0) :
    ∃ slot : GValue,
      gig_scm_to_value_full E (SCM.string s) meta (g_value_init G_TYPE_STRING)
        = .ok (GIG_VALUE_OK, slot) ∧
      gig_value_to_scm_full E slot meta dest = .ok (GIG_VALUE_OK, SCM.string s) := by
  refine ⟨{ g_type := G_TYPE_STRING, data := .string (some (utf8_encode s ++ [0])) }, ?_, ?_⟩
  · simp [gig_scm_to_value_full, hg, hp, ht, G_TYPE_FUNDAMENTAL, scm_string_to_value,
      scm_is_false, scm_is_string, scm_to_utf8_string, g_value_init, g_value_take_string,
      G_VALUE_HOLDS, g_type_is_a, zero_data, bind, Except.bind, pure, Except.pure]
  · have h1 := c_string_bytes_encode s hs
    have h2 : c_string_bytes (utf8_encode s ++ [0] ) = utf8_encode s := h1
    simp [gig_value_to_scm_full, hg, G_TYPE_FUNDAMENTAL, string_value_to_scm, G_VALUE_TYPE,
      G_VALUE_HOLDS, g_type_is_a, g_value_get_string, g_value_dup_string, scm_from_utf8_string,
      h2, utf8_decode_encode, bind, Except.bind, pure, Except.pure]

/-- C9 (amended), at a concrete input: the string `hi`. -/
theorem C9_utf8_string_round_trip_witness :
    ∃ slot : GValue,
      gig_scm_to_value_full sample_env (SCM.string ['h', 'i'])
        { leaf_meta G_TYPE_STRING with is_ptr := true } (g_value_init G_TYPE_STRING)
        = .ok (GIG_VALUE_OK, slot) ∧
      gig_value_to_scm_full sample_env slot { leaf_meta G_TYPE_STRING with is_ptr := true }
        SCM.undefined = .ok (GIG_VALUE_OK, SCM.string ['h', 'i']) :=
  C9_utf8_string_round_trip sample_env { leaf_meta G_TYPE_STRING with is_ptr := true } ['h', 'i']
    SCM.undefined rfl rfl rfl (by decide)

/-! ## Arrays -/

/-- C8 (code defect). The empty host string, which has 0 elements, goes into a
fixed-size array slot of declared length 3 with `unichar` elements: the slot is
pre-typed as an empty array, and host→C returns ok, not wrong-type.  The vector path
and the byte-buffer path make the length check that the string path lacks: the empty
vector and the empty byte-buffer are rejected with wrong-type. -/
theorem C8_fixed_array_string_length_unchecked :
    gig_value_preset_type (input_entry "text" fixed_unichar_array_meta) = .ok empty_array_slot ∧
    ([] : List Char).length ≠ fixed_unichar_array_meta.length ∧
    scm_array_to_value sample_env (SCM.string []) fixed_unichar_array_meta empty_array_slot
      = .ok (GIG_VALUE_OK, empty_array_slot) ∧
    gig_scm_to_value_full sample_env (SCM.string []) fixed_unichar_array_meta empty_array_slot
      = .ok (GIG_VALUE_OK, empty_array_slot) ∧
    scm_array_to_value sample_env (SCM.vector []) fixed_unichar_array_meta empty_array_slot
      = .ok (GIG_VALUE_WRONG_TYPE, empty_array_slot) ∧
    scm_array_to_value sample_env (SCM.bytevector []) fixed_unichar_array_meta empty_array_slot
      = .ok (GIG_VALUE_WRONG_TYPE, empty_array_slot) := by
  refine ⟨rfl, by decide, rfl, rfl, rfl, rfl⟩

/-- C10 (code defect). The host vector `#(#t #f)` goes into the pre-typed empty
container of an array slot with boolean elements: host→C returns ok and leaves the
container empty, because the vector path takes its array from
`g_value_get_boolean (dest)`, which is null for a boxed value, and every append to a
null array does nothing.  C→host of the container then yields the empty vector, not a
vector of length 2. -/
theorem C10_vector_round_trip_loses_elements :
    gig_value_preset_type (input_entry "flags" boolean_array_meta) = .ok empty_array_slot ∧
    g_value_get_boolean empty_array_slot = 0 ∧
    scm_array_to_value sample_env (SCM.vector [SCM.bool true, SCM.bool false]) boolean_array_meta
        empty_array_slot
      = .ok (GIG_VALUE_OK, empty_array_slot) ∧
    boxed_array_value_to_scm sample_env empty_array_slot boolean_array_meta SCM.undefined
      = .ok (GIG_VALUE_OK, SCM.vector []) ∧
    SCM.vector [] ≠ SCM.vector [SCM.bool true, SCM.bool false] := by
  refine ⟨rfl, rfl, rfl, rfl, ?_⟩
  intro h
  cases h

/-! ## The forward call -/

/-- An outcome of the marshaller is never the arity error of `function_call`. -/
theorem raise_ne_wrong_num_args {α : Type} (x : Except Throw α) :
    raise x ≠ .error CallThrow.wrong_num_args := by
  cases x <;> simp [raise]

/-- C3. For every Arg-Map with `r` required and `o` optional host inputs and every host
argument list of length `n`, `function_call` raises the wrong-number-of-arguments
error if and only if `n < r` or `n > r + o`; and when it raises it, no argument has
been handed to the marshaller and the C function has not been invoked (the call has
no event). -/
theorem C3_arity_check (E : Env) (amap : GigArgMap)
    (function_invoke : GValue → List GValue → List GValue → GValue → Option InvokeResult)
    (self : Ptr) (s_args : List SCM) :
    ((function_call E amap function_invoke self s_args).1 = .error CallThrow.wrong_num_args ↔
      (s_args.length < amap.s_input_req ∨ s_args.length > amap.s_input_req + amap.s_input_opt)) ∧
    ((function_call E amap function_invoke self s_args).1 = .error CallThrow.wrong_num_args →
      (function_call E amap function_invoke self s_args).2 = []) := by
  by_cases h : s_args.length < amap.s_input_req ∨ s_args.length > amap.s_input_req + amap.s_input_opt
  · have e : function_call E amap function_invoke self s_args =
        (.error CallThrow.wrong_num_args, []) := by
      simp only [function_call, gig_amap_s_input_count, h, if_true]
    rw [e]
    exact ⟨⟨fun _ => h, fun _ => rfl⟩, fun _ => rfl⟩
  · have e : (function_call E amap function_invoke self s_args).1 ≠
        .error CallThrow.wrong_num_args := by
      simp only [function_call, gig_amap_s_input_count, h, if_false]
      cases hs : set_value_types amap with
      | error t => simp
      | ok vals =>
        obtain ⟨self_val, in_vals, out_vals, return_val⟩ := vals
        simp only []
        cases hc : convert_input_vals E amap s_args 0 in_vals out_vals with
        | mk r events =>
          cases r with
          | error t => simp
          | ok vals2 =>
            simp only []
            cases hi : function_invoke (g_value_set_pointer self_val self) vals2.1 vals2.2
                return_val with
            | none => simp
            | some res => exact raise_ne_wrong_num_args _
    exact ⟨⟨fun h1 => absurd h1 e, fun h2 => absurd h2 h⟩, fun h1 => absurd h1 e⟩

/-- C3, at a concrete input: `add` wants two arguments and gets one. -/
theorem C3_arity_check_witness :
    (function_call sample_env add_amap add_invoke Ptr.null [SCM.int 2]).1
      = .error CallThrow.wrong_num_args ∧
    (function_call sample_env add_amap add_invoke Ptr.null [SCM.int 2]).2 = [] :=
  ⟨(C3_arity_check sample_env add_amap add_invoke Ptr.null [SCM.int 2]).1.2 (by decide),
   (C3_arity_check sample_env add_amap add_invoke Ptr.null [SCM.int 2]).2
     ((C3_arity_check sample_env add_amap add_invoke Ptr.null [SCM.int 2]).1.2 (by decide))⟩

/-- The entry at the index that `first_entry_index` finds is the entry that `find?`
finds. -/
theorem get_first_entry_index (p : GigArgMapEntry → Bool) (l : List GigArgMapEntry) (i : Nat)
    (h : first_entry_index p l = some i) : l.get? i = l.find? p := by
  induction l generalizing i with
  | nil => simp [first_entry_index] at h
  | cons e es ih =>
    unfold first_entry_index at h
    by_cases hp : p e = true
    · rw [if_pos hp] at h
      cases h
      simp [List.find?, hp]
    · rw [if_neg hp] at h
      cases hf : first_entry_index p es with
      | none => rw [hf] at h; cases h
      | some j =>
        rw [hf] at h
        cases h
        have := ih j hf
        simp only [Bool.not_eq_true] at hp
        simp only [List.find?, hp, List.get?_cons_succ]
        exact this

/-- A successful step of `do` notation in `Except`. -/
theorem except_bind_ok {ε α β : Type} (m : Except ε α) (f : α → Except ε β) (b : β)
    (h : (m >>= f) = .ok b) : ∃ a, m = .ok a ∧ f a = .ok b := by
  cases m with
  | error e => cases h
  | ok a => exact ⟨a, rfl, h⟩

/-- What one turn of the loop of `convert_output_vals` appends: nothing for a position
without host-visible slot, else the conversion of the slot at this position. -/
theorem convert_output_val_ok (E : Env) (amap : GigArgMap) (out_vals : List GValue) (c : Nat)
    (xs : List SCM) (h : convert_output_val E amap out_vals c = .ok xs) :
    match amap.pdata.find? (fun e => e.is_c_output && decide (e.c_output_pos = c)) with
    | some e =>
      if e.is_s_output then ∃ x d, xs = [x] ∧ slot_to_scm E out_vals (c, e.meta) d = .ok x
      else xs = []
    | none => xs = [] := by
  unfold convert_output_val at h
  unfold gig_amap_output_c2s at h
  cases hf : amap.pdata.find? (fun e => e.is_c_output && decide (e.c_output_pos = c)) with
  | none =>
    rw [hf] at h
    simp only [] at h
    cases h
    rfl
  | some e =>
    rw [hf] at h
    simp only []
    by_cases hs : e.is_s_output = true
    · rw [if_pos hs]
      simp only [hs, if_true] at h
      obtain ⟨i, hi, h⟩ := except_bind_ok _ _ _ h
      obtain ⟨entry, he, h⟩ := except_bind_ok _ _ _ h
      have hidx : gig_amap_output_c2i amap c = some i := by
        cases hq : gig_amap_output_c2i amap c with
        | none => rw [hq] at hi; cases hi
        | some j => rw [hq] at hi; cases hi; rfl
      have hget := get_first_entry_index _ _ _ hidx
      rw [hf] at hget
      have hentry : entry = e := by
        unfold entry_at at he
        rw [hget] at he
        cases he
        rfl
      subst hentry
      cases hch : gig_amap_child_i amap i with
      | none =>
        rw [hch] at h
        simp only [] at h
        obtain ⟨v, hv, h⟩ := except_bind_ok _ _ _ h
        obtain ⟨obj, ho, h⟩ := except_bind_ok _ _ _ h
        cases h
        exact ⟨_, SCM.undefined, rfl, by simp only [slot_to_scm, hv, bind, Except.bind, ho]⟩
      | some size_index =>
        rw [hch] at h
        simp only [] at h
        cases hoc : gig_amap_output_i2c amap size_index with
        | none =>
          rw [hoc] at h
          simp only [] at h
          obtain ⟨v, hv, h⟩ := except_bind_ok _ _ _ h
          obtain ⟨obj, ho, h⟩ := except_bind_ok _ _ _ h
          cases h
          exact ⟨_, SCM.undefined, rfl, by simp only [slot_to_scm, hv, bind, Except.bind, ho]⟩
        | some c_child =>
          rw [hoc] at h
          simp only [] at h
          obtain ⟨size_entry, _, h⟩ := except_bind_ok _ _ _ h
          obtain ⟨v0, _, h⟩ := except_bind_ok _ _ _ h
          obtain ⟨obj0, _, h⟩ := except_bind_ok _ _ _ h
          obtain ⟨_, _, h⟩ := except_bind_ok _ _ _ h
          obtain ⟨v, hv, h⟩ := except_bind_ok _ _ _ h
          obtain ⟨obj, ho, h⟩ := except_bind_ok _ _ _ h
          cases h
          exact ⟨_, obj0, rfl, by simp only [slot_to_scm, hv, bind, Except.bind, ho]⟩
    · rw [if_neg hs]
      simp only [hs] at h
      cases h
      rfl

/-- The loop of `convert_output_vals` yields, in order, the conversion of every
host-visible slot among the positions it visits. -/
theorem convert_output_vals_from_ok (E : Env) (amap : GigArgMap) (out_vals : List GValue)
    (cs : List Nat) (ys : List SCM) (h : convert_output_vals_from E amap out_vals cs = .ok ys) :
    List.Forall₂ (fun slot x => ∃ d, slot_to_scm E out_vals slot d = .ok x)
      (cs.filterMap (fun c =>
        match amap.pdata.find? (fun e => e.is_c_output && decide (e.c_output_pos = c)) with
        | some e => if e.is_s_output then some (c, e.meta) else none
        | none => none)) ys := by
  induction cs generalizing ys with
  | nil =>
    simp only [convert_output_vals_from] at h
    cases h
    exact List.Forall₂.nil
  | cons c cs ih =>
    unfold convert_output_vals_from at h
    obtain ⟨xs, hx, h⟩ := except_bind_ok _ _ _ h
    obtain ⟨zs, hz, h⟩ := except_bind_ok _ _ _ h
    cases h
    have h1 := convert_output_val_ok E amap out_vals c xs hx
    have h2 := ih zs hz
    rw [List.filterMap_cons]
    cases hf : amap.pdata.find? (fun e => e.is_c_output && decide (e.c_output_pos = c)) with
    | none =>
      rw [hf] at h1
      simp only [] at h1 ⊢
      subst h1
      exact h2
    | some e =>
      rw [hf] at h1
      simp only [] at h1 ⊢
      by_cases hs : e.is_s_output = true
      · rw [if_pos hs] at h1 ⊢
        obtain ⟨x, d, hxs, hd⟩ := h1
        subst hxs
        exact List.Forall₂.cons ⟨d, hd⟩ h2
      · rw [if_neg hs] at h1 ⊢
        subst h1
        exact h2

/-- What one turn of the outer loop of `rebox_inout_vals` appends: the conversion of the
inout slot at this C input position, unless that slot has a parent. -/
theorem rebox_inout_val_ok (E : Env) (amap : GigArgMap) (in_vals : List GValue) (c : Nat)
    (xs : List SCM) (h : rebox_inout_val E amap in_vals c = .ok xs) :
    match amap.pdata.find? (fun e => e.is_c_input && decide (e.c_input_pos = c)
        && e.meta.is_in && e.meta.is_out) with
    | some e =>
      if e.parent = none then ∃ x d, xs = [x] ∧ slot_to_scm E in_vals (c, e.meta) d = .ok x
      else xs = []
    | none => xs = [] := by
  unfold rebox_inout_val at h
  cases hf : amap.pdata.find? (fun e => e.is_c_input && decide (e.c_input_pos = c)
      && e.meta.is_in && e.meta.is_out) with
  | none =>
    rw [hf] at h
    simp only [] at h
    cases h
    rfl
  | some e =>
    rw [hf] at h
    simp only [] at h ⊢
    have hp := List.find?_some hf
    have hc : e.c_input_pos = c := by
      simp only [Bool.and_eq_true, decide_eq_true_eq] at hp
      exact hp.1.1.2
    obtain ⟨obj, _, h⟩ := except_bind_ok _ _ _ h
    cases hpar : e.parent with
    | none =>
      rw [hpar] at h
      simp only [if_true] at h ⊢
      obtain ⟨v, hv, h⟩ := except_bind_ok _ _ _ h
      obtain ⟨obj2, ho, h⟩ := except_bind_ok _ _ _ h
      cases h
      rw [hc] at hv
      exact ⟨_, obj, rfl, by simp only [slot_to_scm, hv, bind, Except.bind, ho]⟩
    | some j =>
      rw [hpar] at h
      simp only [] at h
      cases h
      simp

/-- The outer loop of `rebox_inout_vals` yields, in order, the conversion of every inout
slot without parent among the positions it visits. -/
theorem rebox_inout_vals_from_ok (E : Env) (amap : GigArgMap) (in_vals : List GValue)
    (cs : List Nat) (ys : List SCM) (h : rebox_inout_vals_from E amap in_vals cs = .ok ys) :
    List.Forall₂ (fun slot x => ∃ d, slot_to_scm E in_vals slot d = .ok x)
      (cs.filterMap (fun c =>
        match amap.pdata.find? (fun e => e.is_c_input && decide (e.c_input_pos = c)
            && e.meta.is_in && e.meta.is_out) with
        | some e => if e.parent = none then some (c, e.meta) else none
        | none => none)) ys := by
  induction cs generalizing ys with
  | nil =>
    simp only [rebox_inout_vals_from] at h
    cases h
    exact List.Forall₂.nil
  | cons c cs ih =>
    unfold rebox_inout_vals_from at h
    obtain ⟨xs, hx, h⟩ := except_bind_ok _ _ _ h
    obtain ⟨zs, hz, h⟩ := except_bind_ok _ _ _ h
    cases h
    have h1 := rebox_inout_val_ok E amap in_vals c xs hx
    have h2 := ih zs hz
    rw [List.filterMap_cons]
    cases hf : amap.pdata.find? (fun e => e.is_c_input && decide (e.c_input_pos = c)
        && e.meta.is_in && e.meta.is_out) with
    | none =>
      rw [hf] at h1
      simp only [] at h1 ⊢
      subst h1
      exact h2
    | some e =>
      rw [hf] at h1
      simp only [] at h1 ⊢
      by_cases hs : e.parent = none
      · rw [if_pos hs] at h1 ⊢
        obtain ⟨x, d, hxs, hd⟩ := h1
        subst hxs
        exact List.Forall₂.cons ⟨d, hd⟩ h2
      · rw [if_neg hs] at h1 ⊢
        subst h1
        exact h2

/-- The void kind converts to the unspecified value. -/
theorem void_to_scm (E : Env) (v : GValue) (meta : GigTypeMeta) (dest r : SCM)
    (hv : G_TYPE_FUNDAMENTAL meta.gtype = G_TYPE_VOID)
    (h : gig_value_to_scm_full_with_error E v meta dest = .ok r) : r = SCM_UNSPECIFIED := by
  simp only [gig_value_to_scm_full_with_error, gig_value_to_scm_full, hv, if_true, bind,
    Except.bind] at h
  simp at h
  cases h
  rfl

/-- C4 (as stated, refuted). Two successful forward calls whose result is the
unspecified value although the claimed sequence has one element.  `f` has one
nullable inout slot and is called without arguments: the claimed result is the
converted inout slot, `#f`.  `g` takes a byte array whose length slot is inout and is
called with a byte-buffer of 3 bytes: the claimed result is the converted length
slot, 3. -/
theorem C4_counterexample :
    function_call sample_env optional_inout_amap idle_invoke Ptr.null []
      = (.ok (SCM_UNSPECIFIED, none), [Event.invoke]) ∧
    claimed_output sample_env optional_inout_amap
        { ok := true, in_vals := [g_value_init G_TYPE_POINTER],
          out_vals := [g_value_init G_TYPE_POINTER], return_val := g_value_init G_TYPE_VOID,
          error := none }
      = .ok SCM_BOOL_F ∧
    function_call sample_env inout_length_amap idle_invoke Ptr.null [SCM.bytevector [1, 2, 3]]
      = (.ok (SCM_UNSPECIFIED, none), [Event.marshal 0, Event.marshal_length, Event.invoke]) ∧
    (convert_input_vals sample_env inout_length_amap [SCM.bytevector [1, 2, 3]] 0
        [{ g_type := G_TYPE_ARRAY, data := .boxed (.array (g_array_new 1)) },
         g_value_init G_TYPE_ULONG]
        [g_value_init G_TYPE_ULONG]).1
      = .ok ([{ g_type := G_TYPE_ARRAY,
                data := .boxed (.array { element_size := 1,
                                         data := [Elem.raw [1], Elem.raw [2], Elem.raw [3]] }) },
              { g_type := G_TYPE_ULONG, data := .int 3 }],
             [{ g_type := G_TYPE_ULONG, data := .int 3 }]) ∧
    claimed_output sample_env inout_length_amap
        { ok := true,
          in_vals := [{ g_type := G_TYPE_ARRAY,
                        data := .boxed (.array { element_size := 1,
                                                 data := [Elem.raw [1], Elem.raw [2], Elem.raw [3]] }) },
                      { g_type := G_TYPE_ULONG, data := .int 3 }],
          out_vals := [{ g_type := G_TYPE_ULONG, data := .int 3 }],
          return_val := g_value_init G_TYPE_VOID, error := none }
      = .ok (SCM.int 3) := by
  exact ⟨by rfl, by rfl, by rfl, by rfl, by rfl⟩

/-- C4 (amended). For every forward call that returns, `function_invoke` has run; if it
reported failure the result is the unspecified value, and if it reported success the
result packs the sequence made of, in order: the converted return value, omitted when
it is the unspecified value (which is what the void kind converts to); then, for each
C-output position in increasing order, the converted slot at that position if it has a
host-output position; then, only when the host argument list is not empty, for each
C-input position in increasing order, the converted inout slot at that position unless
the slot is the length child of another slot.  The packing is: unspecified for the
empty sequence, the sole element for length 1, a multiple-values object otherwise. -/
theorem C4_result_sequence (E : Env) (amap : GigArgMap)
    (function_invoke : GValue → List GValue → List GValue → GValue → Option InvokeResult)
    (self : Ptr) (s_args : List SCM) (v : SCM) (err : Option String)
    (h : (function_call E amap function_invoke self s_args).1 = .ok (v, err)) :
    ∃ res self_val in_vals out_vals return_val,
      function_invoke self_val in_vals out_vals return_val = some res ∧ err = res.error ∧
      (res.ok = false → v = SCM_UNSPECIFIED) ∧
      (res.ok = true →
        ∃ r outs inouts,
          gig_value_to_scm_full_with_error E res.return_val amap.return_val.meta SCM_EOL = .ok r ∧
          (G_TYPE_FUNDAMENTAL amap.return_val.meta.gtype = G_TYPE_VOID → r = SCM_UNSPECIFIED) ∧
          List.Forall₂ (fun slot x => ∃ d, slot_to_scm E res.out_vals slot d = .ok x)
            (host_output_slots amap) outs ∧
          List.Forall₂ (fun slot x => ∃ d, slot_to_scm E res.in_vals slot d = .ok x)
            (returned_inout_slots amap s_args) inouts ∧
          v = pack_output ((if scm_is_eq_unspecified r then [] else [r]) ++ outs ++ inouts)) := by
  unfold function_call at h
  simp only [] at h
  split_ifs at h with harity
  cases hs : set_value_types amap with
  | error t => rw [hs] at h; simp at h
  | ok vals =>
    obtain ⟨self_val, in_vals, out_vals, return_val⟩ := vals
    rw [hs] at h
    simp only [] at h
    cases hc : convert_input_vals E amap s_args 0 in_vals out_vals with
    | mk r0 events =>
      rw [hc] at h
      cases r0 with
      | error t => simp at h
      | ok vals2 =>
        simp only [] at h
        cases hi : function_invoke (g_value_set_pointer self_val self) vals2.1 vals2.2
            return_val with
        | none => rw [hi] at h; simp at h
        | some res =>
          rw [hi] at h
          simp only [] at h
          refine ⟨res, _, _, _, _, hi, ?_⟩
          cases ho : function_call_output E amap res s_args with
          | error t => rw [ho] at h; simp [raise, Except.map] at h
          | ok out =>
            rw [ho] at h
            simp only [raise, Except.map, Except.ok.injEq, Prod.mk.injEq] at h
            obtain ⟨hv, he⟩ := h
            subst hv
            refine ⟨he.symm, ?_, ?_⟩
            · intro hok
              simp only [function_call_output, hok] at ho
              simp at ho
              exact ho.symm
            · intro hok
              simp only [function_call_output, hok, if_true] at ho
              obtain ⟨r, hr, ho⟩ := except_bind_ok _ _ _ ho
              obtain ⟨outs, hout, ho⟩ := except_bind_ok _ _ _ ho
              obtain ⟨inouts, hin, ho⟩ := except_bind_ok _ _ _ ho
              refine ⟨r, outs, inouts, hr, fun hvoid => void_to_scm E _ _ _ _ hvoid hr, ?_, ?_, ?_⟩
              · exact convert_output_vals_from_ok E amap res.out_vals _ outs hout
              · unfold rebox_inout_vals at hin
                unfold returned_inout_slots
                cases s_args with
                | nil =>
                  simp only [] at hin ⊢
                  cases hin
                  exact List.Forall₂.nil
                | cons a rest =>
                  simp only [] at hin ⊢
                  exact rebox_inout_vals_from_ok E amap res.in_vals _ inouts hin
              · generalize (if scm_is_eq_unspecified r = true then [] else [r]) ++ outs ++ inouts
                  = l at ho
                cases l with
                | nil => simp only [] at ho; cases ho; rfl
                | cons x l =>
                  cases l with
                  | nil => simp only [] at ho; cases ho; rfl
                  | cons y l => simp only [] at ho; cases ho; rfl

/-- C4 (amended), at a concrete input: `add` called with 2 and 3 returns 5. -/
theorem C4_result_sequence_witness :
    ∃ res self_val in_vals out_vals return_val,
      add_invoke self_val in_vals out_vals return_val = some res ∧ none = res.error ∧
      (res.ok = false → SCM.int 5 = SCM_UNSPECIFIED) ∧
      (res.ok = true →
        ∃ r outs inouts,
          gig_value_to_scm_full_with_error sample_env res.return_val add_amap.return_val.meta
            SCM_EOL = .ok r ∧
          (G_TYPE_FUNDAMENTAL add_amap.return_val.meta.gtype = G_TYPE_VOID →
            r = SCM_UNSPECIFIED) ∧
          List.Forall₂ (fun slot x => ∃ d, slot_to_scm sample_env res.out_vals slot d = .ok x)
            (host_output_slots add_amap) outs ∧
          List.Forall₂ (fun slot x => ∃ d, slot_to_scm sample_env res.in_vals slot d = .ok x)
            (returned_inout_slots add_amap [SCM.int 2, SCM.int 3]) inouts ∧
          SCM.int 5 = pack_output ((if scm_is_eq_unspecified r then [] else [r]) ++ outs ++
            inouts)) :=
  C4_result_sequence sample_env add_amap add_invoke Ptr.null [SCM.int 2, SCM.int 3] (SCM.int 5)
    none rfl

/-! ## Lists -/

/-- A host list built from its elements is a proper list with these elements. -/
theorem scm_list_elements_scm_list (l : List SCM) : scm_list_elements (scm_list l) = some l := by
  induction l with
  | nil => rfl
  | cons x xs ih => simp [scm_list, scm_list_elements, ih]

/-- A turn of the `switch` of `scm_list_to_value` that answers ok has appended a
word. -/
theorem scm_list_to_value_element_ok (E : Env) (p0 : GigTypeMeta) (car : SCM) (w : Option Ptr)
    (h : scm_list_to_value_element E p0 car = .ok (GIG_VALUE_OK, w)) : ∃ p, w = some p := by
  unfold scm_list_to_value_element at h
  split at h <;>
    first
    | (simp only [Except.ok.injEq, Prod.mk.injEq] at h; exact absurd h.1 (by decide))
    | (obtain ⟨r, _, h2⟩ := except_bind_ok _ _ _ h
       simp only [pure, Except.pure, Except.ok.injEq, Prod.mk.injEq] at h2
       exact ⟨_, h2.2.symm⟩)

/-- When the loop of `scm_list_to_value` runs to its end it has appended one node for
each element of `rest`: the element `car` it was entered with at the last turn is never
converted. -/
theorem scm_list_to_value_loop_length (E : Env) (meta : GigTypeMeta)
    (hm : meta.gtype = G_TYPE_LIST ∨ meta.gtype = G_TYPE_SLIST) :
    ∀ (rest : List SCM) (car : SCM) (acc acc1 : List Ptr),
      scm_list_to_value_loop E meta car rest acc = .ok (none, acc1) →
      acc1.length = acc.length + rest.length := by
  intro rest
  induction rest with
  | nil =>
    intro car acc acc1 h
    simp only [scm_list_to_value_loop, Except.ok.injEq, Prod.mk.injEq, true_and] at h
    simp [h]
  | cons next rest ih =>
    intro car acc acc1 h
    unfold scm_list_to_value_loop at h
    obtain ⟨p0, _, h⟩ := except_bind_ok _ _ _ h
    obtain ⟨r, hr, h⟩ := except_bind_ok _ _ _ h
    by_cases hok : r.1 = GIG_VALUE_OK
    · obtain ⟨p, hp⟩ := scm_list_to_value_element_ok E p0 car r.2 (by rw [← hok]; exact hr)
      simp only [hok, ne_eq, not_true_eq_false, if_false, hp, hm, if_true] at h
      have := ih next (p :: acc) acc1 h
      simp only [List.length_cons] at this ⊢
      omega
    · simp only [ne_eq, hok, not_false_eq_true, if_true, pure, Except.pure, Except.ok.injEq,
        Prod.mk.injEq] at h
      exact absurd h.1 (by simp)

/-- The loop of `scm_list_to_value` leaves the function only with a result code other
than ok. -/
theorem scm_list_to_value_loop_return (E : Env) (meta : GigTypeMeta) :
    ∀ (rest : List SCM) (car : SCM) (acc acc1 : List Ptr) (ret : GigValueReturn),
      scm_list_to_value_loop E meta car rest acc = .ok (some ret, acc1) → ret ≠ GIG_VALUE_OK := by
  intro rest
  induction rest with
  | nil =>
    intro car acc acc1 ret h
    simp [scm_list_to_value_loop] at h
  | cons next rest ih =>
    intro car acc acc1 ret h
    unfold scm_list_to_value_loop at h
    obtain ⟨p0, _, h⟩ := except_bind_ok _ _ _ h
    obtain ⟨r, hr, h⟩ := except_bind_ok _ _ _ h
    by_cases hok : r.1 = GIG_VALUE_OK
    · simp only [hok, ne_eq, not_true_eq_false, if_false] at h
      exact ih next _ acc1 ret h
    · simp only [ne_eq, hok, not_false_eq_true, if_true, pure, Except.pure, Except.ok.injEq,
        Prod.mk.injEq, Option.some.injEq] at h
      rw [← h.1]
      exact hok

/-- Whenever host→C of a non-empty host list into a slot of type `G_TYPE_LIST` returns
ok, the C list in the slot has one node less than the host list has elements. -/
theorem scm_list_to_value_node_count (E : Env) (meta : GigTypeMeta) (car : SCM) (rest : List SCM)
    (dest slot : GValue) (hm : meta.gtype = G_TYPE_LIST) (hd : dest.g_type = G_TYPE_LIST)
    (h : scm_list_to_value E (scm_list (car :: rest)) meta dest = .ok (GIG_VALUE_OK, slot)) :
    ∃ items, g_value_get_boxed slot = .list items ∧ items.length + 1 = (car :: rest).length := by
  unfold scm_list_to_value at h
  rw [scm_list_elements_scm_list] at h
  simp only at h
  obtain ⟨r, hr, h⟩ := except_bind_ok _ _ _ h
  obtain ⟨r1, r2⟩ := r
  cases r1 with
  | some ret =>
    simp only [pure, Except.pure, Except.ok.injEq, Prod.mk.injEq] at h
    exact absurd h.1 (scm_list_to_value_loop_return E meta rest car [] r2 ret hr)
  | none =>
    have hl := scm_list_to_value_loop_length E meta (Or.inl hm) rest car [] r2 hr
    simp only [hm, if_true, pure, Except.pure, Except.ok.injEq, Prod.mk.injEq, true_and] at h
    refine ⟨r2.reverse, ?_, ?_⟩
    · rw [← h]
      simp [g_value_get_boxed, g_value_take_boxed, G_VALUE_HOLDS, g_type_is_a, hd,
        G_TYPE_FUNDAMENTAL]
    · simp only [List.length_reverse, List.length_cons, hl, List.length_nil]
      omega

/-- C11 (code defect). The host list `(1 2 3)` goes into a list slot with 32-bit
integer elements.  The loop of `scm_list_to_value` converts the current element only
while another element follows it, so the last element is never converted: the C list
has the two nodes 1 and 2, and C→host of the slot gives the host list `(1 2)`.  The
same holds for the singly linked flavour, and the host list `(1)` becomes the C list
without nodes, which reads back as the empty host list. -/
theorem C11_list_round_trip_loses_last_element :
    scm_list_to_value (env_with_local G_TYPE_INT32) (scm_list [SCM.int 1, SCM.int 2, SCM.int 3])
        (list_meta G_TYPE_LIST G_TYPE_INT32) (g_value_init G_TYPE_LIST)
      = .ok (GIG_VALUE_OK,
          { g_type := G_TYPE_LIST, data := .boxed (.list [Ptr.addr 1, Ptr.addr 2]) }) ∧
    boxed_list_to_scm (env_with_local G_TYPE_INT32)
        { g_type := G_TYPE_LIST, data := .boxed (.list [Ptr.addr 1, Ptr.addr 2]) }
        (list_meta G_TYPE_LIST G_TYPE_INT32) SCM.undefined
      = .ok (GIG_VALUE_OK, scm_list [SCM.int 1, SCM.int 2]) ∧
    scm_list [SCM.int 1, SCM.int 2] ≠ scm_list [SCM.int 1, SCM.int 2, SCM.int 3] ∧
    scm_list_to_value (env_with_local G_TYPE_INT32) (scm_list [SCM.int 1, SCM.int 2, SCM.int 3])
        (list_meta G_TYPE_SLIST G_TYPE_INT32) (g_value_init G_TYPE_SLIST)
      = .ok (GIG_VALUE_OK,
          { g_type := G_TYPE_SLIST, data := .boxed (.slist [Ptr.addr 1, Ptr.addr 2]) }) ∧
    scm_list_to_value (env_with_local G_TYPE_INT32) (scm_list [SCM.int 1])
        (list_meta G_TYPE_LIST G_TYPE_INT32) (g_value_init G_TYPE_LIST)
      = .ok (GIG_VALUE_OK, { g_type := G_TYPE_LIST, data := .boxed (.list []) }) ∧
    boxed_list_to_scm (env_with_local G_TYPE_INT32)
        { g_type := G_TYPE_LIST, data := .boxed (.list []) }
        (list_meta G_TYPE_LIST G_TYPE_INT32) SCM.undefined
      = .ok (GIG_VALUE_OK, scm_list []) := by
  refine ⟨by rfl, by rfl, ?_, by rfl, by rfl, by rfl⟩
  intro h
  cases h

/-- C12 (code defect). A host list of one element goes into a list slot, of either
flavour, whose element kind is one of `int64`, `uint64`, `long`, `ulong`, `enum`,
`flags`, `float`, `double`: host→C returns ok, not invalid, and the slot holds the C
list without nodes, because the loop of `scm_list_to_value` does not run for a list of
one element.  A list of two elements is rejected with invalid.  A host value that is
not a proper list is rejected with wrong-type, and the empty host list gives ok and
leaves the slot with its null list. -/
theorem C12_single_element_list_not_invalid :
    (∀ k ∈ wide_list_element_kinds,
      scm_list_to_value sample_env (scm_list [SCM.int 7]) (list_meta G_TYPE_LIST k)
          (g_value_init G_TYPE_LIST)
        = .ok (GIG_VALUE_OK, { g_type := G_TYPE_LIST, data := .boxed (.list []) }) ∧
      scm_list_to_value sample_env (scm_list [SCM.int 7]) (list_meta G_TYPE_SLIST k)
          (g_value_init G_TYPE_SLIST)
        = .ok (GIG_VALUE_OK, { g_type := G_TYPE_SLIST, data := .boxed (.slist []) })) ∧
    (∀ k ∈ wide_list_element_kinds, ∀ f ∈ list_flavours,
      scm_list_to_value sample_env (scm_list [SCM.int 7, SCM.int 8]) (list_meta f k)
          (g_value_init f)
        = .ok (GIG_VALUE_INVALID, g_value_init f)) ∧
    (∀ k ∈ wide_list_element_kinds, ∀ f ∈ list_flavours,
      scm_list_to_value sample_env (SCM.pair (SCM.int 7) (SCM.int 8)) (list_meta f k)
          (g_value_init f)
        = .ok (GIG_VALUE_WRONG_TYPE, g_value_init f)) ∧
    (∀ k ∈ wide_list_element_kinds, ∀ f ∈ list_flavours,
      scm_list_to_value sample_env SCM_EOL (list_meta f k) (g_value_init f)
        = .ok (GIG_VALUE_OK, g_value_init f) ∧
      g_value_get_boxed (g_value_init f) = Boxed.null) := by
  refine ⟨?_, ?_, ?_, ?_⟩
  · intro k hk
    simp only [wide_list_element_kinds, List.mem_cons, List.mem_singleton, List.not_mem_nil,
      or_false] at hk
    rcases hk with rfl | rfl | rfl | rfl | rfl | rfl | rfl | rfl <;> exact ⟨by rfl, by rfl⟩
  · intro k hk f hf
    simp only [wide_list_element_kinds, list_flavours, List.mem_cons, List.mem_singleton,
      List.not_mem_nil, or_false] at hk hf
    rcases hf with rfl | rfl <;>
      rcases hk with rfl | rfl | rfl | rfl | rfl | rfl | rfl | rfl <;> rfl
  · intro k hk f hf
    simp only [wide_list_element_kinds, list_flavours, List.mem_cons, List.mem_singleton,
      List.not_mem_nil, or_false] at hk hf
    rcases hf with rfl | rfl <;>
      rcases hk with rfl | rfl | rfl | rfl | rfl | rfl | rfl | rfl <;> rfl
  · intro k hk f hf
    simp only [wide_list_element_kinds, list_flavours, List.mem_cons, List.mem_singleton,
      List.not_mem_nil, or_false] at hk hf
    rcases hf with rfl | rfl <;>
      rcases hk with rfl | rfl | rfl | rfl | rfl | rfl | rfl | rfl <;> exact ⟨by rfl, by rfl⟩

/-- C13 (code defect). The host string `ab` goes into an array slot with `unichar`
elements, pre-typed as an empty array.  The string path of `scm_array_to_value` stores
the code points through the buffer of the array without giving the array a size: the
array has no buffer, the store is an invalid memory access, and the call does not
return ok with an array of length 2.  Only the empty string is converted, to the empty
array, which reads back as the empty string.  The byte-buffer path of the same
function sizes the array: the eight bytes of the two code points give an array of
length 2, which reads back as the string `ab`.  A string into an array slot whose
elements are not `unichar` is rejected with wrong-type. -/
theorem C13_string_to_unichar_array_unsized :
    gig_value_preset_type (input_entry "text" unichar_array_meta) = .ok empty_array_slot ∧
    scm_array_to_value sample_env (SCM.string ['a', 'b']) unichar_array_meta empty_array_slot
      = .error Throw.abort ∧
    gig_scm_to_value_full sample_env (SCM.string ['a', 'b']) unichar_array_meta empty_array_slot
      = .error Throw.abort ∧
    scm_array_to_value sample_env (SCM.string []) unichar_array_meta empty_array_slot
      = .ok (GIG_VALUE_OK, empty_array_slot) ∧
    gig_value_to_scm_full sample_env empty_array_slot unichar_array_meta SCM.undefined
      = .ok (GIG_VALUE_OK, SCM.string []) ∧
    scm_array_to_value sample_env (SCM.bytevector [97, 0, 0, 0, 98, 0, 0, 0]) unichar_array_meta
        empty_array_slot
      = .ok (GIG_VALUE_OK, with_array empty_array_slot
          { element_size := 4, data := [Elem.raw [97, 0, 0, 0], Elem.raw [98, 0, 0, 0]] }) ∧
    gig_value_to_scm_full sample_env
        (with_array empty_array_slot
          { element_size := 4, data := [Elem.raw [97, 0, 0, 0], Elem.raw [98, 0, 0, 0]] })
        unichar_array_meta SCM.undefined
      = .ok (GIG_VALUE_OK, SCM.string ['a', 'b']) ∧
    scm_array_to_value sample_env (SCM.string ['a', 'b']) boolean_array_meta empty_array_slot
      = .ok (GIG_VALUE_WRONG_TYPE, empty_array_slot) := by
  exact ⟨by rfl, by rfl, by rfl, by rfl, by rfl, by rfl, by rfl, by rfl⟩

/-! ## Objects -/

/-- C15 (as stated, refuted). A slot of object kind that holds the C object pointer 64:
C→host returns unimplemented and does not write the destination, while an interface
slot with the same pointer returns ok with the wrapper of the Type Registry. -/
theorem C15_counterexample :
    gig_value_to_scm_full sample_env
        { g_type := GType.object_class 1, data := .object (Ptr.addr 64) }
        (leaf_meta (GType.object_class 1)) SCM.undefined
      = .ok (GIG_VALUE_UNIMPLEMENTED, SCM.undefined) ∧
    GIG_VALUE_UNIMPLEMENTED ≠ GIG_VALUE_OK ∧
    gig_value_to_scm_full sample_env
        { g_type := GType.interface_class 1 true, data := .object (Ptr.addr 64) }
        (leaf_meta (GType.interface_class 1 true)) SCM.undefined
      = .ok (GIG_VALUE_OK,
          sample_env.gig_type_transfer_object (GType.interface_class 1 true) (Ptr.addr 64)
            false) := by
  exact ⟨by rfl, by decide, by rfl⟩

/-- C15 (amended). For every slot of object kind and every typed value, the C→host
marshaller `gig_value_to_scm_full` returns unimplemented and leaves the destination as
it was, and `gig_value_to_scm_full_with_error` raises the misc-error of an
unimplemented conversion.  For every slot of interface kind it returns ok and yields
the wrapper that the Type Registry makes of the object pointer of the value, under the
gtype of the slot and with its transfer rule. -/
theorem C15_object_value_to_scm (E : Env) (src : GValue) (meta : GigTypeMeta) (dest : SCM) :
    (G_TYPE_FUNDAMENTAL meta.gtype = G_TYPE_OBJECT →
      gig_value_to_scm_full E src meta dest = .ok (GIG_VALUE_UNIMPLEMENTED, dest) ∧
      gig_value_to_scm_full_with_error E src meta dest
        = .error (Throw.misc_error
            "internal conversion error: conversion from ~S to ~S is unimplemented")) ∧
    (G_TYPE_FUNDAMENTAL meta.gtype = G_TYPE_INTERFACE →
      gig_value_to_scm_full E src meta dest
        = .ok (GIG_VALUE_OK,
            E.gig_type_transfer_object meta.gtype (g_value_get_object src)
              meta.is_transfer_ownership)) := by
  constructor
  · intro h
    have h1 : gig_value_to_scm_full E src meta dest = .ok (GIG_VALUE_UNIMPLEMENTED, dest) := by
      simp [gig_value_to_scm_full, h]
    refine ⟨h1, ?_⟩
    simp [gig_value_to_scm_full_with_error, h1, bind, Except.bind, throw, throwThe,
      MonadExceptOf.throw]
  · intro h
    simp [gig_value_to_scm_full, h, interface_value_to_scm]

/-- C15 (amended), at a concrete input: an object class and an interface with the C
object pointer 64. -/
theorem C15_object_value_to_scm_witness :
    (gig_value_to_scm_full sample_env
        { g_type := GType.object_class 1, data := .object (Ptr.addr 64) }
        (leaf_meta (GType.object_class 1)) SCM.undefined
      = .ok (GIG_VALUE_UNIMPLEMENTED, SCM.undefined) ∧
     gig_value_to_scm_full_with_error sample_env
        { g_type := GType.object_class 1, data := .object (Ptr.addr 64) }
        (leaf_meta (GType.object_class 1)) SCM.undefined
      = .error (Throw.misc_error
          "internal conversion error: conversion from ~S to ~S is unimplemented")) ∧
    gig_value_to_scm_full sample_env
        { g_type := GType.interface_class 1 true, data := .object (Ptr.addr 64) }
        (leaf_meta (GType.interface_class 1 true)) SCM.undefined
      = .ok (GIG_VALUE_OK,
          sample_env.gig_type_transfer_object (GType.interface_class 1 true)
            (g_value_get_object { g_type := GType.interface_class 1 true, data := .object (Ptr.addr 64) })
            false) :=
  ⟨(C15_object_value_to_scm sample_env
      { g_type := GType.object_class 1, data := .object (Ptr.addr 64) }
      (leaf_meta (GType.object_class 1)) SCM.undefined).1 rfl,
   (C15_object_value_to_scm sample_env
      { g_type := GType.interface_class 1 true, data := .object (Ptr.addr 64) }
      (leaf_meta (GType.interface_class 1 true)) SCM.undefined).2 rfl⟩

/-! ## Output arrays and unwrapped pointers -/

/-- C14 (code defect). `get_data` writes a buffer with the integers 10, 20, 30 through
its output array and the length 3 through the linked length argument.  The output
values that `set_value_types` makes are typed (`G_TYPE_ARRAY` with an empty container),
and `function_invoke` resolves the length only for a value without type: the variable
`size` keeps its initial 0 and `gig_arg2value` transfers no element, although the
resolved length is 3; the host receives the empty vector.  The same happens for an
array of the fixed size 3 and for a zero-terminated array.  When the same values
arrive without type, the same loop resolves the length in the three ways and transfers
three elements. -/
theorem C14_output_array_transfers_no_element :
    set_value_types length_array_out_amap
      = .ok (g_value_init G_TYPE_POINTER, [], [empty_array_slot, g_value_init G_TYPE_INT],
          g_value_init G_TYPE_VOID) ∧
    (function_invoke .LP64 length_array_out_amap sample_array_callee (g_value_init G_TYPE_POINTER)
        [] [empty_array_slot, g_value_init G_TYPE_INT] (g_value_init G_TYPE_VOID)).map
        (fun r => r.out_vals)
      = some [empty_array_slot, g_value_set_int (g_value_init G_TYPE_INT) 3] ∧
    (function_call sample_env length_array_out_amap
        (function_invoke .LP64 length_array_out_amap sample_array_callee) Ptr.null []).1
      = .ok (SCM.uvector UvecTag.s32 [], none) ∧
    (function_invoke .LP64 fixed_array_out_amap sample_array_callee (g_value_init G_TYPE_POINTER)
        [] [empty_array_slot] (g_value_init G_TYPE_VOID)).map (fun r => r.out_vals)
      = some [empty_array_slot] ∧
    (function_invoke .LP64 zero_terminated_array_out_amap sample_array_callee
        (g_value_init G_TYPE_POINTER) [] [empty_array_slot] (g_value_init G_TYPE_VOID)).map
        (fun r => r.out_vals)
      = some [empty_array_slot] ∧
    (function_invoke .LP64 length_array_out_amap sample_array_callee (g_value_init G_TYPE_POINTER)
        [] [G_VALUE_INIT, g_value_init G_TYPE_INT] (g_value_init G_TYPE_VOID)).map
        (fun r => r.out_vals)
      = some [with_array empty_array_slot { element_size := 4, data := sample_buffer.take 3 },
          g_value_set_int (g_value_init G_TYPE_INT) 3] ∧
    (function_invoke .LP64 fixed_array_out_amap sample_array_callee (g_value_init G_TYPE_POINTER)
        [] [G_VALUE_INIT] (g_value_init G_TYPE_VOID)).map (fun r => r.out_vals)
      = some [with_array empty_array_slot { element_size := 4, data := sample_buffer.take 3 }] ∧
    (function_invoke .LP64 zero_terminated_array_out_amap sample_array_callee
        (g_value_init G_TYPE_POINTER) [] [G_VALUE_INIT] (g_value_init G_TYPE_VOID)).map
        (fun r => r.out_vals)
      = some [with_array empty_array_slot { element_size := 4, data := sample_buffer.take 3 }] := by
  exact ⟨by rfl, by rfl, by rfl, by rfl, by rfl, by rfl, by rfl, by rfl⟩

/-- C16 (code defect). The registry knows the host object 7 only; the host integer 5
unwraps to the null pointer.  As the instance of a method, 5 does not make the call
fail: `function_binding` hands the null pointer to `function_call`, `function_invoke`
then passes no instance at all, and the C function runs with 0 arguments where the
host object 7 gives it 1.  Into an opaque boxed slot, 5 goes as the null pointer and
the C function runs with a null first argument.  Only the object slot rejects 5 with
wrong-type before the C function is invoked. -/
theorem C16_null_unwrap_reaches_callee :
    registry_env.gig_type_peek_object (SCM.int 5) = Ptr.null ∧
    scm_is_false (SCM.int 5) = false ∧
    function_binding registry_env method_amap true
        (function_invoke .LP64 method_amap count_args_callee) (scm_list [SCM.object 7])
      = (.ok (SCM.int 1), [Event.invoke]) ∧
    function_binding registry_env method_amap true
        (function_invoke .LP64 method_amap count_args_callee) (scm_list [SCM.int 5])
      = (.ok (SCM.int 0), [Event.invoke]) ∧
    function_invoke_in_args method_amap
        (g_value_set_pointer (g_value_init G_TYPE_POINTER) Ptr.null) []
      = .ok [] ∧
    scm_boxed_to_value registry_env (SCM.int 5) (leaf_meta (GType.boxed_class 1))
        (g_value_init (GType.boxed_class 1))
      = .ok (GIG_VALUE_OK, g_value_init (GType.boxed_class 1)) ∧
    function_binding registry_env (one_input_amap (leaf_meta (GType.boxed_class 1))) false
        (function_invoke .LP64 (one_input_amap (leaf_meta (GType.boxed_class 1)))
          null_probe_callee)
        (scm_list [SCM.int 5])
      = (.ok (SCM.int 1), [Event.marshal 0, Event.invoke]) ∧
    function_binding registry_env (one_input_amap (leaf_meta (GType.boxed_class 1))) false
        (function_invoke .LP64 (one_input_amap (leaf_meta (GType.boxed_class 1)))
          null_probe_callee)
        (scm_list [SCM.object 7])
      = (.ok (SCM.int 0), [Event.marshal 0, Event.invoke]) ∧
    function_binding registry_env (one_input_amap (leaf_meta (GType.object_class 1))) false
        (function_invoke .LP64 (one_input_amap (leaf_meta (GType.object_class 1)))
          null_probe_callee)
        (scm_list [SCM.int 5])
      = (.error (CallThrow.raised (Throw.wrong_type_arg 0)), [Event.marshal 0]) := by
  exact ⟨by rfl, by rfl, by rfl, by rfl, by rfl, by rfl, by rfl, by rfl, by rfl⟩

/-! ## The callback cache -/

/-- A procedure is identical to itself. -/
theorem scm_is_eq_procedure_self (x : SCM) (h : scm_procedure_p x = true) :
    scm_is_eq_procedure x x = true := by
  cases x <;> simp_all [scm_procedure_p, scm_is_eq_procedure]

/-- Two values that `scm_is_eq_procedure` identifies are equal. -/
theorem scm_is_eq_procedure_eq (x y : SCM) (h : scm_is_eq_procedure x y = true) : x = y := by
  cases x <;> cases y <;> simp_all [scm_is_eq_procedure]

/-- The record that `gir_callback_new` builds holds the procedure, the callback info
and the executable address it was given. -/
theorem gir_callback_new_record (D : DataModel) (ffi : FfiAnswers) (T : GICallbackInfo)
    (P : SCM) (gcb : GirCallback) (h : gir_callback_new D ffi T P = .ok (some gcb)) :
    gcb.s_func = P ∧ gcb.callback_info = T ∧ gcb.callback_ptr = ffi.callback_ptr := by
  unfold gir_callback_new at h
  split_ifs at h
  · cases h
  · cases h
  · obtain ⟨a, _, h⟩ := except_bind_ok _ _ _ h
    obtain ⟨b, _, h⟩ := except_bind_ok _ _ _ h
    cases h
  · obtain ⟨a, _, h⟩ := except_bind_ok _ _ _ h
    obtain ⟨b, _, h⟩ := except_bind_ok _ _ _ h
    cases h
  · obtain ⟨a, _, h⟩ := except_bind_ok _ _ _ h
    obtain ⟨b, _, h⟩ := except_bind_ok _ _ _ h
    simp only [pure, Except.pure, Except.ok.injEq, Option.some.injEq] at h
    subst h
    exact ⟨rfl, rfl, rfl⟩

/-- A record that the lookup finds is in the cache, for the procedure looked up, with
the info type looked up. -/
theorem callback_list_lookup_some (T : GICallbackInfo) (P : SCM) (gcb : GirCallback) :
    ∀ l : List GirCallback, callback_list_lookup T P l = some gcb →
      gcb ∈ l ∧ gcb.s_func = P ∧ T.info_type = gcb.callback_info.info_type := by
  intro l
  induction l with
  | nil => intro h; simp [callback_list_lookup] at h
  | cons x xs ih =>
    intro h
    unfold callback_list_lookup at h
    split_ifs at h with h1 h2
    · simp only [Option.some.injEq] at h
      subst h
      exact ⟨List.mem_cons_self _ _, scm_is_eq_procedure_eq _ _ h1, h2⟩
    · obtain ⟨m, e⟩ := ih h
      exact ⟨List.mem_cons_of_mem _ m, e⟩
    · obtain ⟨m, e⟩ := ih h
      exact ⟨List.mem_cons_of_mem _ m, e⟩

/-- The two copies of the lookup loop find the same record. -/
theorem gi_callback_list_lookup_eq (T : GICallbackInfo) (P : SCM) :
    ∀ l : List GirCallback, gi.callback_list_lookup T P l = callback_list_lookup T P l := by
  intro l
  induction l with
  | nil => rfl
  | cons x xs ih =>
    unfold gi.callback_list_lookup callback_list_lookup
    by_cases h1 : scm_is_eq_procedure x.s_func P = true <;>
      by_cases h2 : T.info_type = x.callback_info.info_type <;> simp [h1, h2, ih]

/-- The two copies of `gir_callback_get_ptr` agree. -/
theorem gi_gir_callback_get_ptr_eq (D : DataModel) (ffi : FfiAnswers) (T : GICallbackInfo)
    (P : SCM) (cache : List GirCallback) :
    gi.gir_callback_get_ptr D ffi T P cache = gir_callback_get_ptr D ffi T P cache := by
  unfold gi.gir_callback_get_ptr gir_callback_get_ptr
  rw [gi_callback_list_lookup_eq]

/-- The cache after `gir_callback_get_ptr` is the cache of before, or one record that
`gir_callback_new` built in front of it; and a call that returned a pointer is
repeated, whatever libffi would answer, with the same pointer and without change of
the cache. -/
theorem gir_callback_get_ptr_idempotent (D : DataModel) (ffi ffi2 : FfiAnswers)
    (T : GICallbackInfo) (P : SCM) (cache : List GirCallback) :
    ((gir_callback_get_ptr D ffi T P cache).2 = cache ∨
      ∃ gcb, (gir_callback_get_ptr D ffi T P cache).2 = gcb :: cache) ∧
    (∀ p, (gir_callback_get_ptr D ffi T P cache).1 = .ok p →
      gir_callback_get_ptr D ffi2 T P (gir_callback_get_ptr D ffi T P cache).2
        = (.ok p, (gir_callback_get_ptr D ffi T P cache).2)) := by
  by_cases hp : scm_procedure_p P = true
  · cases hl : callback_list_lookup T P cache with
    | some gcb =>
      have e : ∀ f, gir_callback_get_ptr D f T P cache = (.ok gcb.callback_ptr, cache) := by
        intro f
        simp [gir_callback_get_ptr, hp, hl]
      rw [e ffi]
      refine ⟨Or.inl rfl, ?_⟩
      intro p h
      simp only [Except.ok.injEq] at h
      rw [e ffi2, h]
    | none =>
      cases hn : gir_callback_new D ffi T P with
      | error t =>
        have e : gir_callback_get_ptr D ffi T P cache = (.error t, cache) := by
          simp [gir_callback_get_ptr, hp, hl, hn]
        rw [e]
        exact ⟨Or.inl rfl, fun p h => by cases h⟩
      | ok r =>
        cases r with
        | none =>
          have e : gir_callback_get_ptr D ffi T P cache = (.error .abort, cache) := by
            simp [gir_callback_get_ptr, hp, hl, hn]
          rw [e]
          exact ⟨Or.inl rfl, fun p h => by cases h⟩
        | some gcb =>
          have e : gir_callback_get_ptr D ffi T P cache
              = (.ok gcb.callback_ptr, gcb :: cache) := by
            simp [gir_callback_get_ptr, hp, hl, hn]
          rw [e]
          refine ⟨Or.inr ⟨gcb, rfl⟩, ?_⟩
          intro p h
          simp only [Except.ok.injEq] at h
          obtain ⟨h1, h2, _⟩ := gir_callback_new_record D ffi T P gcb hn
          have hs : scm_is_eq_procedure gcb.s_func P = true := by
            rw [h1]; exact scm_is_eq_procedure_self P hp
          have hk : callback_list_lookup T P (gcb :: cache) = some gcb := by
            simp [callback_list_lookup, hs, h2]
          simp [gir_callback_get_ptr, hp, hk, h]
  · have hp2 : scm_procedure_p P = false := by
      cases h : scm_procedure_p P <;> simp_all
    have e : gir_callback_get_ptr D ffi T P cache = (.error .abort, cache) := by
      simp [gir_callback_get_ptr, hp2]
    rw [e]
    exact ⟨Or.inl rfl, fun p h => by cases h⟩

/-- C17. For every cache, every callback type `T` and every host value `P`:
`gir_callback_get_ptr (T, P)` leaves the cache as it was or puts one record in front
of it; and when it has returned a pointer, a second call `gir_callback_get_ptr (T, P)`
returns the same pointer and leaves the cache unchanged, whatever libffi would answer
to it.  This holds for the copy of the function in `gir_callback.c` and for the one in
`gi/gir_callback.c`. -/
theorem C17_callback_get_ptr_cached (D : DataModel) (ffi ffi2 : FfiAnswers)
    (T : GICallbackInfo) (P : SCM) (cache : List GirCallback) :
    (((gir_callback_get_ptr D ffi T P cache).2 = cache ∨
        ∃ gcb, (gir_callback_get_ptr D ffi T P cache).2 = gcb :: cache) ∧
      (∀ p, (gir_callback_get_ptr D ffi T P cache).1 = .ok p →
        gir_callback_get_ptr D ffi2 T P (gir_callback_get_ptr D ffi T P cache).2
          = (.ok p, (gir_callback_get_ptr D ffi T P cache).2))) ∧
    (((gi.gir_callback_get_ptr D ffi T P cache).2 = cache ∨
        ∃ gcb, (gi.gir_callback_get_ptr D ffi T P cache).2 = gcb :: cache) ∧
      (∀ p, (gi.gir_callback_get_ptr D ffi T P cache).1 = .ok p →
        gi.gir_callback_get_ptr D ffi2 T P (gi.gir_callback_get_ptr D ffi T P cache).2
          = (.ok p, (gi.gir_callback_get_ptr D ffi T P cache).2))) := by
  refine ⟨gir_callback_get_ptr_idempotent D ffi ffi2 T P cache, ?_⟩
  simp only [gi_gir_callback_get_ptr_eq]
  exact gir_callback_get_ptr_idempotent D ffi ffi2 T P cache

/-- C17, at a concrete input: the host procedure 1 is registered twice for the callback
type `gint32 (*) (gint32)` in the empty cache; the second call returns the pointer of
the first one although libffi would give another address. -/
theorem C17_callback_get_ptr_cached_witness :
    (gir_callback_get_ptr .LP64 (ffi_answers 4096 8192) int_callback_info (SCM.procedure 1) []).1
      = .ok (Ptr.addr 8192) ∧
    gir_callback_get_ptr .LP64 (ffi_answers 4100 8200) int_callback_info (SCM.procedure 1)
        (gir_callback_get_ptr .LP64 (ffi_answers 4096 8192) int_callback_info
          (SCM.procedure 1) []).2
      = (.ok (Ptr.addr 8192),
          (gir_callback_get_ptr .LP64 (ffi_answers 4096 8192) int_callback_info
            (SCM.procedure 1) []).2) :=
  ⟨rfl,
   (C17_callback_get_ptr_cached .LP64 (ffi_answers 4096 8192) (ffi_answers 4100 8200)
      int_callback_info (SCM.procedure 1) []).1.2 (Ptr.addr 8192) rfl⟩

/-- One call of `gir_callback_get_ptr` that returns keeps the link between the cache
and the returns: every record was created by a call for its procedure that returned
its pointer, and every pointer returned for a procedure is the pointer of a record of
this procedure. -/
theorem gir_callback_get_ptr_keeps_link (D : DataModel) (r : CallbackRequest)
    (cache cache1 : List GirCallback) (log : List CallbackReturn) (p : Ptr) (e0 : CallbackReturn)
    (h : gir_callback_get_ptr D r.ffi r.cb_info r.s_func cache = (.ok p, cache1))
    (hs0 : e0.s_func = r.s_func) (hp0 : e0.callback_ptr = p)
    (hc0 : e0.created = (callback_list_lookup r.cb_info r.s_func cache).isNone)
    (h1 : ∀ gcb ∈ cache, ∃ e ∈ log,
      e.created = true ∧ e.s_func = gcb.s_func ∧ e.callback_ptr = gcb.callback_ptr)
    (h2 : ∀ e ∈ log, ∃ gcb ∈ cache, gcb.s_func = e.s_func ∧ gcb.callback_ptr = e.callback_ptr) :
    (∀ gcb ∈ cache1, ∃ e ∈ e0 :: log,
      e.created = true ∧ e.s_func = gcb.s_func ∧ e.callback_ptr = gcb.callback_ptr) ∧
    (∀ e ∈ e0 :: log,
      ∃ gcb ∈ cache1, gcb.s_func = e.s_func ∧ gcb.callback_ptr = e.callback_ptr) ∧
    (cache1 = cache ∨ ∃ gcb, cache1 = gcb :: cache) := by
  unfold gir_callback_get_ptr at h
  split_ifs at h with hp
  · cases h
  · cases hl : callback_list_lookup r.cb_info r.s_func cache with
    | some gcb =>
      simp only [hl, Prod.mk.injEq, Except.ok.injEq] at h
      obtain ⟨hp1, hc⟩ := h
      subst hc
      obtain ⟨hm, hs, _⟩ := callback_list_lookup_some _ _ _ _ hl
      refine ⟨?_, ?_, Or.inl rfl⟩
      · intro g hg
        obtain ⟨e, he, hh⟩ := h1 g hg
        exact ⟨e, List.mem_cons_of_mem _ he, hh⟩
      · intro e he
        rcases List.mem_cons.mp he with rfl | he
        · exact ⟨gcb, hm, by rw [hs, hs0], by rw [hp1, hp0]⟩
        · exact h2 e he
    | none =>
      simp only [hl] at h
      cases hn : gir_callback_new D r.ffi r.cb_info r.s_func with
      | error t => simp [hn] at h
      | ok o =>
        cases o with
        | none => simp [hn] at h
        | some gcb =>
          simp only [hn, Prod.mk.injEq, Except.ok.injEq] at h
          obtain ⟨hp1, hc⟩ := h
          subst hc
          obtain ⟨hs, _, _⟩ := gir_callback_new_record _ _ _ _ _ hn
          refine ⟨?_, ?_, Or.inr ⟨gcb, rfl⟩⟩
          · intro g hg
            rcases List.mem_cons.mp hg with rfl | hg
            · refine ⟨e0, List.mem_cons_self _ _, ?_, ?_, ?_⟩
              · rw [hc0, hl]; rfl
              · rw [hs0, hs]
              · rw [hp0, hp1]
            · obtain ⟨e, he, hh⟩ := h1 g hg
              exact ⟨e, List.mem_cons_of_mem _ he, hh⟩
          · intro e he
            rcases List.mem_cons.mp he with rfl | he
            · exact ⟨gcb, List.mem_cons_self _ _, by rw [hs, hs0], by rw [hp1, hp0]⟩
            · obtain ⟨g, hg, hh⟩ := h2 e he
              exact ⟨g, List.mem_cons_of_mem _ hg, hh⟩

/-- A call of `gir_callback_get_ptr` that does not return a pointer leaves the cache as
it was. -/
theorem gir_callback_get_ptr_error (D : DataModel) (ffi : FfiAnswers) (T : GICallbackInfo)
    (P : SCM) (cache cache1 : List GirCallback) (t : Throw)
    (h : gir_callback_get_ptr D ffi T P cache = (.error t, cache1)) : cache1 = cache := by
  unfold gir_callback_get_ptr at h
  split_ifs at h with hp
  · simp only [Prod.mk.injEq] at h
    exact h.2.symm
  · cases hl : callback_list_lookup T P cache with
    | some gcb => simp [hl] at h
    | none =>
      simp only [hl] at h
      cases hn : gir_callback_new D ffi T P with
      | error t1 =>
        simp only [hn, Prod.mk.injEq] at h
        exact h.2.symm
      | ok o =>
        cases o with
        | none =>
          simp only [hn, Prod.mk.injEq] at h
          exact h.2.symm
        | some gcb => simp [hn] at h

/-- A history of calls keeps the link between the cache and the returns, and the cache
of before is the tail of the cache of after: no record is removed or changed. -/
theorem run_requests_keeps_link (D : DataModel) :
    ∀ (reqs : List CallbackRequest) (cache : List GirCallback) (log : List CallbackReturn),
      (∀ gcb ∈ cache, ∃ e ∈ log,
        e.created = true ∧ e.s_func = gcb.s_func ∧ e.callback_ptr = gcb.callback_ptr) →
      (∀ e ∈ log, ∃ gcb ∈ cache, gcb.s_func = e.s_func ∧ gcb.callback_ptr = e.callback_ptr) →
      (∀ gcb ∈ (run_requests D reqs (cache, log)).1, ∃ e ∈ (run_requests D reqs (cache, log)).2,
        e.created = true ∧ e.s_func = gcb.s_func ∧ e.callback_ptr = gcb.callback_ptr) ∧
      (∀ e ∈ (run_requests D reqs (cache, log)).2, ∃ gcb ∈ (run_requests D reqs (cache, log)).1,
        gcb.s_func = e.s_func ∧ gcb.callback_ptr = e.callback_ptr) ∧
      (∃ pre, (run_requests D reqs (cache, log)).1 = pre ++ cache) := by
  intro reqs
  induction reqs with
  | nil =>
    intro cache log h1 h2
    exact ⟨h1, h2, [], rfl⟩
  | cons r rest ih =>
    intro cache log h1 h2
    cases h : gir_callback_get_ptr D r.ffi r.cb_info r.s_func cache with
    | mk res cache1 =>
      cases res with
      | ok p =>
        have e : run_requests D (r :: rest) (cache, log)
            = run_requests D rest (cache1,
                { s_func := r.s_func, callback_ptr := p,
                  created := (callback_list_lookup r.cb_info r.s_func cache).isNone } :: log) := by
          simp only [run_requests, h]
        rw [e]
        obtain ⟨k1, k2, k3⟩ := gir_callback_get_ptr_keeps_link D r cache cache1 log p
          { s_func := r.s_func, callback_ptr := p,
            created := (callback_list_lookup r.cb_info r.s_func cache).isNone }
          h rfl rfl rfl h1 h2
        obtain ⟨j1, j2, pre, j3⟩ := ih cache1 _ k1 k2
        refine ⟨j1, j2, ?_⟩
        rcases k3 with rfl | ⟨gcb, rfl⟩
        · exact ⟨pre, j3⟩
        · exact ⟨pre ++ [gcb], by rw [j3]; simp⟩
      | error t =>
        have hc := gir_callback_get_ptr_error D r.ffi r.cb_info r.s_func cache cache1 t h
        subst hc
        cases t with
        | abort =>
          have e : run_requests D (r :: rest) (cache1, log) = (cache1, log) := by
            simp only [run_requests, h]
          rw [e]
          exact ⟨h1, h2, [], rfl⟩
        | wrong_type_arg pos =>
          have e : run_requests D (r :: rest) (cache1, log) = run_requests D rest (cache1, log) := by
            simp only [run_requests, h]
          rw [e]
          exact ih cache1 log h1 h2
        | out_of_range =>
          have e : run_requests D (r :: rest) (cache1, log) = run_requests D rest (cache1, log) := by
            simp only [run_requests, h]
          rw [e]
          exact ih cache1 log h1 h2
        | misc_error msg =>
          have e : run_requests D (r :: rest) (cache1, log) = run_requests D rest (cache1, log) := by
            simp only [run_requests, h]
          rw [e]
          exact ih cache1 log h1 h2

/-- The cache holds a record of the procedure `n` exactly when
`is-registered-callback?` answers true, and then
`get-registered-callback-closure-pointer` answers the pointer of such a record;
otherwise both answer false. -/
theorem registered_callback_answers (cache : List GirCallback) (n : Nat) :
    ((∃ gcb ∈ cache, gcb.s_func = SCM.procedure n) →
      scm_is_registered_callback_p (SCM.procedure n) cache = .ok SCM_BOOL_T ∧
      ∃ gcb ∈ cache, gcb.s_func = SCM.procedure n ∧
        scm_get_registered_callback_closure_pointer (SCM.procedure n) cache
          = .ok (SCM.pointer gcb.callback_ptr)) ∧
    ((¬ ∃ gcb ∈ cache, gcb.s_func = SCM.procedure n) →
      scm_is_registered_callback_p (SCM.procedure n) cache = .ok SCM_BOOL_F ∧
      scm_get_registered_callback_closure_pointer (SCM.procedure n) cache = .ok SCM_BOOL_F) := by
  constructor
  · rintro ⟨gcb, hm, hs⟩
    have ha : cache.any (fun g => scm_is_eq_procedure g.s_func (SCM.procedure n)) = true := by
      rw [List.any_eq_true]
      exact ⟨gcb, hm, by rw [hs]; simp [scm_is_eq_procedure]⟩
    refine ⟨by simp [scm_is_registered_callback_p, scm_procedure_p, ha], ?_⟩
    cases hf : cache.find? (fun g => scm_is_eq_procedure g.s_func (SCM.procedure n)) with
    | none =>
      rw [List.find?_eq_none] at hf
      exact absurd (by rw [hs]; simp [scm_is_eq_procedure]) (hf gcb hm)
    | some g =>
      refine ⟨g, List.mem_of_find?_eq_some hf, ?_, ?_⟩
      · have hq := List.find?_some hf
        exact scm_is_eq_procedure_eq _ _ hq
      · simp [scm_get_registered_callback_closure_pointer, scm_procedure_p, hf]
  · intro hn
    have ha : cache.any (fun g => scm_is_eq_procedure g.s_func (SCM.procedure n)) = false := by
      cases h : cache.any (fun g => scm_is_eq_procedure g.s_func (SCM.procedure n)) with
      | false => rfl
      | true =>
        rw [List.any_eq_true] at h
        obtain ⟨g, hg, he⟩ := h
        exact absurd ⟨g, hg, scm_is_eq_procedure_eq _ _ he⟩ hn
    have hf : cache.find? (fun g => scm_is_eq_procedure g.s_func (SCM.procedure n)) = none := by
      rw [List.find?_eq_none]
      intro g hg he
      exact hn ⟨g, hg, scm_is_eq_procedure_eq _ _ he⟩
    exact ⟨by simp [scm_is_registered_callback_p, scm_procedure_p, ha],
      by simp [scm_get_registered_callback_closure_pointer, scm_procedure_p, hf]⟩

/-- C18. In every state of the callback cache that a history of calls of
`gir_callback_get_ptr` reaches from the empty cache, and for every host procedure `P`:
`is-registered-callback?` answers true or false, and true if and only if an earlier
call `gir_callback_get_ptr (_, P)` created a record; the closure pointer query answers
false exactly when `is-registered-callback?` answers false, and otherwise a pointer
that an earlier call `gir_callback_get_ptr (_, P)` returned; and after any further
history the cache of before is the tail of the cache, so that a procedure once
registered stays registered. -/
theorem C18_callback_cache_invariants (D : DataModel) (history more : List CallbackRequest)
    (n : Nat) :
    (scm_is_registered_callback_p (SCM.procedure n) (run_requests D history ([], [])).1
        = .ok SCM_BOOL_T ∨
      scm_is_registered_callback_p (SCM.procedure n) (run_requests D history ([], [])).1
        = .ok SCM_BOOL_F) ∧
    (scm_is_registered_callback_p (SCM.procedure n) (run_requests D history ([], [])).1
        = .ok SCM_BOOL_T ↔
      ∃ e ∈ (run_requests D history ([], [])).2,
        e.created = true ∧ e.s_func = SCM.procedure n) ∧
    (scm_get_registered_callback_closure_pointer (SCM.procedure n)
        (run_requests D history ([], [])).1 = .ok SCM_BOOL_F ↔
      scm_is_registered_callback_p (SCM.procedure n) (run_requests D history ([], [])).1
        = .ok SCM_BOOL_F) ∧
    (scm_is_registered_callback_p (SCM.procedure n) (run_requests D history ([], [])).1
        = .ok SCM_BOOL_T →
      ∃ e ∈ (run_requests D history ([], [])).2, e.s_func = SCM.procedure n ∧
        scm_get_registered_callback_closure_pointer (SCM.procedure n)
          (run_requests D history ([], [])).1 = .ok (SCM.pointer e.callback_ptr)) ∧
    (∃ pre, (run_requests D more (run_requests D history ([], []))).1
        = pre ++ (run_requests D history ([], [])).1) ∧
    (scm_is_registered_callback_p (SCM.procedure n) (run_requests D history ([], [])).1
        = .ok SCM_BOOL_T →
      scm_is_registered_callback_p (SCM.procedure n)
        (run_requests D more (run_requests D history ([], []))).1 = .ok SCM_BOOL_T) := by
  have key := run_requests_keeps_link D history [] []
    (fun g hg => absurd hg (List.not_mem_nil g)) (fun e he => absurd he (List.not_mem_nil e))
  revert key
  generalize run_requests D history ([], []) = S
  obtain ⟨cache, log⟩ := S
  rintro ⟨h1, h2, _⟩
  simp only at h1 h2 ⊢
  obtain ⟨_, _, pre, h3⟩ := run_requests_keeps_link D more cache log h1 h2
  have hne : (Except.ok SCM_BOOL_T : Except Throw SCM) ≠ .ok SCM_BOOL_F := by
    intro h
    cases h
  obtain ⟨hy, hno⟩ := registered_callback_answers cache n
  by_cases hex : ∃ gcb ∈ cache, gcb.s_func = SCM.procedure n
  · obtain ⟨hr, g, hg, hgs, hgp⟩ := hy hex
    obtain ⟨e, he, hc, hs, hp⟩ := h1 g hg
    refine ⟨Or.inl hr, ⟨fun _ => ⟨e, he, hc, by rw [hs, hgs]⟩, fun _ => hr⟩, ?_, ?_,
      ⟨pre, h3⟩, ?_⟩
    · rw [hgp, hr]
      constructor
      · intro h
        cases h
      · intro h
        exact absurd h hne
    · intro _
      exact ⟨e, he, by rw [hs, hgs], by rw [hgp, hp]⟩
    · intro _
      have hex2 : ∃ gcb ∈ (run_requests D more (cache, log)).1, gcb.s_func = SCM.procedure n := by
        rw [h3]
        exact ⟨g, List.mem_append_right _ hg, hgs⟩
      exact ((registered_callback_answers _ n).1 hex2).1
  · obtain ⟨hr, hp⟩ := hno hex
    refine ⟨Or.inr hr, ⟨fun h => ?_, fun h => ?_⟩, ?_, ?_, ⟨pre, h3⟩, ?_⟩
    · rw [hr] at h
      exact absurd h.symm hne
    · obtain ⟨e, he, _, hs⟩ := h
      obtain ⟨g, hg, hgs, _⟩ := h2 e he
      exact absurd ⟨g, hg, by rw [hgs, hs]⟩ hex
    · rw [hp, hr]
    · intro h
      rw [hr] at h
      exact absurd h.symm hne
    · intro h
      rw [hr] at h
      exact absurd h.symm hne

/-- C18, at a concrete history: the host procedure 1 is registered in the empty cache,
and stays registered after the host procedure 2 has been registered too. -/
theorem C18_callback_cache_invariants_witness :
    scm_is_registered_callback_p (SCM.procedure 1)
        (run_requests .LP64
          [{ cb_info := int_callback_info, s_func := SCM.procedure 1,
             ffi := ffi_answers 4096 8192 }] ([], [])).1
      = .ok SCM_BOOL_T ∧
    scm_is_registered_callback_p (SCM.procedure 1)
        (run_requests .LP64
          [{ cb_info := int_callback_info, s_func := SCM.procedure 2,
             ffi := ffi_answers 4100 8200 }]
          (run_requests .LP64
            [{ cb_info := int_callback_info, s_func := SCM.procedure 1,
               ffi := ffi_answers 4096 8192 }] ([], []))).1
      = .ok SCM_BOOL_T :=
  ⟨rfl,
   (C18_callback_cache_invariants .LP64
      [{ cb_info := int_callback_info, s_func := SCM.procedure 1, ffi := ffi_answers 4096 8192 }]
      [{ cb_info := int_callback_info, s_func := SCM.procedure 2, ffi := ffi_answers 4100 8200 }]
      1).2.2.2.2.2 rfl⟩

/-! ## The reverse trampoline -/

/-- In `gir_callback.c`, a condition that the host procedure raises is caught: the
trampoline returns to its C caller with 0 in the return slot, and the return value
marshaller has not run. -/
theorem callback_binding_catches (R : ReverseEnv) (cif : ffi_cif) (ffi_args : List AbiSlot)
    (gcb : GirCallback) (s_args : List SCM) (t : Throw)
    (ha : callback_binding_args R cif ffi_args gcb (List.range cif.nargs) = .ok s_args)
    (hr : R.scm_apply_0 gcb.s_func s_args = .error t) (ht : t ≠ Throw.abort) :
    callback_binding R cif ffi_args gcb
      = .ok { ret := 0, handler_ran := true, return_marshalled := false } := by
  have hc : scm_c_catch_call R gcb.s_func s_args = .ok (SCM_BOOL_F, true) := by
    unfold scm_c_catch_call
    rw [hr]
    cases t <;> first | rfl | exact absurd rfl ht
  simp [callback_binding, ha, hc, bind, Except.bind, scm_is_false, SCM_BOOL_F, pure, Except.pure]

/-- In `gi/gir_callback.c`, a condition that the host procedure raises leaves the
trampoline towards its C caller. -/
theorem gi_callback_binding_propagates (R : ReverseEnv) (cif : ffi_cif)
    (ffi_args : List AbiSlot) (gcb : GirCallback) (s_args : List SCM) (t : Throw)
    (ha : callback_binding_args R cif ffi_args gcb (List.range cif.nargs) = .ok s_args)
    (hr : R.scm_apply_0 gcb.s_func s_args = .error t) :
    gi.callback_binding R cif ffi_args gcb = .error t := by
  simp [gi.callback_binding, ha, hr, bind, Except.bind]

/-- C19 (code defect). The host procedure 2 raises a misc-error when C calls its
closure with the argument 41.  The trampoline of `gir_callback.c` catches the
condition, stores 0 into the return slot and does not run the return value
marshaller.  The trampoline of `gi/gir_callback.c` applies the procedure without a
catch frame: the condition leaves the trampoline into the C caller.  For the host
procedure 1, which returns, both trampolines store the marshalled return value. -/
theorem C19_gi_callback_binding_propagates :
    sample_reverse_env.scm_apply_0 (SCM.procedure 2) [SCM.int 0x7ffc1000]
      = .error (Throw.misc_error "boom") ∧
    callback_binding sample_reverse_env (int_callback_record 2).cif [slot_41]
        (int_callback_record 2)
      = .ok { ret := 0, handler_ran := true, return_marshalled := false } ∧
    gi.callback_binding sample_reverse_env (int_callback_record 2).cif [slot_41]
        (int_callback_record 2)
      = .error (Throw.misc_error "boom") ∧
    callback_binding sample_reverse_env (int_callback_record 1).cif [slot_41]
        (int_callback_record 1)
      = .ok { ret := 0x7ffc1001, handler_ran := false, return_marshalled := true } ∧
    gi.callback_binding sample_reverse_env (int_callback_record 1).cif [slot_41]
        (int_callback_record 1)
      = .ok { ret := 0x7ffc1001, handler_ran := false, return_marshalled := true } := by
  exact ⟨by rfl, by rfl, by rfl, by rfl, by rfl⟩

/-- For an integer or pointer FFI type, the `GIArgument` that `callback_binding` makes
depends on the address of the raw slot only, not on what the slot holds. -/
theorem callback_binding_giarg_ignores_contents (R : ReverseEnv) (t : ffi_type)
    (address : Nat) (c1 c2 : List Nat)
    (ht : t = ffi_type_pointer ∨ t ∈ integer_ffi_types) :
    callback_binding_giarg R t { address := address, contents := c1 }
      = callback_binding_giarg R t { address := address, contents := c2 } := by
  simp only [integer_ffi_types, List.mem_cons, List.mem_singleton, List.not_mem_nil,
    or_false] at ht
  rcases ht with rfl | rfl | rfl | rfl | rfl | rfl | rfl | rfl | rfl <;> rfl

/-- C20 (code defect). C calls a closure with the 32-bit integer 41, which libffi
stores in a raw slot at the address `0x7ffc1000`.  `callback_binding` converts the
pointer `ffi_args[i]` itself, not the integer it points to: the leaf value handed to
the marshaller is the address `0x7ffc1000`, where the contents of the slot are 41, and
the host procedure that adds one to its argument returns `0x7ffc1001`, not 42.  For
every integer FFI type the leaf value differs from the contents of the slot, and for a
pointer argument the leaf value is the address of the slot, not the pointer `0x5000`
stored in it.  The branch for `float` of the same function reads the contents of the
slot. -/
theorem C20_callback_leaf_value_is_slot_address :
    callback_binding_giarg sample_reverse_env ffi_type_sint32 slot_41
      = .ok (GIArgument.int 0x7ffc1000) ∧
    abi_slot_value .LP64 ffi_type_sint32 slot_41 = some (GIArgument.int 41) ∧
    (∀ t ∈ integer_ffi_types,
      (callback_binding_giarg sample_reverse_env t slot_41).toOption
        ≠ abi_slot_value .LP64 t slot_41) ∧
    callback_binding_giarg sample_reverse_env ffi_type_pointer slot_pointer
      = .ok (GIArgument.pointer (Ptr.addr 0x7ffc1000)) ∧
    abi_slot_value .LP64 ffi_type_pointer slot_pointer
      = some (GIArgument.pointer (Ptr.addr 0x5000)) ∧
    callback_binding sample_reverse_env (int_callback_record 1).cif [slot_41]
        (int_callback_record 1)
      = .ok { ret := 0x7ffc1001, handler_ran := false, return_marshalled := true } ∧
    (∀ R : ReverseEnv,
      callback_binding_giarg R ffi_type_float slot_41 = .ok (GIArgument.real (R.ieee_float 41))) := by
  refine ⟨by rfl, by rfl, ?_, by rfl, by rfl, by rfl, fun R => by rfl⟩
  intro t ht
  simp only [integer_ffi_types, List.mem_cons, List.mem_singleton, List.not_mem_nil,
    or_false] at ht
  rcases ht with rfl | rfl | rfl | rfl | rfl | rfl | rfl | rfl <;> decide

/-! ## The list and array defects for every input -/

/-- For every environment and every host list of one element, host→C into a list slot
returns ok with the C list without nodes: the loop of `scm_list_to_value` does not
run, whatever the element kind. -/
theorem scm_list_to_value_singleton (E : Env) (meta : GigTypeMeta) (x : SCM) (dest : GValue)
    (hm : meta.gtype = G_TYPE_LIST) :
    scm_list_to_value E (scm_list [x]) meta dest
      = .ok (GIG_VALUE_OK, g_value_take_boxed dest (.list [])) := by
  simp [scm_list_to_value, scm_list, scm_list_elements, scm_list_to_value_loop, hm, bind,
    Except.bind, pure, Except.pure]

/-- For every environment and every host list of two or more elements, host→C into a
list slot whose element kind is one of the eight wide kinds returns invalid and leaves
the slot as it was. -/
theorem scm_list_to_value_wide_kind (E : Env) (meta p0 : GigTypeMeta) (ps : List GigTypeMeta)
    (car next : SCM) (rest : List SCM) (dest : GValue) (hp : meta.params = p0 :: ps)
    (hk : G_TYPE_FUNDAMENTAL p0.gtype ∈ wide_list_element_kinds) :
    scm_list_to_value E (scm_list (car :: next :: rest)) meta dest
      = .ok (GIG_VALUE_INVALID, dest) := by
  have he : scm_list_to_value_element E p0 car = .ok (GIG_VALUE_INVALID, none) := by
    simp only [wide_list_element_kinds, List.mem_cons, List.mem_singleton, List.not_mem_nil,
      or_false] at hk
    unfold scm_list_to_value_element
    rcases hk with h | h | h | h | h | h | h | h <;> rw [h]
  unfold scm_list_to_value
  rw [scm_list_elements_scm_list]
  simp [scm_list_to_value_loop, GigTypeMeta.params0, hp, he, bind, Except.bind, pure,
    Except.pure]

/-- For every typed array container and every argument, `gig_arg2value` with the
length 0 leaves the container as it is. -/
theorem gig_arg2value_array_length_zero (D : DataModel) (val : GValue) (arr : GArray)
    (arg : GIArgument) (ht : val.g_type = G_TYPE_ARRAY) (hd : val.data = .boxed (.array arr)) :
    gig_arg2value D val arg 0 = .ok val := by
  simp [gig_arg2value, G_VALUE_TYPE, ht, G_TYPE_FUNDAMENTAL, g_value_get_boxed, G_VALUE_HOLDS,
    g_type_is_a, hd]

/-! ## The call interface of a callback: C21 and C22 -/

/-- C21: `type_info_to_ffi_type` gives the pointer descriptor to every type passed by
pointer, whatever its tag; for a type passed by value it gives void to void, the signed
int descriptor to boolean, the descriptor of the same width and signedness to each
fixed-width integer tag, float to float, double to double, the unsigned 32-bit
descriptor to unichar, the signed integer descriptor of pointer width to gtype, and for
an interface the signed int descriptor to an enumeration and the unsigned int
descriptor to flags. -/
theorem C21_type_info_to_ffi_type_descriptors (D : DataModel) (tag : GITypeTag)
    (iface : GIInfoType) :
    type_info_to_ffi_type D ⟨tag, true, iface⟩ = .ok ffi_type_pointer ∧
    type_info_to_ffi_type D ⟨GI_TYPE_TAG_VOID, false, iface⟩ = .ok ffi_type_void ∧
    type_info_to_ffi_type D ⟨GI_TYPE_TAG_BOOLEAN, false, iface⟩ = .ok ffi_type_sint ∧
    type_info_to_ffi_type D ⟨GI_TYPE_TAG_INT8, false, iface⟩ = .ok ffi_type_sint8 ∧
    type_info_to_ffi_type D ⟨GI_TYPE_TAG_UINT8, false, iface⟩ = .ok ffi_type_uint8 ∧
    type_info_to_ffi_type D ⟨GI_TYPE_TAG_INT16, false, iface⟩ = .ok ffi_type_sint16 ∧
    type_info_to_ffi_type D ⟨GI_TYPE_TAG_UINT16, false, iface⟩ = .ok ffi_type_uint16 ∧
    type_info_to_ffi_type D ⟨GI_TYPE_TAG_INT32, false, iface⟩ = .ok ffi_type_sint32 ∧
    type_info_to_ffi_type D ⟨GI_TYPE_TAG_UINT32, false, iface⟩ = .ok ffi_type_uint32 ∧
    type_info_to_ffi_type D ⟨GI_TYPE_TAG_INT64, false, iface⟩ = .ok ffi_type_sint64 ∧
    type_info_to_ffi_type D ⟨GI_TYPE_TAG_UINT64, false, iface⟩ = .ok ffi_type_uint64 ∧
    type_info_to_ffi_type D ⟨GI_TYPE_TAG_FLOAT, false, iface⟩ = .ok ffi_type_float ∧
    type_info_to_ffi_type D ⟨GI_TYPE_TAG_DOUBLE, false, iface⟩ = .ok ffi_type_double ∧
    type_info_to_ffi_type D ⟨GI_TYPE_TAG_UNICHAR, false, iface⟩ = .ok ffi_type_uint32 ∧
    type_info_to_ffi_type D ⟨GI_TYPE_TAG_GTYPE, false, iface⟩
      = .ok (if POINTER_BITS D = 32 then ffi_type_sint32 else ffi_type_sint64) ∧
    (POINTER_BITS D = 32 ∨ POINTER_BITS D = 64) ∧
    type_info_to_ffi_type D ⟨GI_TYPE_TAG_INTERFACE, false, GI_INFO_TYPE_ENUM⟩
      = .ok ffi_type_sint ∧
    type_info_to_ffi_type D ⟨GI_TYPE_TAG_INTERFACE, false, GI_INFO_TYPE_FLAGS⟩
      = .ok ffi_type_uint := by
  refine ⟨rfl, rfl, rfl, rfl, rfl, rfl, rfl, rfl, rfl, rfl, rfl, rfl, rfl, rfl, ?_, ?_, rfl, rfl⟩
  · cases D <;> rfl
  · cases D <;> decide

theorem type_info_to_ffi_type_rejects (D : DataModel) (tag : GITypeTag) (iface : GIInfoType)
    (htag : tag ∈ tags_without_ffi_type) :
    type_info_to_ffi_type D ⟨tag, false, iface⟩ = .error .abort := by
  simp only [tags_without_ffi_type, List.mem_cons, List.mem_singleton, List.not_mem_nil,
    or_false] at htag
  rcases htag with rfl | rfl | rfl | rfl | rfl | rfl | rfl <;> rfl

theorem callback_arg_types_ok (D : DataModel) (args : List GIArgInfo) (ts : List ffi_type)
    (h : callback_arg_types D args = .ok ts) :
    ∀ a ∈ args, ∃ t, type_info_to_ffi_type D a.type_info = .ok t := by
  induction args generalizing ts with
  | nil => intro a ha; cases ha
  | cons a0 rest ih =>
    intro a ha
    simp only [callback_arg_types] at h
    cases h0 : type_info_to_ffi_type D a0.type_info with
    | error e => rw [h0] at h; cases h
    | ok t0 =>
      rw [h0] at h
      cases h1 : callback_arg_types D rest with
      | error e => rw [h1] at h; cases h
      | ok ts1 =>
        rcases List.mem_cons.mp ha with rfl | hr
        · exact ⟨t0, h0⟩
        · exact ih ts1 h1 a hr

theorem gir_callback_new_types_ok (D : DataModel) (ffi : FfiAnswers)
    (callback_info : GICallbackInfo) (s_func : SCM) (gcb : GirCallback)
    (h : gir_callback_new D ffi callback_info s_func = .ok (some gcb)) :
    (∀ a ∈ callback_info.args, ∃ t, type_info_to_ffi_type D a.type_info = .ok t) ∧
    ∃ t, type_info_to_ffi_type D callback_info.return_type = .ok t := by
  unfold gir_callback_new at h
  split_ifs at h
  · cases h
  · cases h
  all_goals
    cases ha : callback_arg_types D callback_info.args with
    | error e => rw [ha] at h; cases h
    | ok ts =>
      rw [ha] at h
      cases hr : type_info_to_ffi_type D callback_info.return_type with
      | error e => rw [hr] at h; cases h
      | ok t => exact ⟨callback_arg_types_ok D _ ts ha, t, rfl⟩

/-- C22, as stated, fails: a UTF-8 string that the typelib marks as passed by pointer
gets the pointer descriptor, and a callback that takes it gets its call interface and
its Callback Record. -/
theorem C22_counterexample :
    type_info_to_ffi_type .LP64 (utf8_type_info true) = .ok ffi_type_pointer ∧
    gir_callback_new .LP64 (ffi_answers 4096 8192) (string_callback_info true) (.procedure 1)
      = .ok (some { callback_info := string_callback_info true, closure := Ptr.addr 4096,
                    cif := { nargs := 1, arg_types := [ffi_type_pointer],
                             rtype := ffi_type_sint32 },
                    s_func := .procedure 1, callback_ptr := Ptr.addr 8192 }) :=
  ⟨by rfl, by rfl⟩

/-- C22, amended: for a type that is not passed by pointer and whose tag is UTF-8,
filename, array, GList, GSList, GHash or error, `type_info_to_ffi_type` has no
descriptor and stops the process; `gir_callback_new` returns no Callback Record, so no
call interface, for a callback with such a type as an argument or as its return
type. -/
theorem C22_by_value_tags_rejected (D : DataModel) (tag : GITypeTag) (iface : GIInfoType)
    (ffi : FfiAnswers) (callback_info : GICallbackInfo) (s_func : SCM)
    (htag : tag ∈ tags_without_ffi_type)
    (huse : (∃ a ∈ callback_info.args, a.type_info = ⟨tag, false, iface⟩) ∨
      callback_info.return_type = ⟨tag, false, iface⟩) :
    type_info_to_ffi_type D ⟨tag, false, iface⟩ = .error .abort ∧
    ∀ gcb, gir_callback_new D ffi callback_info s_func ≠ .ok (some gcb) := by
  have hrej := type_info_to_ffi_type_rejects D tag iface htag
  refine ⟨hrej, ?_⟩
  intro gcb h
  obtain ⟨hargs, t, hret⟩ := gir_callback_new_types_ok D ffi callback_info s_func gcb h
  rcases huse with ⟨a, ha, hat⟩ | hr
  · obtain ⟨t1, ht1⟩ := hargs a ha
    rw [hat, hrej] at ht1
    cases ht1
  · rw [hr, hrej] at hret
    cases hret

theorem C22_by_value_tags_rejected_witness :
    type_info_to_ffi_type .LP64 ⟨GI_TYPE_TAG_UTF8, false, GI_INFO_TYPE_INVALID⟩ = .error .abort ∧
    ∀ gcb, gir_callback_new .LP64 (ffi_answers 4096 8192) (string_callback_info false)
      (.procedure 1) ≠ .ok (some gcb) :=
  C22_by_value_tags_rejected .LP64 GI_TYPE_TAG_UTF8 GI_INFO_TYPE_INVALID (ffi_answers 4096 8192)
    (string_callback_info false) (.procedure 1) (by decide)
    (Or.inl ⟨{ type_info := utf8_type_info false }, by simp [string_callback_info], rfl⟩)

/-! ## The methods of a host procedure: C23 -/

theorem g_ascii_tolower_islower (c : Char) (h : g_ascii_isupper c = true) :
    g_ascii_islower (g_ascii_tolower c) = true := by
  have h' : 65 ≤ c.toNat ∧ c.toNat ≤ 90 := by simpa [g_ascii_isupper] using h
  have hn : (Char.ofNat (c.toNat + 32)).toNat = c.toNat + 32 := by
    obtain ⟨h1, h2⟩ := h'
    generalize c.toNat = n at h1 h2
    interval_cases n <;> rfl
  simp only [g_ascii_tolower, h, if_true, g_ascii_islower, hn, decide_eq_true_eq]
  omega

theorem g_ascii_classes_disjoint (c : Char) :
    (g_ascii_islower c = true → g_ascii_isdigit c = false ∧ g_ascii_isupper c = false ∧
      c ≠ '_' ∧ c ≠ '-') ∧
    (g_ascii_isdigit c = true → g_ascii_islower c = false ∧ c ≠ '_' ∧ c ≠ '-') := by
  have hu : ('_' : Char).toNat = 95 := rfl
  have hh : ('-' : Char).toNat = 45 := rfl
  constructor
  · intro h
    have h' : 97 ≤ c.toNat ∧ c.toNat ≤ 122 := by simpa [g_ascii_islower] using h
    refine ⟨?_, ?_, ?_, ?_⟩
    · simp only [g_ascii_isdigit, decide_eq_false_iff_not]; omega
    · simp only [g_ascii_isupper, decide_eq_false_iff_not]; omega
    · rintro rfl; rw [hu] at h'; omega
    · rintro rfl; rw [hh] at h'; omega
  · intro h
    have h' : 48 ≤ c.toNat ∧ c.toNat ≤ 57 := by simpa [g_ascii_isdigit] using h
    refine ⟨?_, ?_, ?_⟩
    · simp only [g_ascii_islower, decide_eq_false_iff_not]; omega
    · rintro rfl; rw [hu] at h'; omega
    · rintro rfl; rw [hh] at h'; omega

/-- On C-style names the loop of `gname_to_scm_name` computes the described name, when
`was_lower` says whether the preceding input character was a lowercase letter. -/
theorem gname_to_scm_name_loop_described (gname : List Char) (was_lower : Bool)
    (previous : Option Char) (hw : was_lower = previous.any g_ascii_islower)
    (hc : ∀ c ∈ gname, is_gname_char c = true) :
    gname_to_scm_name_loop was_lower gname = described_scm_name previous gname := by
  induction gname generalizing was_lower previous with
  | nil => rfl
  | cons c rest ih =>
    have hrest : ∀ d ∈ rest, is_gname_char d = true := fun d hd => hc d (List.mem_cons_of_mem _ hd)
    have hcc : is_gname_char c = true := hc c (List.mem_cons_self _ _)
    rw [gname_to_scm_name_loop, described_scm_name]
    by_cases hl : g_ascii_islower c = true
    · rw [ih true (some c) (by simp [hl]) hrest]
      simp [hl]
    · have hl' : g_ascii_islower c = false := by simpa using hl
      by_cases hu : c = '_' ∨ c = '-'
      · have hd : g_ascii_isdigit c = false := by
          rcases hu with rfl | rfl <;> rfl
        rw [ih false (some c) (by simp [hl']) hrest]
        simp [hl', hu, hd]
      · by_cases hd : g_ascii_isdigit c = true
        · rw [ih false (some c) (by simp [hl']) hrest]
          simp [hl', hu, hd]
        · have hd' : g_ascii_isdigit c = false := by simpa using hd
          have hup : g_ascii_isupper c = true := by
            simp only [is_gname_char, hl', hd', Bool.or_eq_true, decide_eq_true_eq,
              Bool.false_or, Bool.or_false] at hcc
            rcases hcc with (h | h) | h
            · exact h
            · exact absurd (Or.inl h) hu
            · exact absurd (Or.inr h) hu
          rw [ih false (some c) (by simp [hl']) hrest]
          cases was_lower <;> simp [hl', hu, hd', hup, ← hw]

/-- Every character that `gname_to_scm_name` writes is a lowercase letter, a digit or
a hyphen, whatever the input. -/
theorem gname_to_scm_name_loop_alphabet (gname : List Char) (was_lower : Bool) :
    ∀ c ∈ gname_to_scm_name_loop was_lower gname,
      g_ascii_islower c = true ∨ g_ascii_isdigit c = true ∨ c = '-' := by
  induction gname generalizing was_lower with
  | nil => intro c hc; simp [gname_to_scm_name_loop] at hc
  | cons a rest ih =>
    intro c hc
    rw [gname_to_scm_name_loop] at hc
    split_ifs at hc with h1 h2 h3 h4 h5
    · rcases List.mem_cons.mp hc with rfl | h
      · exact Or.inl h1
      · exact ih _ c h
    · rcases List.mem_cons.mp hc with rfl | h
      · exact Or.inr (Or.inr rfl)
      · exact ih _ c h
    · rcases List.mem_cons.mp hc with rfl | h
      · exact Or.inr (Or.inl h3)
      · exact ih _ c h
    · rcases List.mem_cons.mp hc with rfl | h
      · exact Or.inr (Or.inr rfl)
      · rcases List.mem_cons.mp h with rfl | h
        · exact Or.inl (g_ascii_tolower_islower a h4)
        · exact ih _ c h
    · rcases List.mem_cons.mp hc with rfl | h
      · exact Or.inl (g_ascii_tolower_islower a h4)
      · exact ih _ c h
    · exact ih _ c hc

/-- A name of lowercase letters, digits and underscores keeps its characters, but for
the underscores, which become hyphens. -/
theorem gname_to_scm_name_loop_lower (gname : List Char) (was_lower : Bool)
    (hc : ∀ c ∈ gname, g_ascii_islower c = true ∨ g_ascii_isdigit c = true ∨ c = '_') :
    gname_to_scm_name_loop was_lower gname = gname.map (fun c => if c = '_' then '-' else c) := by
  induction gname generalizing was_lower with
  | nil => rfl
  | cons c rest ih =>
    have hrest := fun d hd => hc d (List.mem_cons_of_mem _ hd)
    rw [gname_to_scm_name_loop, List.map_cons]
    rcases hc c (List.mem_cons_self _ _) with h | h | h
    · have hne := ((g_ascii_classes_disjoint c).1 h).2.2.1
      simp [h, hne, ih true hrest]
    · obtain ⟨hl, hne, hne2⟩ := (g_ascii_classes_disjoint c).2 h
      simp [h, hl, hne, hne2, ih false hrest]
    · subst h
      have hl : g_ascii_islower '_' = false := rfl
      simp [hl, ih false hrest]

/-- C26: for a C-style name (letters, digits, underscores, hyphens) `gname_to_scm_name`
returns the described name: lowercase letters and digits kept, each `_` or `-` replaced
by `-`, each uppercase letter replaced by its lowercase form with a `-` in front
exactly when the immediately preceding input character was a lowercase letter.  The
result is over the alphabet a-z, 0-9, `-`, and a name of lowercase letters, digits and
underscores comes back with every underscore replaced by a hyphen. -/
theorem C26_gname_to_scm_name (gname : List Char) (hc : ∀ c ∈ gname, is_gname_char c = true) :
    gname_to_scm_name gname = described_scm_name none gname ∧
    (∀ c ∈ gname_to_scm_name gname,
      g_ascii_islower c = true ∨ g_ascii_isdigit c = true ∨ c = '-') ∧
    ((∀ c ∈ gname, g_ascii_islower c = true ∨ g_ascii_isdigit c = true ∨ c = '_') →
      gname_to_scm_name gname = gname.map (fun c => if c = '_' then '-' else c)) :=
  ⟨gname_to_scm_name_loop_described gname false none rfl hc,
   gname_to_scm_name_loop_alphabet gname false,
   gname_to_scm_name_loop_lower gname false⟩

theorem C26_gname_to_scm_name_witness :
    gname_to_scm_name "foo_bar".toList = "foo-bar".toList ∧
    gname_to_scm_name "GtkWidget".toList = "gtk-widget".toList :=
  ⟨((C26_gname_to_scm_name "foo_bar".toList (by decide)).2.2 (by decide)).trans (by rfl),
   ((C26_gname_to_scm_name "GtkWidget".toList (by decide)).1).trans (by rfl)⟩

/-! ## The length of a zero-terminated array: C27 and C28 -/

theorem le_value_eq_zero (c : List Nat) : le_value c = 0 ↔ ∀ b ∈ c, b = 0 := by
  induction c with
  | nil => simp [le_value]
  | cons b rest ih =>
    simp only [le_value, List.mem_cons, forall_eq_or_imp]
    constructor
    · intro h
      have hb : b = 0 := by omega
      have hr : le_value rest = 0 := by omega
      exact ⟨hb, ih.mp hr⟩
    · rintro ⟨hb, hr⟩
      rw [hb, ih.mpr hr]

theorem le_value_replicate_zero (n : Nat) : le_value (List.replicate n 0) = 0 :=
  (le_value_eq_zero _).mpr (fun _ hb => (List.mem_replicate.mp hb).2)

/-- The zero scan counts the objects in front of the first all-zero object, given
enough fuel. -/
theorem zero_scan_count (size : Nat) (pre : List (List Nat)) (post : List Nat) (fuel : Nat)
    (hlen : ∀ c ∈ pre, c.length = size) (hnz : ∀ c ∈ pre, ∃ b ∈ c, b ≠ 0)
    (hfuel : pre.length < fuel) :
    zero_scan size fuel (pre.flatten ++ List.replicate size 0 ++ post) = .ok pre.length := by
  induction pre generalizing fuel with
  | nil =>
    obtain ⟨f, rfl⟩ : ∃ f, fuel = f + 1 := ⟨fuel - 1, by simp at hfuel; omega⟩
    simp [zero_scan, List.take_append_of_le_length, le_value_replicate_zero]
  | cons c pre ih =>
    obtain ⟨f, rfl⟩ : ∃ f, fuel = f + 1 := ⟨fuel - 1, by simp at hfuel; omega⟩
    have hc : c.length = size := hlen c (List.mem_cons_self _ _)
    have hcz : le_value c ≠ 0 := by
      intro h0
      obtain ⟨b, hb, hb0⟩ := hnz c (List.mem_cons_self _ _)
      exact hb0 ((le_value_eq_zero c).mp h0 b hb)
    have ih2 := ih f (fun d hd => hlen d (List.mem_cons_of_mem _ hd))
      (fun d hd => hnz d (List.mem_cons_of_mem _ hd)) (by simp at hfuel; omega)
    have htake : (c ++ (pre.flatten ++ List.replicate size 0 ++ post)).take size = c := by
      rw [← hc]; simp
    have hdrop : (c ++ (pre.flatten ++ List.replicate size 0 ++ post)).drop size
        = pre.flatten ++ List.replicate size 0 ++ post := by
      rw [← hc]; simp
    have hlt : ¬ (c ++ (pre.flatten ++ List.replicate size 0 ++ post)).length < size := by
      simp only [List.length_append]; omega
    simp only [List.flatten_cons, List.append_assoc] at *
    rw [zero_scan]
    simp only [hlt, if_false, htake, hcz, hdrop, ih2]
    rfl

/-- The null scan counts the pointers in front of the first null pointer. -/
theorem null_scan_count (pre : List Ptr) (post : List Elem) (hpre : ∀ p ∈ pre, p ≠ Ptr.null) :
    null_scan (pre.map Elem.ptr ++ Elem.ptr Ptr.null :: post) = .ok pre.length := by
  induction pre with
  | nil => simp [null_scan, Ptr.is_null]
  | cons p pre ih =>
    have hp : p.is_null = false := by
      simp [Ptr.is_null, hpre p (List.mem_cons_self _ _)]
    have ih2 := ih (fun q hq => hpre q (List.mem_cons_of_mem _ hq))
    show null_scan (Elem.ptr p :: (pre.map Elem.ptr ++ Elem.ptr Ptr.null :: post)) = _
    rw [null_scan, hp, ih2]
    rfl

theorem flatten_length_ge (size : Nat) (hs : 0 < size) (pre : List (List Nat))
    (hlen : ∀ c ∈ pre, c.length = size) : pre.length ≤ pre.flatten.length := by
  induction pre with
  | nil => simp
  | cons c pre ih =>
    have hc := hlen c (List.mem_cons_self _ _)
    have := ih (fun d hd => hlen d (List.mem_cons_of_mem _ hd))
    simp only [List.flatten_cons, List.length_append, List.length_cons]
    omega

/-- C27: `zero_terminated_carray_length` returns 0 for a null array; for an array of
strings the number of pointers in front of the first null pointer, which is the index
of that pointer; and for the element sizes 1, 2, 4 and 8 the number of elements in
front of the first all-zero element of the buffer. -/
theorem C27_zero_terminated_carray_length (meta p0 : GigTypeMeta) (rest : List GigTypeMeta)
    (hp : meta.params = p0 :: rest) :
    (∀ array : GIArgument, array.is_null = true →
      zero_terminated_carray_length meta array = .ok 0) ∧
    (∀ (own : Bool) (pre : List Ptr) (post : List Elem),
      G_TYPE_FUNDAMENTAL p0.gtype = G_TYPE_STRING → (∀ p ∈ pre, p ≠ Ptr.null) →
      zero_terminated_carray_length meta
          (.carray own (pre.map Elem.ptr ++ Elem.ptr Ptr.null :: post))
        = .ok pre.length) ∧
    (∀ (array : GIArgument) (pre : List (List Nat)) (post : List Nat),
      G_TYPE_FUNDAMENTAL p0.gtype ≠ G_TYPE_STRING → p0.item_size ∈ [1, 2, 4, 8] →
      array.is_null = false →
      array.buffer_bytes = .ok (pre.flatten ++ List.replicate p0.item_size 0 ++ post) →
      (∀ c ∈ pre, c.length = p0.item_size ∧ ∃ b ∈ c, b ≠ 0) →
      zero_terminated_carray_length meta array = .ok pre.length) := by
  have hp0 : meta.params0 = .ok p0 := by simp [GigTypeMeta.params0, hp]
  refine ⟨?_, ?_, ?_⟩
  · intro array hnull
    simp [zero_terminated_carray_length, hnull]
  · intro own pre post hstr hpre
    simp only [zero_terminated_carray_length, GIArgument.is_null, Bool.false_eq_true, if_false,
      hp0, bind, Except.bind, hstr, if_true]
    exact null_scan_count pre post hpre
  · intro array pre post hstr hsize hnull hbytes hpre
    have hs : 0 < p0.item_size := by
      simp only [List.mem_cons, List.mem_singleton, List.not_mem_nil, or_false] at hsize
      omega
    have hsz : p0.item_size = 1 ∨ p0.item_size = 2 ∨ p0.item_size = 4 ∨ p0.item_size = 8 := by
      simpa using hsize
    have h0 : ¬ p0.item_size = 0 := by omega
    have hge := flatten_length_ge p0.item_size hs pre (fun c hc => (hpre c hc).1)
    simp only [zero_terminated_carray_length, hnull, Bool.false_eq_true, if_false,
      hp0, bind, Except.bind, hstr, h0, hsz, if_true, hbytes]
    apply zero_scan_count p0.item_size pre post _ (fun c hc => (hpre c hc).1)
      (fun c hc => (hpre c hc).2)
    simp only [List.length_append]
    omega

theorem C27_zero_terminated_carray_length_witness :
    zero_terminated_carray_length unichar_array_meta
        (.carray false [Elem.raw [1, 0, 0, 0], Elem.raw [2, 1, 0, 0], Elem.raw [0, 0, 0, 0],
          Elem.raw [7, 0, 0, 0]])
      = .ok [[1, 0, 0, 0], [2, 1, 0, 0]].length :=
  (C27_zero_terminated_carray_length unichar_array_meta
      { leaf_meta G_TYPE_UNICHAR with item_size := 4 } [] rfl).2.2
    (.carray false [Elem.raw [1, 0, 0, 0], Elem.raw [2, 1, 0, 0], Elem.raw [0, 0, 0, 0],
      Elem.raw [7, 0, 0, 0]])
    [[1, 0, 0, 0], [2, 1, 0, 0]] [7, 0, 0, 0] (by decide) (by decide) rfl (by rfl)
    (by decide)

theorem default_case_non_null_true (D : DataModel) (item_size ptr : Nat) (hs : 1 ≤ item_size) :
    default_case_non_null D item_size ptr = true := by
  have hbig : 2 ≤ 2 ^ POINTER_BITS D := by
    cases D <;> decide
  unfold default_case_non_null
  rw [List.any_eq_true]
  by_cases h0 : ptr % 2 ^ POINTER_BITS D = 0
  · refine ⟨1, List.mem_range.mpr (by omega), ?_⟩
    have h1 : (ptr + 1) % 2 ^ POINTER_BITS D = 1 := by
      rw [Nat.add_mod, h0, Nat.zero_add, Nat.mod_mod]
      exact Nat.mod_eq_of_lt (by omega)
    simp [h1]
  · refine ⟨0, List.mem_range.mpr (by omega), ?_⟩
    simpa using h0

/-- The loop of the `default` case returns no length, however many turns it is
given. -/
theorem default_case_loop_never_returns (D : DataModel) (item_size : Nat) (hs : 1 ≤ item_size)
    (fuel ptr length : Nat) : default_case_loop D item_size fuel ptr length = none := by
  induction fuel generalizing ptr length with
  | zero => rfl
  | succ fuel ih =>
    rw [default_case_loop, default_case_non_null_true D item_size ptr hs]
    exact ih _ _

/-- C28 (code defect). For elements of 3 bytes and the buffer 1 2 3 0 0 0, whose second
element is all zero, `zero_terminated_carray_length` does not return 1: the loop of
the `default` case compares addresses with 0, never the bytes, and returns no length
for any address of the buffer and any number of turns.  The same holds for elements of
12 and 16 bytes.  With elements of 4 bytes the scan returns 1 for the buffer
1 2 3 4 0 0 0 0. -/
theorem C28_default_case_never_returns :
    zero_terminated_carray_length (struct_array_meta G_TYPE_ZERO_TERMINATED_CARRAY 3)
        (.carray false [Elem.raw [1, 2, 3], Elem.raw [0, 0, 0]])
      = .error Throw.abort ∧
    (∀ fuel ptr : Nat, default_case_loop .LP64 3 fuel ptr 0 = none) ∧
    (∀ fuel ptr : Nat, default_case_loop .LP64 12 fuel ptr 0 = none) ∧
    (∀ fuel ptr : Nat, default_case_loop .LP64 16 fuel ptr 0 = none) ∧
    zero_terminated_carray_length (struct_array_meta G_TYPE_ZERO_TERMINATED_CARRAY 4)
        (.carray false [Elem.raw [1, 2, 3, 4], Elem.raw [0, 0, 0, 0]])
      = .ok 1 :=
  ⟨by rfl, fun fuel ptr => default_case_loop_never_returns _ 3 (by decide) fuel ptr 0,
   fun fuel ptr => default_case_loop_never_returns _ 12 (by decide) fuel ptr 0,
   fun fuel ptr => default_case_loop_never_returns _ 16 (by decide) fuel ptr 0, by rfl⟩

/-! ## From a typed value to a `GIArgument` and back: C29 -/

/-- The round trip through `gig_value2arg` and `gig_arg2value` keeps the value of every
integer kind. -/
theorem value_arg_round_trip_integer (D : DataModel) (k : GType) (hk : k ∈ integer_kinds)
    (v : Int) (hv : kind_min D k ≤ v ∧ v ≤ kind_max D k) (arg0 : GIArgument) (size : Nat) :
    ∃ arg, gig_value2arg { g_type := k, data := .int v } arg0 size = .ok (arg, size) ∧
      gig_arg2value D (g_value_init k) arg 0 = .ok { g_type := k, data := .int v } := by
  simp only [integer_kinds, List.mem_cons, List.mem_singleton, List.not_mem_nil, or_false] at hk
  rcases hk with h | h | h | h | h | h | h | h | h | h | h | h <;> subst h <;> cases D <;>
    simp only [kind_min, kind_max, INT8_MIN, INT8_MAX, UINT8_MAX, INT16_MIN, INT16_MAX,
      UINT16_MAX, INT32_MIN, INT32_MAX, UINT32_MAX, INT64_MIN, INT64_MAX, UINT64_MAX, INT_MIN,
      INT_MAX, UINT_MAX, LONG_MIN, LONG_MAX, ULONG_MAX, LONG_BITS] at hv <;>
    norm_num at hv <;>
    refine ⟨_, rfl, ?_⟩ <;>
    simp [gig_arg2value, G_VALUE_TYPE, G_TYPE_FUNDAMENTAL, g_value_init, zero_data,
      GIArgument.v_integer, g_value_set_schar, g_value_set_uchar, g_value_set_int,
      g_value_set_uint, g_value_set_long, g_value_set_ulong, g_value_set_int64,
      g_value_set_uint64, G_VALUE_HOLDS, g_type_is_a, LONG_BITS, bind, Except.bind, pure,
      Except.pure, g_value_get_schar, g_value_get_uchar, g_value_get_int, g_value_get_uint,
      g_value_get_long, g_value_get_ulong, g_value_get_int64, g_value_get_uint64, GData.as_int,
      wrap_signed, wrap_unsigned] <;>
    omega

theorem c_real_to_int_three_halves : c_real_to_int (3 / 2) = .ok 1 := by
  have h0 : (0 : Rat) ≤ 3 / 2 := by norm_num
  have h1 : Rat.floor (3 / 2 : Rat) = 1 := by
    rw [Rat.floor_def']; norm_num
  simp only [c_real_to_int, h0, if_true, h1]
  rfl

/-- For the kinds float and double `gig_arg2value` leaves the container as it was. -/
theorem gig_arg2value_real_unchanged (D : DataModel) (k : GType)
    (hk : k = G_TYPE_FLOAT ∨ k = G_TYPE_DOUBLE) (q : Rat) (v : Int)
    (hq : c_real_to_int q = .ok v) :
    gig_arg2value D (g_value_init k) (.real q) 0 = .ok (g_value_init k) := by
  rcases hk with rfl | rfl <;>
    simp [gig_arg2value, G_VALUE_TYPE, G_TYPE_FUNDAMENTAL, g_value_init, GIArgument.v_real, hq,
      g_value_set_enum, G_VALUE_HOLDS, g_type_is_a, bind, Except.bind, pure, Except.pure]

/-- C29 (code defect). A double container that holds 1.5 goes into the `GIArgument`
as 1.5, but `gig_arg2value` into a container pre-typed as double leaves that container
at its initial 0: for the kinds float and double it stores with `g_value_set_enum`,
which refuses a container that is not an enumeration.  The same happens to a float
container.  An int, a boolean, an enumeration, a flags, a string and a pointer
container come back with their value. -/
theorem C29_real_value_lost_in_round_trip :
    gig_value2arg { g_type := G_TYPE_DOUBLE, data := .real (3 / 2) } (.int 0) 0
      = .ok (.real (3 / 2), 0) ∧
    gig_arg2value .LP64 (g_value_init G_TYPE_DOUBLE) (.real (3 / 2)) 0
      = .ok { g_type := G_TYPE_DOUBLE, data := .real 0 } ∧
    gig_value2arg { g_type := G_TYPE_FLOAT, data := .real (3 / 2) } (.int 0) 0
      = .ok (.real (3 / 2), 0) ∧
    gig_arg2value .LP64 (g_value_init G_TYPE_FLOAT) (.real (3 / 2)) 0
      = .ok { g_type := G_TYPE_FLOAT, data := .real 0 } ∧
    g_value_set_enum (g_value_init G_TYPE_DOUBLE) 1 = g_value_init G_TYPE_DOUBLE ∧
    g_value_set_double (g_value_init G_TYPE_DOUBLE) (3 / 2)
      = { g_type := G_TYPE_DOUBLE, data := .real (3 / 2) } ∧
    gig_value2arg { g_type := G_TYPE_INT, data := .int (-7) } (.int 0) 0 = .ok (.int (-7), 0) ∧
    gig_arg2value .LP64 (g_value_init G_TYPE_INT) (.int (-7)) 0
      = .ok { g_type := G_TYPE_INT, data := .int (-7) } ∧
    gig_value2arg { g_type := G_TYPE_BOOLEAN, data := .int 1 } (.int 0) 0 = .ok (.int 1, 0) ∧
    gig_arg2value .LP64 (g_value_init G_TYPE_BOOLEAN) (.int 1) 0
      = .ok { g_type := G_TYPE_BOOLEAN, data := .int 1 } ∧
    gig_value2arg { g_type := GType.enum_class 1, data := .int 2 } (.int 0) 0
      = .ok (.int 2, 0) ∧
    gig_arg2value .LP64 (g_value_init (GType.enum_class 1)) (.int 2) 0
      = .ok { g_type := GType.enum_class 1, data := .int 2 } ∧
    gig_value2arg { g_type := GType.flags_class 1, data := .int 6 } (.int 0) 0
      = .ok (.int 6, 0) ∧
    gig_arg2value .LP64 (g_value_init (GType.flags_class 1)) (.int 6) 0
      = .ok { g_type := GType.flags_class 1, data := .int 6 } ∧
    gig_value2arg { g_type := G_TYPE_STRING, data := .string (some [104, 105, 0]) } (.int 0) 0
      = .ok (.string (some [104, 105, 0]), 0) ∧
    gig_arg2value .LP64 (g_value_init G_TYPE_STRING) (.string (some [104, 105, 0])) 0
      = .ok { g_type := G_TYPE_STRING, data := .string (some [104, 105, 0]) } ∧
    gig_value2arg { g_type := G_TYPE_POINTER, data := .pointer (Ptr.addr 64) } (.int 0) 0
      = .ok (.pointer (Ptr.addr 64), 0) ∧
    gig_arg2value .LP64 (g_value_init G_TYPE_POINTER) (.pointer (Ptr.addr 64)) 0
      = .ok { g_type := G_TYPE_POINTER, data := .pointer (Ptr.addr 64) } := by
  exact ⟨by rfl, gig_arg2value_real_unchanged _ _ (Or.inr rfl) _ 1 c_real_to_int_three_halves,
    by rfl, gig_arg2value_real_unchanged _ _ (Or.inl rfl) _ 1 c_real_to_int_three_halves,
    by rfl, by rfl, by rfl, by rfl, by rfl, by rfl, by rfl, by rfl, by rfl, by rfl, by rfl,
    by rfl, by rfl, by rfl⟩

/-! ## The stored message of a `GError`: C30 -/

theorem c_string_bytes_append_nul (text rest : List Nat) (h : ∀ b ∈ text, b ≠ 0) :
    c_string_bytes (text ++ 0 :: rest) = text := by
  unfold c_string_bytes
  induction text with
  | nil => simp
  | cons b bs ih =>
    have hb : b ≠ 0 := h b (List.mem_cons_self _ _)
    have ih2 := ih (fun x hx => h x (List.mem_cons_of_mem _ hx))
    simpa [List.takeWhile_cons, hb] using ih2

/-- What `store_gerror_message` leaves in `gerror_msg`: 100 bytes; the text is the
message when it has at most 98 bytes, and the first 96 bytes of the message followed by
three dots when it has 99 bytes or more. -/
theorem store_gerror_message_text (msg : List Nat) (h : ∀ b ∈ msg, b ≠ 0) :
    (store_gerror_message msg).length = 100 ∧
    (msg.length ≤ 98 → c_string_bytes (store_gerror_message msg) = msg) ∧
    (99 ≤ msg.length →
      c_string_bytes (store_gerror_message msg) = msg.take 96 ++ [46, 46, 46]) := by
  refine ⟨?_, ?_, ?_⟩
  · unfold store_gerror_message
    simp only [MAX_GERROR_MSG]
    split_ifs <;> simp only [List.length_set, List.length_append, List.length_replicate,
      List.length_take] <;> omega
  · intro hle
    have hnot : ¬ msg.length ≥ MAX_GERROR_MSG - 1 := by simp only [MAX_GERROR_MSG]; omega
    have htake : msg.take (MAX_GERROR_MSG - 1) = msg :=
      List.take_of_length_le (by simp only [MAX_GERROR_MSG]; omega)
    simp only [store_gerror_message, hnot, if_false, htake]
    obtain ⟨n, hn⟩ : ∃ n, MAX_GERROR_MSG - msg.length = n + 1 :=
      ⟨MAX_GERROR_MSG - msg.length - 1, by simp only [MAX_GERROR_MSG]; omega⟩
    rw [hn, List.replicate_succ]
    exact c_string_bytes_append_nul msg _ h
  · intro hge
    have hcond : msg.length ≥ 100 - 1 := by omega
    have hsplit : msg.take 99 = msg.take 96 ++ (msg.drop 96).take 3 := by
      rw [← List.take_add]
    have hlen3 : ((msg.drop 96).take 3).length = 3 := by
      simp only [List.length_take, List.length_drop]; omega
    obtain ⟨a, b, c, habc⟩ := List.length_eq_three.mp hlen3
    have hp : (msg.take 96).length = 96 := by
      simp only [List.length_take]; omega
    simp only [store_gerror_message, MAX_GERROR_MSG, hcond, if_true]
    have hbuf : List.take (100 - 1) msg
          ++ List.replicate (100 - (List.take (100 - 1) msg).length) 0
        = msg.take 96 ++ [a, b, c, 0] := by
      have h99 : (List.take 99 msg).length = 99 := by
        simp only [List.length_take]; omega
      show List.take 99 msg ++ List.replicate (100 - (List.take 99 msg).length) 0 = _
      rw [h99, hsplit, habc]
      simp
    rw [hbuf]
    have hset : (((msg.take 96 ++ [a, b, c, 0]).set (100 - 2) 46).set (100 - 3) 46).set
        (100 - 4) 46 = msg.take 96 ++ [46, 46, 46] ++ 0 :: [] := by
      simp [List.set_append, hp]
    rw [hset]
    apply c_string_bytes_append_nul
    intro x hx
    rcases List.mem_append.mp hx with hx | hx
    · exact h x (List.mem_of_mem_take hx)
    · simp only [List.mem_cons, List.mem_singleton, List.not_mem_nil, or_false] at hx
      rcases hx with rfl | rfl | rfl <;> decide

/-- C30 (code defect). A message of 99 bytes fits into the 100-byte buffer with its
terminating NUL, but `store_gerror_message` overwrites its last three bytes with dots:
the test is `strlen (msg) >= MAX_GERROR_MSG - 1`.  Messages of 98 and of 100 bytes are
stored as the claim says. -/
theorem C30_message_of_99_bytes_is_cut :
    (List.replicate 99 97).length ≤ 99 ∧
    c_string_bytes (store_gerror_message (List.replicate 99 97))
      = List.replicate 96 97 ++ [46, 46, 46] ∧
    c_string_bytes (store_gerror_message (List.replicate 99 97)) ≠ List.replicate 99 97 ∧
    c_string_bytes (store_gerror_message (List.replicate 98 97)) = List.replicate 98 97 ∧
    c_string_bytes (store_gerror_message (List.replicate 100 97))
      = List.replicate 96 97 ++ [46, 46, 46] ∧
    (store_gerror_message (List.replicate 99 97)).length = 100 := by
  have hnz : ∀ n : Nat, ∀ b ∈ List.replicate n 97, b ≠ 0 := by
    intro n b hb
    rw [List.mem_replicate] at hb
    omega
  have h99 := (store_gerror_message_text (List.replicate 99 97) (hnz 99)).2.2 (by simp)
  have h98 := (store_gerror_message_text (List.replicate 98 97) (hnz 98)).2.1 (by simp)
  have h100 := (store_gerror_message_text (List.replicate 100 97) (hnz 100)).2.2 (by simp)
  have hlen := (store_gerror_message_text (List.replicate 99 97) (hnz 99)).1
  rw [List.take_replicate] at h99 h100
  refine ⟨by simp, h99, ?_, h98, h100, hlen⟩
  rw [h99]
  intro h
  have h2 := congrArg List.getLast? h
  simp at h2

end Gig
